import Mathlib

/-! Sigil main window: zoom mapping, view-state machine, action tables, location bookmark,
stylesheet links and structural edits.

A shallow embedding of the zoom, view-state, enabled-action, bookmark, stylesheet-map,
merge, split and index/contents generation logic of `src/Sigil/MainUI/MainWindow.cpp`.

Floating point.  The C++ code computes on `float` (IEEE 754 binary32) and `double`
(binary64).  A finite floating-point value is represented by the rational number it
denotes, and every arithmetic operation of the source is the exact rational operation
followed by rounding to nearest, ties to even, into the format of the C++ result type
(`f32`, `f64`); the conversions `int -> double` and `float -> double` are exact.
Expressions are evaluated in the precision of their C++ type (no extended intermediate
precision).  Infinities and NaN do not occur in this rational model: the theorems on it
bound their inputs or evaluate the code at one finite input, and every intermediate
magnitude stays below `2 ^ 22`, far from overflow.  The zoom code is embedded a second time
on every value a `float` can hold (`FloatValue`, `IEEE.ZoomByFactor`), where a comparison
with a NaN operand is false.

Collaborators.  The tab manager, the book with its OPF, the book browser and the dialogs
are not part of `MainWindow.cpp`; they are parameters (`Collaborators`,
`EditCollaborators`) over an abstract state, and every call made on them is recorded in
order in the window state.
-/

namespace Sigil

/-! ## Binary floating-point rounding -/

/-- The power of two `2 ^ e` for an integer exponent, as a rational. -/
def pow2 (e : ℤ) : ℚ :=
  if 0 ≤ e then ((2 ^ e.toNat : ℕ) : ℚ) else 1 / ((2 ^ (-e).toNat : ℕ) : ℚ)

/-- Binary logarithm by repeated halving; `fuel` bounds the number of halvings. -/
def log2Aux : ℕ → ℕ → ℕ
  | 0, _ => 0
  | fuel + 1, n => if n < 2 then 0 else log2Aux fuel (n / 2) + 1

/-- Floor of the binary logarithm of a positive natural number. -/
def natLog2 (n : ℕ) : ℕ := log2Aux n n

/-- Floor of the binary logarithm of `|x|` for a non-zero rational `x`
(the exponent of its leading binary digit). -/
def ilog2 (x : ℚ) : ℤ :=
  let k : ℤ := (natLog2 x.num.natAbs : ℤ) - (natLog2 x.den : ℤ)
  if pow2 k ≤ |x| then k else k - 1

/-- Round a rational to the nearest integer, ties to the even integer. -/
def roundNE (q : ℚ) : ℤ :=
  let f := ⌊q⌋
  let r := q - f
  if r < 1 / 2 then f
  else if 1 / 2 < r then f + 1
  else if f % 2 = 0 then f else f + 1

/-- Round `x` to the binary floating-point format with `prec` significand bits and least
exponent `emin` (gradual underflow), to nearest with ties to even. -/
def rnd (prec emin : ℤ) (x : ℚ) : ℚ :=
  if x = 0 then 0
  else
    let e := max (ilog2 x + 1 - prec) emin
    (roundNE (x / pow2 e) : ℚ) * pow2 e

/-- Rounding to C++ `float` (IEEE 754 binary32). -/
def f32 (x : ℚ) : ℚ := rnd 24 (-149) x

/-- Rounding to C++ `double` (IEEE 754 binary64). -/
def f64 (x : ℚ) : ℚ := rnd 53 (-1074) x

/-- A rational is the value of a `float` when rounding to binary32 leaves it unchanged. -/
def IsFloat (x : ℚ) : Prop := f32 x = x

instance (x : ℚ) : Decidable (IsFloat x) := by
  unfold IsFloat; infer_instance

/-! ## Qt helpers used by the zoom code (`qglobal.h`, Qt 4) -/

/-- Qt: `qAbs(t)` is `t >= 0 ? t : -t`. -/
def qAbs (t : ℚ) : ℚ := if 0 ≤ t then t else -t

/-- Qt: `qMin(a, b)` is `a < b ? a : b`. -/
def qMin (a b : ℚ) : ℚ := if a < b then a else b

/-- Qt: `qFuzzyCompare(float p1, float p2)` is
`qAbs(p1 - p2) <= 0.00001f * qMin(qAbs(p1), qAbs(p2))`, evaluated in `float`. -/
def qFuzzyCompare (p1 p2 : ℚ) : Bool :=
  decide (qAbs (f32 (p1 - p2)) ≤ f32 (f32 (1 / 100000) * qMin (qAbs p1) (qAbs p2)))

/-- C++ conversion `int(d)` of a `double`: truncation toward zero. -/
def truncInt (d : ℚ) : ℤ := if 0 ≤ d then ⌊d⌋ else ⌈d⌉

/-- Qt: `qRound(double d)` is
`d >= 0.0 ? int(d + 0.5) : int(d - int(d-1) + 0.5) + int(d-1)`, evaluated in `double`. -/
def qRound (d : ℚ) : ℤ :=
  if 0 ≤ d then truncInt (f64 (d + 1 / 2))
  else truncInt (f64 (f64 (d - (truncInt (f64 (d - 1)) : ℚ)) + 1 / 2)) + truncInt (f64 (d - 1))

/-! ## Zoom constants (`MainWindow.cpp`, lines 80-86) -/

/-- Source: `const float ZOOM_STEP = 0.1f`. -/
def ZOOM_STEP : ℚ := f32 (1 / 10)
/-- Source: `const float ZOOM_MIN = 0.09f`. -/
def ZOOM_MIN : ℚ := f32 (9 / 100)
/-- Source: `const float ZOOM_MAX = 5.0f`. -/
def ZOOM_MAX : ℚ := f32 5
/-- Source: `const float ZOOM_NORMAL = 1.0f`. -/
def ZOOM_NORMAL : ℚ := f32 1
/-- Source: `static const int ZOOM_SLIDER_MIN = 0`. -/
def ZOOM_SLIDER_MIN : ℤ := 0
/-- Source: `static const int ZOOM_SLIDER_MAX = 1000`. -/
def ZOOM_SLIDER_MAX : ℤ := 1000
/-- Source: `static const int ZOOM_SLIDER_MIDDLE = 500`. -/
def ZOOM_SLIDER_MIDDLE : ℤ := 500

/-! ## Zoom factor / slider mapping -/

/-- Source: `MainWindow::ZoomFactorToSliderRange(float zoom_factor)`. -/
def ZoomFactorToSliderRange (zoom_factor : ℚ) : ℤ :=
  if qFuzzyCompare zoom_factor ZOOM_NORMAL then ZOOM_SLIDER_MIDDLE
  else if zoom_factor < ZOOM_NORMAL then
    let range : ℚ := f32 (ZOOM_NORMAL - ZOOM_MIN)
    let normalized_value : ℚ := f32 (zoom_factor - ZOOM_MIN)
    let range_proportion : ℚ := f64 (normalized_value / range)
    ZOOM_SLIDER_MIN
      + qRound (f64 (range_proportion * ((ZOOM_SLIDER_MIDDLE - ZOOM_SLIDER_MIN : ℤ) : ℚ)))
  else
    let range : ℚ := f32 (ZOOM_MAX - ZOOM_NORMAL)
    let normalized_value : ℚ := f32 (zoom_factor - ZOOM_NORMAL)
    let range_proportion : ℚ := f64 (normalized_value / range)
    ZOOM_SLIDER_MIDDLE + qRound (f64 (range_proportion * ((ZOOM_SLIDER_MIDDLE : ℤ) : ℚ)))

/-- Source: `MainWindow::SliderRangeToZoomFactor(int slider_range_value)`. -/
def SliderRangeToZoomFactor (slider_range_value : ℤ) : ℚ :=
  if slider_range_value = ZOOM_SLIDER_MIDDLE then ZOOM_NORMAL
  else if slider_range_value < ZOOM_SLIDER_MIDDLE then
    let range : ℚ := ((ZOOM_SLIDER_MIDDLE - ZOOM_SLIDER_MIN : ℤ) : ℚ)
    let normalized_value : ℚ := ((slider_range_value - ZOOM_SLIDER_MIN : ℤ) : ℚ)
    let range_proportion : ℚ := f64 (normalized_value / range)
    f32 (f64 (ZOOM_MIN + f64 (range_proportion * f32 (ZOOM_NORMAL - ZOOM_MIN))))
  else
    let range : ℚ := ((ZOOM_SLIDER_MAX - ZOOM_SLIDER_MIDDLE : ℤ) : ℚ)
    let normalized_value : ℚ := ((slider_range_value - ZOOM_SLIDER_MIDDLE : ℤ) : ℚ)
    let range_proportion : ℚ := f64 (normalized_value / range)
    f32 (f64 (ZOOM_NORMAL + f64 (range_proportion * f32 (ZOOM_MAX - ZOOM_NORMAL))))

/-! ## Resources, view states and tabs -/

/-- Source: `Resource::ResourceType`, the type tags tested by the main window; `Other`
stands for any further tag of the enumeration (none is named in `MainWindow.cpp`). -/
inductive ResourceType where
  | HTMLResourceType
  | CSSResourceType
  | XMLResourceType
  | OPFResourceType
  | NCXResourceType
  | MiscTextResourceType
  | SVGResourceType
  | TextResourceType
  | ImageResourceType
  | Other
  deriving DecidableEq, Repr

/-- Source: `MainWindow::ViewState`, the values used in `MainWindow.cpp`. -/
inductive ViewState where
  | ViewState_Unknown
  | ViewState_BookView
  | ViewState_PreviewView
  | ViewState_CodeView
  | ViewState_RawView
  deriving DecidableEq, Repr

/-- The current content tab as seen by the main window: the type of its loaded resource,
its zoom factor, the answer of `FlowTab::SetViewState` for each requested view state
(`none` when the tab is not a `FlowTab`), and the enabled/checked queries and the caret
element name (`GetCaretElementName()`, an XHTML tag name) read by `UpdateUIOnTabChanges`. -/
structure ContentTab where
  resourceType : ResourceType
  zoomFactor : ℚ
  flowTabSetViewState : Option (ViewState → Bool)
  CutEnabled : Bool
  CopyEnabled : Bool
  PasteEnabled : Bool
  DeleteLineEnabled : Bool
  AddToIndexEnabled : Bool
  MarkForIndexEnabled : Bool
  RemoveFormattingEnabled : Bool
  BoldChecked : Bool
  ItalicChecked : Bool
  UnderlineChecked : Bool
  StrikethroughChecked : Bool
  SubscriptChecked : Bool
  SuperscriptChecked : Bool
  AlignLeftChecked : Bool
  AlignRightChecked : Bool
  AlignCenterChecked : Bool
  AlignJustifyChecked : Bool
  BulletListChecked : Bool
  NumberListChecked : Bool
  GetCaretElementName : String

/-! ## Zoom stepping -/

/-- Source: `MainWindow::ZoomByFactor(float new_zoom_factor)`, on finite values.  The
argument `tab` is the current content tab (`none` when `&tab == NULL`); the result is the tab
afterwards.  `IEEE.ZoomByFactor` is the same code with the infinities and NaN among the
values of the argument. -/
def ZoomByFactor (tab : Option ContentTab) (new_zoom_factor : ℚ) : Option ContentTab :=
  match tab with
  | none => none
  | some t =>
    if new_zoom_factor > ZOOM_MAX ∨ new_zoom_factor < ZOOM_MIN then some t
    else some { t with zoomFactor := new_zoom_factor }

/-- Source: `MainWindow::ZoomByStep(bool zoom_in)`.  `RoundToOneDecimal` is
`Utility::RoundToOneDecimal`, which is not part of `MainWindow.cpp`. -/
def ZoomByStep (RoundToOneDecimal : ℚ → ℚ) (tab : Option ContentTab) (zoom_in : Bool) :
    Option ContentTab :=
  match tab with
  | none => none
  | some t =>
    let zoom_stepping : ℚ := if zoom_in then ZOOM_STEP else -ZOOM_STEP
    let rounding_helper : ℚ := if zoom_in then f32 (1 / 20) else -f32 (1 / 20)
    let current_zoom_factor : ℚ := t.zoomFactor
    let rounded_zoom_factor : ℚ :=
      RoundToOneDecimal (f32 (current_zoom_factor + rounding_helper))
    if qAbs (f32 (current_zoom_factor - rounded_zoom_factor)) < f32 (1 / 100) then
      ZoomByFactor tab (RoundToOneDecimal (f32 (current_zoom_factor + zoom_stepping)))
    else
      ZoomByFactor tab rounded_zoom_factor

/-- Source: `MainWindow::ZoomIn()`. -/
def ZoomIn (RoundToOneDecimal : ℚ → ℚ) (tab : Option ContentTab) : Option ContentTab :=
  ZoomByStep RoundToOneDecimal tab true

/-- Source: `MainWindow::ZoomOut()`. -/
def ZoomOut (RoundToOneDecimal : ℚ → ℚ) (tab : Option ContentTab) : Option ContentTab :=
  ZoomByStep RoundToOneDecimal tab false

/-- Source: `MainWindow::ZoomReset()`. -/
def ZoomReset (tab : Option ContentTab) : Option ContentTab :=
  ZoomByFactor tab ZOOM_NORMAL

/-- Source: `MainWindow::SliderZoom(int slider_value)`. -/
def SliderZoom (tab : Option ContentTab) (slider_value : ℤ) : Option ContentTab :=
  match tab with
  | none => none
  | some t =>
    let new_zoom_factor : ℚ := SliderRangeToZoomFactor slider_value
    let current_zoom_factor : ℚ := t.zoomFactor
    if !qFuzzyCompare new_zoom_factor current_zoom_factor then
      ZoomByFactor tab new_zoom_factor
    else some t

/-- The zoom entry points of the main window, as commands. -/
inductive ZoomCommand where
  | zoomIn
  | zoomOut
  | zoomReset
  | zoomByStep (zoom_in : Bool)
  | sliderZoom (slider_value : ℤ)

/-- Run one zoom command on the current tab. -/
def ZoomCommand.run (RoundToOneDecimal : ℚ → ℚ) (tab : Option ContentTab) :
    ZoomCommand → Option ContentTab
  | .zoomIn => ZoomIn RoundToOneDecimal tab
  | .zoomOut => ZoomOut RoundToOneDecimal tab
  | .zoomReset => ZoomReset tab
  | .zoomByStep zoom_in => ZoomByStep RoundToOneDecimal tab zoom_in
  | .sliderZoom slider_value => SliderZoom tab slider_value

/-- Run a sequence of zoom commands, left to right. -/
def runZoomCommands (RoundToOneDecimal : ℚ → ℚ) (tab : Option ContentTab)
    (cmds : List ZoomCommand) : Option ContentTab :=
  cmds.foldl (ZoomCommand.run RoundToOneDecimal) tab

/-! ## Action flags -/

/-- The actions of the main window whose enabled or checked state is set by the view-state
tables and by `UpdateUIOnTabChanges` (`ui.actionX`, and the menu `ui.menuHeadings`). -/
inductive Action where
  | actionBookView
  | actionSplitView
  | actionCodeView
  | actionPrintPreview
  | actionPrint
  | actionSplitSection
  | actionInsertSGFSectionMarker
  | actionInsertImage
  | actionInsertSpecialCharacter
  | actionInsertId
  | actionInsertHyperlink
  | actionInsertClosingTag
  | actionUndo
  | actionRedo
  | actionPasteClipboardHistory
  | actionBold
  | actionItalic
  | actionUnderline
  | actionStrikethrough
  | actionSubscript
  | actionSuperscript
  | actionAlignLeft
  | actionAlignCenter
  | actionAlignRight
  | actionAlignJustify
  | actionDecreaseIndent
  | actionIncreaseIndent
  | actionTextDirectionLTR
  | actionTextDirectionRTL
  | actionTextDirectionDefault
  | actionInsertBulletedList
  | actionInsertNumberedList
  | actionShowTag
  | actionRemoveFormatting
  | menuHeadings
  | actionHeading1
  | actionHeading2
  | actionHeading3
  | actionHeading4
  | actionHeading5
  | actionHeading6
  | actionHeadingNormal
  | actionCasingLowercase
  | actionCasingUppercase
  | actionCasingTitlecase
  | actionCasingCapitalize
  | actionFind
  | actionFindNext
  | actionFindPrevious
  | actionReplaceCurrent
  | actionReplaceNext
  | actionReplacePrevious
  | actionReplaceAll
  | actionCount
  | actionGoToLine
  | actionGoToLinkOrStyle
  | actionAddMisspelledWord
  | actionIgnoreMisspelledWord
  | actionAutoSpellCheck
  | actionCut
  | actionCopy
  | actionPaste
  | actionDeleteLine
  | actionAddToIndex
  | actionMarkForIndex
  deriving DecidableEq, Repr

/-- The enabled and checked flag of every action. -/
structure Ui where
  enabled : Action → Bool
  checked : Action → Bool

/-- Qt: `action->setEnabled(b)`. -/
def Ui.setEnabled (ui : Ui) (a : Action) (b : Bool) : Ui :=
  { ui with enabled := fun x => if x = a then b else ui.enabled x }

/-- Qt: `action->setChecked(b)`. -/
def Ui.setChecked (ui : Ui) (a : Action) (b : Bool) : Ui :=
  { ui with checked := fun x => if x = a then b else ui.checked x }

/-- Source: `MainWindow::SelectEntryOnHeadingToolbar(const QString &element_name)`.
`element_name[i]` is the character at index `i`, the terminating `QChar(0)` past the end;
`QChar::toLower` and `QChar::isDigit` are taken on tag names, which are ASCII. -/
def SelectEntryOnHeadingToolbar (element_name : String) (ui : Ui) : Ui :=
  let cleared : Ui := ui
    |>.setChecked .actionHeading1 false
    |>.setChecked .actionHeading2 false
    |>.setChecked .actionHeading3 false
    |>.setChecked .actionHeading4 false
    |>.setChecked .actionHeading5 false
    |>.setChecked .actionHeading6 false
    |>.setChecked .actionHeadingNormal false
  if !element_name.isEmpty then
    if (element_name.toList.getD 0 (Char.ofNat 0)).toLower = 'h' ∧
        (element_name.toList.getD 1 (Char.ofNat 0)).isDigit = true then
      let heading_name : String := String.singleton (element_name.toList.getD 1 (Char.ofNat 0))
      if heading_name = "1" then cleared.setChecked .actionHeading1 true
      else if heading_name = "2" then cleared.setChecked .actionHeading2 true
      else if heading_name = "3" then cleared.setChecked .actionHeading3 true
      else if heading_name = "4" then cleared.setChecked .actionHeading4 true
      else if heading_name = "5" then cleared.setChecked .actionHeading5 true
      else if heading_name = "6" then cleared.setChecked .actionHeading6 true
      else cleared
    else cleared.setChecked .actionHeadingNormal true
  else cleared

/-- Source: `MainWindow::UpdateUIOnTabChanges()`, the action flags it sets, the heading
toolbar included (its updates of the zoom controls and of the cursor-position label are not
action flags). -/
def UpdateUIOnTabChanges (tab : Option ContentTab) (ui : Ui) : Ui :=
  match tab with
  | none => ui
  | some t => ui
    |>.setEnabled .actionCut t.CutEnabled
    |>.setEnabled .actionCopy t.CopyEnabled
    |>.setEnabled .actionPaste t.PasteEnabled
    |>.setEnabled .actionDeleteLine t.DeleteLineEnabled
    |>.setEnabled .actionAddToIndex t.AddToIndexEnabled
    |>.setEnabled .actionMarkForIndex t.MarkForIndexEnabled
    |>.setEnabled .actionRemoveFormatting t.RemoveFormattingEnabled
    |>.setChecked .actionBold t.BoldChecked
    |>.setChecked .actionItalic t.ItalicChecked
    |>.setChecked .actionUnderline t.UnderlineChecked
    |>.setChecked .actionStrikethrough t.StrikethroughChecked
    |>.setChecked .actionSubscript t.SubscriptChecked
    |>.setChecked .actionSuperscript t.SuperscriptChecked
    |>.setChecked .actionAlignLeft t.AlignLeftChecked
    |>.setChecked .actionAlignRight t.AlignRightChecked
    |>.setChecked .actionAlignCenter t.AlignCenterChecked
    |>.setChecked .actionAlignJustify t.AlignJustifyChecked
    |>.setChecked .actionInsertBulletedList t.BulletListChecked
    |>.setChecked .actionInsertNumberedList t.NumberListChecked
    |> SelectEntryOnHeadingToolbar t.GetCaretElementName

/-- Source: `MainWindow::SetStateActionsBookView()`, every `setChecked`/`setEnabled` call in source order,
then `UpdateUIOnTabChanges()`; the final `m_FindReplace->ShowHide()` acts on the Find and Replace
window, not on an action flag. -/
def SetStateActionsBookView (tab : Option ContentTab) (ui : Ui) : Ui :=
  UpdateUIOnTabChanges tab (ui
    |>.setChecked .actionBookView true
    |>.setChecked .actionSplitView false
    |>.setChecked .actionCodeView false
    |>.setEnabled .actionBookView true
    |>.setEnabled .actionSplitView true
    |>.setEnabled .actionCodeView true
    |>.setEnabled .actionPrintPreview true
    |>.setEnabled .actionPrint true
    |>.setEnabled .actionSplitSection true
    |>.setEnabled .actionInsertSGFSectionMarker true
    |>.setEnabled .actionInsertImage true
    |>.setEnabled .actionInsertSpecialCharacter true
    |>.setEnabled .actionInsertId true
    |>.setEnabled .actionInsertHyperlink true
    |>.setEnabled .actionInsertClosingTag false
    |>.setEnabled .actionUndo true
    |>.setEnabled .actionRedo true
    |>.setEnabled .actionPasteClipboardHistory true
    |>.setEnabled .actionBold true
    |>.setEnabled .actionItalic true
    |>.setEnabled .actionUnderline true
    |>.setEnabled .actionStrikethrough true
    |>.setEnabled .actionSubscript true
    |>.setEnabled .actionSuperscript true
    |>.setEnabled .actionAlignLeft true
    |>.setEnabled .actionAlignCenter true
    |>.setEnabled .actionAlignRight true
    |>.setEnabled .actionAlignJustify true
    |>.setEnabled .actionDecreaseIndent true
    |>.setEnabled .actionIncreaseIndent true
    |>.setEnabled .actionTextDirectionLTR true
    |>.setEnabled .actionTextDirectionRTL true
    |>.setEnabled .actionTextDirectionDefault true
    |>.setEnabled .actionInsertBulletedList true
    |>.setEnabled .actionInsertNumberedList true
    |>.setEnabled .actionShowTag true
    |>.setEnabled .actionRemoveFormatting true
    |>.setEnabled .menuHeadings true
    |>.setEnabled .actionHeading1 true
    |>.setEnabled .actionHeading2 true
    |>.setEnabled .actionHeading3 true
    |>.setEnabled .actionHeading4 true
    |>.setEnabled .actionHeading5 true
    |>.setEnabled .actionHeading6 true
    |>.setEnabled .actionHeadingNormal true
    |>.setEnabled .actionCasingLowercase true
    |>.setEnabled .actionCasingUppercase true
    |>.setEnabled .actionCasingTitlecase true
    |>.setEnabled .actionCasingCapitalize true
    |>.setEnabled .actionFind true
    |>.setEnabled .actionFindNext true
    |>.setEnabled .actionFindPrevious true
    |>.setEnabled .actionReplaceCurrent false
    |>.setEnabled .actionReplaceNext false
    |>.setEnabled .actionReplacePrevious false
    |>.setEnabled .actionReplaceAll false
    |>.setEnabled .actionCount false
    |>.setEnabled .actionGoToLine false
    |>.setEnabled .actionGoToLinkOrStyle false
    |>.setEnabled .actionAddMisspelledWord false
    |>.setEnabled .actionIgnoreMisspelledWord false
    |>.setEnabled .actionAutoSpellCheck false)

/-- Source: `MainWindow::SetStateActionsSplitView()`, every `setChecked`/`setEnabled` call in source order,
then `UpdateUIOnTabChanges()`; the final `m_FindReplace->ShowHide()` acts on the Find and Replace
window, not on an action flag. -/
def SetStateActionsSplitView (tab : Option ContentTab) (ui : Ui) : Ui :=
  UpdateUIOnTabChanges tab (ui
    |>.setChecked .actionBookView false
    |>.setChecked .actionSplitView true
    |>.setChecked .actionCodeView false
    |>.setEnabled .actionBookView true
    |>.setEnabled .actionSplitView true
    |>.setEnabled .actionCodeView true
    |>.setEnabled .actionPrintPreview true
    |>.setEnabled .actionPrint true
    |>.setEnabled .actionSplitSection false
    |>.setEnabled .actionInsertSGFSectionMarker false
    |>.setEnabled .actionInsertImage false
    |>.setEnabled .actionInsertSpecialCharacter false
    |>.setEnabled .actionInsertId false
    |>.setEnabled .actionInsertHyperlink false
    |>.setEnabled .actionInsertClosingTag false
    |>.setEnabled .actionUndo false
    |>.setEnabled .actionRedo false
    |>.setEnabled .actionPasteClipboardHistory false
    |>.setEnabled .actionBold false
    |>.setEnabled .actionItalic false
    |>.setEnabled .actionUnderline false
    |>.setEnabled .actionStrikethrough false
    |>.setEnabled .actionSubscript false
    |>.setEnabled .actionSuperscript false
    |>.setEnabled .actionAlignLeft false
    |>.setEnabled .actionAlignCenter false
    |>.setEnabled .actionAlignRight false
    |>.setEnabled .actionAlignJustify false
    |>.setEnabled .actionDecreaseIndent false
    |>.setEnabled .actionIncreaseIndent false
    |>.setEnabled .actionTextDirectionLTR false
    |>.setEnabled .actionTextDirectionRTL false
    |>.setEnabled .actionTextDirectionDefault false
    |>.setEnabled .actionInsertBulletedList false
    |>.setEnabled .actionInsertNumberedList false
    |>.setEnabled .actionShowTag true
    |>.setEnabled .actionRemoveFormatting false
    |>.setEnabled .menuHeadings false
    |>.setEnabled .actionHeading1 false
    |>.setEnabled .actionHeading2 false
    |>.setEnabled .actionHeading3 false
    |>.setEnabled .actionHeading4 false
    |>.setEnabled .actionHeading5 false
    |>.setEnabled .actionHeading6 false
    |>.setEnabled .actionHeadingNormal false
    |>.setEnabled .actionCasingLowercase false
    |>.setEnabled .actionCasingUppercase false
    |>.setEnabled .actionCasingTitlecase false
    |>.setEnabled .actionCasingCapitalize false
    |>.setEnabled .actionFind true
    |>.setEnabled .actionFindNext true
    |>.setEnabled .actionFindPrevious true
    |>.setEnabled .actionReplaceCurrent false
    |>.setEnabled .actionReplaceNext false
    |>.setEnabled .actionReplacePrevious false
    |>.setEnabled .actionReplaceAll false
    |>.setEnabled .actionCount false
    |>.setEnabled .actionGoToLine false
    |>.setEnabled .actionGoToLinkOrStyle false
    |>.setEnabled .actionAddMisspelledWord false
    |>.setEnabled .actionIgnoreMisspelledWord false
    |>.setEnabled .actionAutoSpellCheck false)

/-- Source: `MainWindow::SetStateActionsCodeView()`, every `setChecked`/`setEnabled` call in source order,
then `UpdateUIOnTabChanges()`; the final `m_FindReplace->ShowHide()` acts on the Find and Replace
window, not on an action flag. -/
def SetStateActionsCodeView (tab : Option ContentTab) (ui : Ui) : Ui :=
  UpdateUIOnTabChanges tab (ui
    |>.setChecked .actionBookView false
    |>.setChecked .actionSplitView false
    |>.setChecked .actionCodeView true
    |>.setEnabled .actionBookView true
    |>.setEnabled .actionSplitView true
    |>.setEnabled .actionCodeView true
    |>.setEnabled .actionPrintPreview true
    |>.setEnabled .actionPrint true
    |>.setEnabled .actionSplitSection true
    |>.setEnabled .actionInsertSGFSectionMarker true
    |>.setEnabled .actionInsertImage true
    |>.setEnabled .actionInsertSpecialCharacter true
    |>.setEnabled .actionInsertId true
    |>.setEnabled .actionInsertHyperlink true
    |>.setEnabled .actionInsertClosingTag true
    |>.setEnabled .actionUndo true
    |>.setEnabled .actionRedo true
    |>.setEnabled .actionPasteClipboardHistory true
    |>.setEnabled .actionBold true
    |>.setEnabled .actionItalic true
    |>.setEnabled .actionUnderline true
    |>.setEnabled .actionStrikethrough true
    |>.setEnabled .actionSubscript true
    |>.setEnabled .actionSuperscript true
    |>.setEnabled .actionAlignLeft true
    |>.setEnabled .actionAlignCenter true
    |>.setEnabled .actionAlignRight true
    |>.setEnabled .actionAlignJustify true
    |>.setEnabled .actionDecreaseIndent false
    |>.setEnabled .actionIncreaseIndent false
    |>.setEnabled .actionTextDirectionLTR true
    |>.setEnabled .actionTextDirectionRTL true
    |>.setEnabled .actionTextDirectionDefault true
    |>.setEnabled .actionInsertBulletedList false
    |>.setEnabled .actionInsertNumberedList false
    |>.setEnabled .actionShowTag false
    |>.setEnabled .actionRemoveFormatting true
    |>.setEnabled .menuHeadings true
    |>.setEnabled .actionHeading1 true
    |>.setEnabled .actionHeading2 true
    |>.setEnabled .actionHeading3 true
    |>.setEnabled .actionHeading4 true
    |>.setEnabled .actionHeading5 true
    |>.setEnabled .actionHeading6 true
    |>.setEnabled .actionHeadingNormal true
    |>.setEnabled .actionCasingLowercase true
    |>.setEnabled .actionCasingUppercase true
    |>.setEnabled .actionCasingTitlecase true
    |>.setEnabled .actionCasingCapitalize true
    |>.setEnabled .actionFind true
    |>.setEnabled .actionFindNext true
    |>.setEnabled .actionFindPrevious true
    |>.setEnabled .actionReplaceCurrent true
    |>.setEnabled .actionReplaceNext true
    |>.setEnabled .actionReplacePrevious true
    |>.setEnabled .actionReplaceAll true
    |>.setEnabled .actionCount true
    |>.setEnabled .actionGoToLine true
    |>.setEnabled .actionGoToLinkOrStyle true
    |>.setEnabled .actionAddMisspelledWord true
    |>.setEnabled .actionIgnoreMisspelledWord true
    |>.setEnabled .actionAutoSpellCheck true)

/-- Source: `MainWindow::SetStateActionsRawView()`, every `setChecked`/`setEnabled` call in source order,
then `UpdateUIOnTabChanges()`; the final `m_FindReplace->ShowHide()` acts on the Find and Replace
window, not on an action flag. -/
def SetStateActionsRawView (tab : Option ContentTab) (ui : Ui) : Ui :=
  UpdateUIOnTabChanges tab (ui
    |>.setChecked .actionBookView false
    |>.setChecked .actionSplitView false
    |>.setChecked .actionCodeView false
    |>.setEnabled .actionBookView false
    |>.setEnabled .actionSplitView false
    |>.setEnabled .actionCodeView false
    |>.setEnabled .actionPrintPreview false
    |>.setEnabled .actionPrint false
    |>.setEnabled .actionSplitSection false
    |>.setEnabled .actionInsertSGFSectionMarker false
    |>.setEnabled .actionInsertImage false
    |>.setEnabled .actionInsertSpecialCharacter false
    |>.setEnabled .actionInsertId false
    |>.setEnabled .actionInsertHyperlink false
    |>.setEnabled .actionInsertClosingTag false
    |>.setEnabled .actionUndo true
    |>.setEnabled .actionRedo true
    |>.setEnabled .actionPasteClipboardHistory true
    |>.setEnabled .actionBold false
    |>.setEnabled .actionItalic false
    |>.setEnabled .actionUnderline false
    |>.setEnabled .actionStrikethrough false
    |>.setEnabled .actionSubscript false
    |>.setEnabled .actionSuperscript false
    |>.setEnabled .actionAlignLeft false
    |>.setEnabled .actionAlignCenter false
    |>.setEnabled .actionAlignRight false
    |>.setEnabled .actionAlignJustify false
    |>.setEnabled .actionDecreaseIndent false
    |>.setEnabled .actionIncreaseIndent false
    |>.setEnabled .actionTextDirectionLTR false
    |>.setEnabled .actionTextDirectionRTL false
    |>.setEnabled .actionTextDirectionDefault false
    |>.setEnabled .actionInsertBulletedList false
    |>.setEnabled .actionInsertNumberedList false
    |>.setEnabled .actionShowTag false
    |>.setEnabled .actionRemoveFormatting false
    |>.setEnabled .menuHeadings false
    |>.setEnabled .actionHeading1 false
    |>.setEnabled .actionHeading2 false
    |>.setEnabled .actionHeading3 false
    |>.setEnabled .actionHeading4 false
    |>.setEnabled .actionHeading5 false
    |>.setEnabled .actionHeading6 false
    |>.setEnabled .actionHeadingNormal false
    |>.setEnabled .actionCasingLowercase true
    |>.setEnabled .actionCasingUppercase true
    |>.setEnabled .actionCasingTitlecase true
    |>.setEnabled .actionCasingCapitalize true
    |>.setEnabled .actionFind true
    |>.setEnabled .actionFindNext true
    |>.setEnabled .actionFindPrevious true
    |>.setEnabled .actionReplaceCurrent true
    |>.setEnabled .actionReplaceNext true
    |>.setEnabled .actionReplacePrevious true
    |>.setEnabled .actionReplaceAll true
    |>.setEnabled .actionCount true
    |>.setEnabled .actionGoToLine true
    |>.setEnabled .actionGoToLinkOrStyle false
    |>.setEnabled .actionAddMisspelledWord false
    |>.setEnabled .actionIgnoreMisspelledWord false
    |>.setEnabled .actionAutoSpellCheck false)

/-- Source: `MainWindow::SetStateActionsStaticView()`, every `setChecked`/`setEnabled` call in source order,
then `UpdateUIOnTabChanges()`; the final `m_FindReplace->hide()` acts on the Find and Replace
window, not on an action flag. -/
def SetStateActionsStaticView (tab : Option ContentTab) (ui : Ui) : Ui :=
  UpdateUIOnTabChanges tab (ui
    |>.setChecked .actionBookView false
    |>.setChecked .actionSplitView false
    |>.setChecked .actionCodeView false
    |>.setEnabled .actionBookView false
    |>.setEnabled .actionSplitView false
    |>.setEnabled .actionCodeView false
    |>.setEnabled .actionPrintPreview false
    |>.setEnabled .actionPrint false
    |>.setEnabled .actionSplitSection false
    |>.setEnabled .actionInsertSGFSectionMarker false
    |>.setEnabled .actionInsertImage false
    |>.setEnabled .actionInsertSpecialCharacter false
    |>.setEnabled .actionInsertId false
    |>.setEnabled .actionInsertHyperlink false
    |>.setEnabled .actionInsertClosingTag false
    |>.setEnabled .actionUndo false
    |>.setEnabled .actionRedo false
    |>.setEnabled .actionPasteClipboardHistory false
    |>.setEnabled .actionBold false
    |>.setEnabled .actionItalic false
    |>.setEnabled .actionUnderline false
    |>.setEnabled .actionStrikethrough false
    |>.setEnabled .actionSubscript false
    |>.setEnabled .actionSuperscript false
    |>.setEnabled .actionAlignLeft false
    |>.setEnabled .actionAlignCenter false
    |>.setEnabled .actionAlignRight false
    |>.setEnabled .actionAlignJustify false
    |>.setEnabled .actionDecreaseIndent false
    |>.setEnabled .actionIncreaseIndent false
    |>.setEnabled .actionTextDirectionLTR false
    |>.setEnabled .actionTextDirectionRTL false
    |>.setEnabled .actionTextDirectionDefault false
    |>.setEnabled .actionInsertBulletedList false
    |>.setEnabled .actionInsertNumberedList false
    |>.setEnabled .actionShowTag false
    |>.setEnabled .actionRemoveFormatting false
    |>.setEnabled .menuHeadings false
    |>.setEnabled .actionHeading1 false
    |>.setEnabled .actionHeading2 false
    |>.setEnabled .actionHeading3 false
    |>.setEnabled .actionHeading4 false
    |>.setEnabled .actionHeading5 false
    |>.setEnabled .actionHeading6 false
    |>.setEnabled .actionHeadingNormal false
    |>.setEnabled .actionCasingLowercase false
    |>.setEnabled .actionCasingUppercase false
    |>.setEnabled .actionCasingTitlecase false
    |>.setEnabled .actionCasingCapitalize false
    |>.setEnabled .actionFind false
    |>.setEnabled .actionFindNext false
    |>.setEnabled .actionFindPrevious false
    |>.setEnabled .actionReplaceCurrent false
    |>.setEnabled .actionReplaceNext false
    |>.setEnabled .actionReplacePrevious false
    |>.setEnabled .actionReplaceAll false
    |>.setEnabled .actionCount false
    |>.setEnabled .actionGoToLine false
    |>.setEnabled .actionGoToLinkOrStyle false
    |>.setEnabled .actionAddMisspelledWord false
    |>.setEnabled .actionIgnoreMisspelledWord false
    |>.setEnabled .actionAutoSpellCheck false)

/-- Source: `MainWindow::SetStateActionsCSSView()`. -/
def SetStateActionsCSSView (tab : Option ContentTab) (ui : Ui) : Ui :=
  UpdateUIOnTabChanges tab (SetStateActionsRawView tab ui
    |>.setEnabled .actionBold true
    |>.setEnabled .actionItalic true
    |>.setEnabled .actionUnderline true
    |>.setEnabled .actionStrikethrough true
    |>.setEnabled .actionAlignLeft true
    |>.setEnabled .actionAlignCenter true
    |>.setEnabled .actionAlignRight true
    |>.setEnabled .actionAlignJustify true
    |>.setEnabled .actionTextDirectionLTR true
    |>.setEnabled .actionTextDirectionRTL true
    |>.setEnabled .actionTextDirectionDefault true)

/-! ## View-state machine -/

/-- The main-window state touched by the view-state code: `m_ViewState` and the action
flags. -/
structure MainWindow where
  m_ViewState : ViewState
  ui : Ui

/-- The collaborators consulted while a view state is set: the current content tab
(`none` when `&tab == NULL`) and the answer of `TabManager::IsAllTabDataWellFormed()`. -/
structure Env where
  tab : Option ContentTab
  IsAllTabDataWellFormed : Bool

/-- Source: `MainWindow::UpdateViewState(bool set_tab_state)`; returns the `bool` result
together with the main-window state afterwards. -/
def UpdateViewState (env : Env) (mw : MainWindow) (set_tab_state : Bool) : Bool × MainWindow :=
  match env.tab with
  | none => (false, mw)
  | some t =>
    if t.resourceType = .HTMLResourceType then
      let refused : Bool :=
        set_tab_state &&
          (match t.flowTabSetViewState with
           | some SetViewState => !SetViewState mw.m_ViewState
           | none => false)
      if refused then (false, mw)
      else if mw.m_ViewState = .ViewState_CodeView then
        (true, { mw with ui := SetStateActionsCodeView env.tab mw.ui })
      else if mw.m_ViewState = .ViewState_PreviewView then
        (true, { mw with ui := SetStateActionsSplitView env.tab mw.ui })
      else
        (true, { m_ViewState := .ViewState_BookView,
                 ui := SetStateActionsBookView env.tab mw.ui })
    else if t.resourceType = .CSSResourceType then
      (true, { mw with ui := SetStateActionsCSSView env.tab mw.ui })
    else if t.resourceType = .XMLResourceType ∨ t.resourceType = .OPFResourceType ∨
        t.resourceType = .NCXResourceType ∨ t.resourceType = .MiscTextResourceType ∨
        t.resourceType = .SVGResourceType ∨ t.resourceType = .TextResourceType then
      (true, { mw with ui := SetStateActionsRawView env.tab mw.ui })
    else
      (true, { mw with ui := SetStateActionsStaticView env.tab mw.ui })

/-- Source: `MainWindow::SetViewState(MainWindow::ViewState view_state)`. -/
def SetViewState (env : Env) (mw : MainWindow) (view_state : ViewState) : MainWindow :=
  let view_state : ViewState :=
    if view_state = .ViewState_Unknown then .ViewState_BookView else view_state
  let old_view_state : ViewState := mw.m_ViewState
  let set_tab_state : Bool := decide (mw.m_ViewState ≠ view_state)
  let r := UpdateViewState env { mw with m_ViewState := view_state } set_tab_state
  if !r.1 then
    { m_ViewState := old_view_state,
      ui := r.2.ui
        |>.setChecked .actionBookView false
        |>.setChecked .actionSplitView false
        |>.setChecked .actionCodeView true }
  else r.2

/-- The view actions show `vs`: Book View, Split View and Code View are checked exactly when
`vs` is the book, preview and code view state respectively. -/
def Ui.showsViewState (ui : Ui) (vs : ViewState) : Prop :=
  ui.checked .actionBookView = decide (vs = .ViewState_BookView) ∧
  ui.checked .actionSplitView = decide (vs = .ViewState_PreviewView) ∧
  ui.checked .actionCodeView = decide (vs = .ViewState_CodeView)


/-! ## Auxiliary names for sub-expressions of the zoom mapping -/

/-- The argument handed to `qRound` in the below-100% branch of
`ZoomFactorToSliderRange`. -/
def sliderOffsetLow (zoom_factor : ℚ) : ℚ :=
  f64 (f64 (f32 (zoom_factor - ZOOM_MIN) / f32 (ZOOM_NORMAL - ZOOM_MIN))
    * ((ZOOM_SLIDER_MIDDLE - ZOOM_SLIDER_MIN : ℤ) : ℚ))

/-- The argument handed to `qRound` in the above-100% branch of
`ZoomFactorToSliderRange`. -/
def sliderOffsetHigh (zoom_factor : ℚ) : ℚ :=
  f64 (f64 (f32 (zoom_factor - ZOOM_NORMAL) / f32 (ZOOM_MAX - ZOOM_NORMAL))
    * ((ZOOM_SLIDER_MIDDLE : ℤ) : ℚ))

/-! ## Auxiliary names used in the statements about the view-state machine -/

/-- The view state `SetViewState` works with: `ViewState_Unknown` is replaced by
`ViewState_BookView` (first statement of `MainWindow::SetViewState`). -/
def requestedViewState (view_state : ViewState) : ViewState :=
  if view_state = .ViewState_Unknown then .ViewState_BookView else view_state

/-- The actions that `SetStateActionsCSSView` enables after calling
`SetStateActionsRawView`. -/
def cssFormattingActions : List Action :=
  [.actionBold, .actionItalic, .actionUnderline, .actionStrikethrough,
   .actionAlignLeft, .actionAlignCenter, .actionAlignRight, .actionAlignJustify,
   .actionTextDirectionLTR, .actionTextDirectionRTL, .actionTextDirectionDefault]

/-- The structural actions that only make sense in an HTML document. -/
def htmlStructuralActions : List Action :=
  [.actionSplitSection, .actionInsertSGFSectionMarker, .actionInsertImage, .actionInsertId,
   .actionInsertHyperlink, .actionInsertClosingTag, .menuHeadings, .actionHeading1,
   .actionHeading2, .actionHeading3, .actionHeading4, .actionHeading5, .actionHeading6,
   .actionHeadingNormal, .actionInsertBulletedList, .actionInsertNumberedList,
   .actionDecreaseIndent, .actionIncreaseIndent, .actionGoToLinkOrStyle]

/-- The actions whose enabled flag `UpdateUIOnTabChanges` copies from the current tab. -/
def tabControlledActions : List Action :=
  [.actionCut, .actionCopy, .actionPaste, .actionDeleteLine, .actionAddToIndex,
   .actionMarkForIndex, .actionRemoveFormatting]

/-- The find actions. -/
def findActions : List Action := [.actionFind, .actionFindNext, .actionFindPrevious]

/-- The casing actions. -/
def casingActions : List Action :=
  [.actionCasingLowercase, .actionCasingUppercase, .actionCasingTitlecase,
   .actionCasingCapitalize]

/-- A resource type handled by the last branch of `UpdateViewState`
(`SetStateActionsStaticView`): neither HTML, CSS nor one of the raw-text types. -/
def ResourceType.isStatic (type : ResourceType) : Bool :=
  match type with
  | .ImageResourceType => true
  | .Other => true
  | _ => false

/-- A tab with nothing selected, the caret in a paragraph and zoom factor 1.0 on a resource
of the given type; a `FlowTab` that adopts every view state when the resource is HTML. -/
def plainTab (type : ResourceType) : ContentTab :=
  { resourceType := type
    zoomFactor := 1
    flowTabSetViewState := if type = .HTMLResourceType then some (fun _ => true) else none
    CutEnabled := false
    CopyEnabled := false
    PasteEnabled := false
    DeleteLineEnabled := false
    AddToIndexEnabled := false
    MarkForIndexEnabled := false
    RemoveFormattingEnabled := false
    BoldChecked := false
    ItalicChecked := false
    UnderlineChecked := false
    StrikethroughChecked := false
    SubscriptChecked := false
    SuperscriptChecked := false
    AlignLeftChecked := false
    AlignRightChecked := false
    AlignCenterChecked := false
    AlignJustifyChecked := false
    BulletListChecked := false
    NumberListChecked := false
    GetCaretElementName := "p" }

/-- An HTML tab whose `FlowTab` refuses every change of view state. -/
def refusingTab : ContentTab :=
  { plainTab .HTMLResourceType with flowTabSetViewState := some (fun _ => false) }

/-- A main window in Book View with every action enabled and Book View checked. -/
def bookViewWindow : MainWindow :=
  { m_ViewState := .ViewState_BookView
    ui := { enabled := fun _ => true
            checked := fun a => decide (a = .actionBookView) } }

/-! ## The rounding helper of `ZoomByStep` -/

/-- Modelled from the spec: `Utility::RoundToOneDecimal` (defined in `Misc/Utility.cpp`, which
is not part of `src/`) "rounds the current factor to one decimal".  A function is such a
helper when every result is the `float` nearest to a multiple `k / 10` of one tenth that is
nearest to the argument (either neighbour may be chosen on a tie). -/
def IsRoundToOneDecimal (R : ℚ → ℚ) : Prop :=
  ∀ x : ℚ, ∃ k : ℤ, R x = f32 ((k : ℚ) / 10) ∧ |(k : ℚ) / 10 - x| ≤ 1 / 20

/-- Modelled from the spec: `Utility::RoundToOneDecimal`, the instance that resolves ties to
the even tenth. -/
def RoundToOneDecimal (number : ℚ) : ℚ := f32 ((roundNE (number * 10) : ℚ) / 10)

/-! ## Resources, bookmarks and the collaborators of the main window -/

/-- Source: `Resource` and its subclasses as used by the main window: `Filename()`,
`GetRelativePathToOEBPS()`, `Type()` (field `type`) and, for an `HTMLResource`, `GetLinkedStylesheets()`
(the paths of its stylesheet links in document order).  Two resources are the same object
exactly when the records are equal. -/
structure Resource where
  Filename : String
  GetRelativePathToOEBPS : String
  type : ResourceType
  GetLinkedStylesheets : List String
  deriving DecidableEq, Repr

/-- Source: `MainWindow::LocationBookmark` (fields as used in `MainWindow.cpp`). -/
structure LocationBookmark where
  filename : String
  view_state : ViewState
  bv_caret_location_update : String
  cv_cursor_position : ℤ
  deriving DecidableEq, Repr

/-- The current content tab together with what the bookmark code reads from it:
`GetLoadedResource()`, `GetCursorPosition()` and `GetCaretLocationUpdate()`. -/
structure LoadedTab extends ContentTab where
  GetLoadedResource : Resource
  GetCursorPosition : ℤ
  GetCaretLocationUpdate : String

/-- The default arguments of `MainWindow::OpenResource`, which are declared in
`MainWindow.h` (not part of `MainWindow.cpp`) and therefore kept as parameters. -/
structure OpenResourceDefaults where
  precede_current_tab : Bool
  fragment : String
  view_state : ViewState
  line_to_scroll_to : ℤ
  position_to_scroll_to : ℤ
  caret_location_to_scroll_to : String
  grab_focus : Bool

/-- Source: the values of `GuideSemantics::GuideSemanticType` that `MainWindow.cpp` names
(`Index`, `TableOfContents`); `NoType` stands for a resource without a guide entry and
`Other` for the remaining guide types, which the main window never names. -/
inductive GuideSemanticType where
  | NoType
  | TableOfContents
  | Index
  | Other (name : String)
  deriving DecidableEq, Repr

/-- The calls that the modelled functions make on their collaborators (tab manager, book,
OPF, book browser, dialogs, status bar, message boxes), in the order in which they are made.
`HTMLResource_SplitOnSGFSectionMarkers` records the sections the scan returned.  Cursor
shape changes (`QApplication::setOverrideCursor`) and the read-only queries
`GetCurrentContentTab`, `AllHTMLResources`, `AllCSSResources`,
`GetGuideSemanticTypeForResource`, `FlowTab::GetViewState` and `WriteXML` are not
recorded. -/
inductive Event where
  | IsAllTabDataWellFormed
  | GetResourceByFilename (filename : String)
  | StatusBar_showMessage (message : String)
  | StatusBar_clearMessage
  | TabManager_OpenResource (resource : Resource) (precede_current_tab : Bool)
      (fragment : String) (view_state : ViewState) (line_to_scroll_to : ℤ)
      (position_to_scroll_to : ℤ) (caret_location_to_scroll_to : String) (grab_focus : Bool)
  | TabManager_SaveTabData
  | TabManager_CloseTabForResource (resource : Resource)
  | Book_PreviousResource (resource : Resource)
  | Book_MergeResources (resources : List Resource)
  | BookBrowser_Refresh
  | BookBrowser_UpdateSelection (resource : Resource)
  | QMessageBox_warning (text : String)
  | QMessageBox_critical (text : String)
  | FlowTab_SaveTabContent
  | HTMLResource_SplitOnSGFSectionMarkers (resource : Resource) (new_sections : List String)
  | Book_CreateNewSections (new_sections : List String) (resource : Resource)
  | TabManager_ReloadTabDataForResources (resources : List Resource)
  | BookBrowser_setFocus
  | FlowTab_setFocus
  | Book_CreateEmptyHTMLFile
  | Resource_RenameTo (resource : Resource) (new_filename : String)
  | OPF_UpdateSpineOrder (html_resources : List Resource)
  | Index_BuildIndex (html_resources : List Resource)
  | Resource_SetText (resource : Resource) (text : String)
  | OPF_AddGuideSemanticType (resource : Resource) (new_type : GuideSemanticType)
  | Book_SetModified
  | LinkStylesheets_exec (stylesheets_map : List (String × Bool))
  | LinkUpdates_UpdateLinksInAllFiles (html_resources : List (Option Resource))
      (stylesheets : List String)
  | BookBrowser_SelectResources (resources : List Resource)
  deriving DecidableEq, Repr

/-- The collaborators of the main window (`TabManager`, `Book` with its `FolderKeeper`,
`BookBrowser`), none of which is part of `MainWindow.cpp`; `σ` is their joint state.
Queries read the state, commands return the state afterwards.
`GetResourceByFilename` is `none` when the folder keeper throws `ResourceDoesNotExist`;
`PreviousResource` is `none` for a null pointer; `Book_MergeResources` returns the failed
resource (`none` for `NULL`); `afterSetViewState` is the collaborator state after
`UpdateViewState` has asked the current tab to adopt a view state. -/
structure Collaborators (σ : Type) where
  GetCurrentContentTab : σ → Option LoadedTab
  IsAllTabDataWellFormed : σ → Bool
  GetResourceByFilename : σ → String → Option Resource
  TabManager_OpenResource :
    σ → Resource → Bool → String → ViewState → ℤ → ℤ → String → Bool → σ
  TabManager_SaveTabData : σ → σ
  TabManager_CloseTabForResource : σ → Resource → Bool × σ
  afterSetViewState : σ → ViewState → σ
  Book_PreviousResource : σ → Resource → Option Resource
  Book_MergeResources : σ → List Resource → Option Resource × σ
  BookBrowser_Refresh : σ → σ
  BookBrowser_UpdateSelection : σ → Resource → σ
  OpenResource_defaults : OpenResourceDefaults

/-- The state of the main window and of its collaborators: the view state and action flags
(`mw`), the bookmark `m_LinkOrStyleBookmark`, the enabled flag of
`ui.actionGoBackFromLinkOrStyle`, the collaborator state and the calls made so far. -/
structure WindowState (σ : Type) where
  mw : MainWindow
  m_LinkOrStyleBookmark : LocationBookmark
  actionGoBackFromLinkOrStyle_enabled : Bool
  ext : σ
  log : List Event

/-- Append a collaborator call to the record of calls. -/
def WindowState.record {σ : Type} (w : WindowState σ) (e : Event) : WindowState σ :=
  { w with log := w.log ++ [e] }

/-- The `Env` that `SetViewState` sees in a window state: the current content tab and the
answer of `IsAllTabDataWellFormed()`. -/
def WindowState.env {σ : Type} (C : Collaborators σ) (w : WindowState σ) : Env :=
  { tab := (C.GetCurrentContentTab w.ext).map LoadedTab.toContentTab
    IsAllTabDataWellFormed := C.IsAllTabDataWellFormed w.ext }

/-- Source: `MainWindow::ShowMessageOnStatusBar(message, millisecond_duration)`. -/
def ShowMessageOnStatusBar {σ : Type} (w : WindowState σ) (message : String) :
    WindowState σ :=
  if message = "" then w.record .StatusBar_clearMessage
  else w.record (.StatusBar_showMessage message)

/-- Source: `MainWindow::SetViewState`, on the whole window state: `m_ViewState` and the
action flags change as in `SetViewState`, the collaborators as `afterSetViewState` says. -/
def WindowState.applySetViewState {σ : Type} (C : Collaborators σ) (w : WindowState σ)
    (view_state : ViewState) : WindowState σ :=
  { w with mw := SetViewState (w.env C) w.mw view_state
           ext := C.afterSetViewState w.ext view_state }

/-- Source: `MainWindow::OpenResource(resource, precede_current_tab, fragment, view_state,
line_to_scroll_to, position_to_scroll_to, caret_location_to_scroll_to, grab_focus)`. -/
def OpenResource {σ : Type} (C : Collaborators σ) (w : WindowState σ) (resource : Resource)
    (precede_current_tab : Bool) (fragment : String) (view_state : ViewState)
    (line_to_scroll_to : ℤ) (position_to_scroll_to : ℤ)
    (caret_location_to_scroll_to : String) (grab_focus : Bool) : WindowState σ :=
  let vs : ViewState :=
    if view_state ≠ .ViewState_Unknown then view_state else w.mw.m_ViewState
  let w1 : WindowState σ :=
    { (w.record (.TabManager_OpenResource resource precede_current_tab fragment vs
        line_to_scroll_to position_to_scroll_to caret_location_to_scroll_to grab_focus)) with
      ext := C.TabManager_OpenResource w.ext resource precede_current_tab fragment vs
        line_to_scroll_to position_to_scroll_to caret_location_to_scroll_to grab_focus }
  if vs ≠ w1.mw.m_ViewState then w1.applySetViewState C vs else w1

/-- Source: `MainWindow::OpenResource(resource)` with every other argument defaulted. -/
def OpenResourceDefault {σ : Type} (C : Collaborators σ) (w : WindowState σ)
    (resource : Resource) : WindowState σ :=
  OpenResource C w resource C.OpenResource_defaults.precede_current_tab
    C.OpenResource_defaults.fragment C.OpenResource_defaults.view_state
    C.OpenResource_defaults.line_to_scroll_to C.OpenResource_defaults.position_to_scroll_to
    C.OpenResource_defaults.caret_location_to_scroll_to C.OpenResource_defaults.grab_focus

/-- Source: `MainWindow::ResetLocationBookmark(LocationBookmark *locationBookmark)`. -/
def ResetLocationBookmark (_locationBookmark : LocationBookmark) : LocationBookmark :=
  { filename := ""
    view_state := .ViewState_Unknown
    bv_caret_location_update := ""
    cv_cursor_position := -1 }

/-- Source: `MainWindow::ResetLinkOrStyleBookmark()`. -/
def ResetLinkOrStyleBookmark {σ : Type} (w : WindowState σ) : WindowState σ :=
  { w with m_LinkOrStyleBookmark := ResetLocationBookmark w.m_LinkOrStyleBookmark
           actionGoBackFromLinkOrStyle_enabled := false }

/-- Source: `MainWindow::GoToBookmark(LocationBookmark *locationBookmark)`; returns the
window state and the bookmark afterwards. -/
def GoToBookmark {σ : Type} (C : Collaborators σ) (w : WindowState σ)
    (locationBookmark : LocationBookmark) : WindowState σ × LocationBookmark :=
  if locationBookmark.filename = "" then (w, locationBookmark)
  else
    let w1 := w.record .IsAllTabDataWellFormed
    if !C.IsAllTabDataWellFormed w1.ext then
      (ShowMessageOnStatusBar w1 "Go To Bookmark cancelled due to XML not well formed.",
        locationBookmark)
    else
      let w2 := w1.record (.GetResourceByFilename locationBookmark.filename)
      match C.GetResourceByFilename w2.ext locationBookmark.filename with
      | some resource =>
        (OpenResource C (w2.applySetViewState C locationBookmark.view_state) resource false ""
          locationBookmark.view_state (-1) locationBookmark.cv_cursor_position
          locationBookmark.bv_caret_location_update C.OpenResource_defaults.grab_focus,
         locationBookmark)
      | none => (w2, ResetLocationBookmark locationBookmark)

/-- Source: `MainWindow::GoBackFromLinkOrStyle()`. -/
def GoBackFromLinkOrStyle {σ : Type} (C : Collaborators σ) (w : WindowState σ) :
    WindowState σ :=
  let r := GoToBookmark C w w.m_LinkOrStyleBookmark
  { r.1 with m_LinkOrStyleBookmark := r.2 }

/-- Source: `MainWindow::BookmarkLinkOrStyleLocation()`. -/
def BookmarkLinkOrStyleLocation {σ : Type} (C : Collaborators σ) (w : WindowState σ) :
    WindowState σ :=
  let w1 := ResetLinkOrStyleBookmark w
  match C.GetCurrentContentTab w1.ext with
  | none => w1
  | some tab =>
    let current_resource : Resource := tab.GetLoadedResource
    let bookmark : LocationBookmark :=
      { view_state := w1.mw.m_ViewState
        filename := current_resource.Filename
        cv_cursor_position := tab.GetCursorPosition
        bv_caret_location_update := tab.GetCaretLocationUpdate }
    { w1 with m_LinkOrStyleBookmark := bookmark
              actionGoBackFromLinkOrStyle_enabled := decide (bookmark.filename ≠ "") }

/-- Source: `MainWindow::SaveTabData()`. -/
def SaveTabData {σ : Type} (C : Collaborators σ) (w : WindowState σ) : WindowState σ :=
  { (w.record .TabManager_SaveTabData) with ext := C.TabManager_SaveTabData w.ext }

/-- Source: `MainWindow::UpdateBrowserSelectionToTab()`. -/
def UpdateBrowserSelectionToTab {σ : Type} (C : Collaborators σ) (w : WindowState σ) :
    WindowState σ :=
  match C.GetCurrentContentTab w.ext with
  | some tab =>
    { (w.record (.BookBrowser_UpdateSelection tab.GetLoadedResource)) with
      ext := C.BookBrowser_UpdateSelection w.ext tab.GetLoadedResource }
  | none => w

/-- The loop `foreach (resource, resources) if (!CloseTabForResource(*resource)) ...` of
`MergeResources`: closes the tabs in order and stops at the first refusal, returning the
refusing resource (`none` when every tab closed). -/
def closeTabsForResources {σ : Type} (C : Collaborators σ) :
    WindowState σ → List Resource → WindowState σ × Option Resource
  | w, [] => (w, none)
  | w, resource :: rest =>
    let r := C.TabManager_CloseTabForResource w.ext resource
    let w1 : WindowState σ :=
      { (w.record (.TabManager_CloseTabForResource resource)) with ext := r.2 }
    if !r.1 then (w1, some resource) else closeTabsForResources C w1 rest

/-- Source: `MainWindow::MergeResources(QList<Resource *> resources)`.  `button_pressed_Ok`
is the user's answer to the confirmation box shown for a selection of several files. -/
def MergeResources {σ : Type} (C : Collaborators σ) (w : WindowState σ)
    (resources : List Resource) (button_pressed_Ok : Bool) : WindowState σ :=
  match resources with
  | [] => w
  | first :: others =>
    let widened : WindowState σ × Option (List Resource) :=
      if resources.length = 1 then
        let w1 := w.record (.Book_PreviousResource first)
        match C.Book_PreviousResource w1.ext first with
        | none =>
          (w1.record (.QMessageBox_warning
            "One resource selected and there is no previous resource to merge into."), none)
        | some resource =>
          if resource = first then
            (w1.record (.QMessageBox_warning
              "One resource selected and there is no previous resource to merge into."),
             none)
          else (w1, some (resource :: first :: others))
      else
        let w1 := w.record (.QMessageBox_warning
          "Are you sure you want to merge the selected files?\nThis action cannot be reversed.")
        if !button_pressed_Ok then (w1, none) else (w1, some resources)
    match widened with
    | (w1, none) => w1
    | (w1, some resources) =>
      let w2 := w1.record .IsAllTabDataWellFormed
      if !C.IsAllTabDataWellFormed w2.ext then
        ShowMessageOnStatusBar w2 "Merge cancelled due to XML not well formed."
      else
        let w3 := SaveTabData C w2
        match closeTabsForResources C w3 resources with
        | (w4, some resource) =>
          w4.record (.QMessageBox_critical
            ("Cannot merge\n\nCannot close tab: " ++ resource.Filename))
        | (w4, none) =>
          let resource_to_open : Resource := resources.headD first
          let w5 := w4.record (.Book_MergeResources resources)
          let merged := C.Book_MergeResources w5.ext resources
          let w6 : WindowState σ := { w5 with ext := merged.2 }
          let opened : WindowState σ :=
            match merged.1 with
            | some failed_resource =>
              OpenResourceDefault C
                (w6.record (.QMessageBox_critical
                  ("Cannot merge file " ++ failed_resource.Filename)))
                failed_resource
            | none =>
              OpenResourceDefault C
                { (w6.record .BookBrowser_Refresh) with ext := C.BookBrowser_Refresh w6.ext }
                resource_to_open
          ShowMessageOnStatusBar (UpdateBrowserSelectionToTab C opened)
            "Merge completed. You may need to regenerate or edit your Table Of Contents."

/-! ## Stylesheet link reconciliation -/

/-- Source: the path under which a stylesheet is linked,
`"../" + resource->GetRelativePathToOEBPS()`. -/
def stylesheetPath (css_resource : Resource) : String :=
  "../" ++ css_resource.GetRelativePathToOEBPS

/-- Source: `MainWindow::GetStylesheetsAlreadyLinked(Resource *resource)`;
`css_resources` is `m_BookBrowser->AllCSSResources()`.  The result is `none` when
`qobject_cast<HTMLResource*>` yields a null pointer, which the code dereferences. -/
def GetStylesheetsAlreadyLinked (css_resources : List Resource) (resource : Resource) :
    Option (List String) :=
  if resource.type = .HTMLResourceType then
    let existing_stylesheets : List String := css_resources.map stylesheetPath
    some (resource.GetLinkedStylesheets.filter
      (fun pathname => existing_stylesheets.contains pathname))
  else none

/-- The inner loop of `GetStylesheetsMap`,
`foreach (path, checked_linked_paths) if (!linked_paths.contains(path))
checked_linked_paths.removeOne(path)`.  Qt's `foreach` iterates over a copy of the container
taken when the loop starts, and `removeOne` removes the first occurrence of its argument. -/
def removeUnlinked (linked_paths : List String) (checked_linked_paths : List String) :
    List String :=
  checked_linked_paths.foldl
    (fun current path => if !linked_paths.contains path then current.erase path else current)
    checked_linked_paths

/-- The outer loop of `GetStylesheetsMap` over the selected resources. -/
def checkLinkedPaths (css_resources : List Resource) :
    List Resource → List String → Option (List String)
  | [], checked_linked_paths => some checked_linked_paths
  | valid_resource :: rest, checked_linked_paths =>
    match GetStylesheetsAlreadyLinked css_resources valid_resource with
    | none => none
    | some linked_paths =>
      checkLinkedPaths css_resources rest (removeUnlinked linked_paths checked_linked_paths)

/-- Source: `MainWindow::GetStylesheetsMap(QList<Resource *> resources)`; `css_resources`
is `m_BookBrowser->AllCSSResources()`.  The result is `none` when `resources.at(0)` is out
of range or a resource is not an `HTMLResource`. -/
def GetStylesheetsMap (css_resources : List Resource) (resources : List Resource) :
    Option (List (String × Bool)) :=
  match resources with
  | [] => none
  | first :: _ =>
    match GetStylesheetsAlreadyLinked css_resources first with
    | none => none
    | some first_linked_paths =>
      match checkLinkedPaths css_resources resources first_linked_paths with
      | none => none
      | some checked_linked_paths =>
        some (checked_linked_paths.map (fun path => (path, true))
          ++ ((css_resources.map stylesheetPath).filter
                (fun pathname => !checked_linked_paths.contains pathname)).map
              (fun pathname => (pathname, false)))

/-- The paths flagged `included = true` in a stylesheet map, in output order. -/
def includedPaths (stylesheet_map : List (String × Bool)) : List String :=
  (stylesheet_map.filter (fun entry => entry.2)).map (fun entry => entry.1)

/-- The reference definition of the stylesheet map (spec, section 4.4): the survivors are
the elements of the first resource's filtered link list, in order, that occur in the
filtered link list of every resource of the group; they are emitted first, flagged `true`,
followed by every stylesheet of the collection that is not a survivor, in collection order,
flagged `false`.  `linked r` is the filtered link list of `r`. -/
def stylesheetsMapReference (css_resources : List Resource) (linked : Resource → List String)
    (first : Resource) (resources : List Resource) : List (String × Bool) :=
  let survivors : List String :=
    (linked first).filter (fun p => resources.all (fun r => (linked r).contains p))
  survivors.map (fun p => (p, true))
    ++ ((css_resources.map stylesheetPath).filter (fun q => !survivors.contains q)).map
        (fun q => (q, false))

/-- The link list of a resource restricted to the paths of existing stylesheets (the list
that `GetStylesheetsAlreadyLinked` returns for an HTML resource). -/
def filteredLinks (css_resources : List Resource) (resource : Resource) : List String :=
  resource.GetLinkedStylesheets.filter
    (fun pathname => (css_resources.map stylesheetPath).contains pathname)

/-- An HTML resource with the given file name and stylesheet links. -/
def htmlResource (name : String) (links : List String) : Resource :=
  { Filename := name
    GetRelativePathToOEBPS := "Text/" ++ name
    type := .HTMLResourceType
    GetLinkedStylesheets := links }

/-- A stylesheet resource with the given file name. -/
def cssResource (name : String) : Resource :=
  { Filename := name
    GetRelativePathToOEBPS := "Styles/" ++ name
    type := .CSSResourceType
    GetLinkedStylesheets := [] }

/-- Whether some occurrence of `p` in `l` is followed, later in `l`, by an occurrence of
`q`. -/
def occursBefore (p q : String) (l : List String) : Bool :=
  ((l.dropWhile (fun x => x != p)).drop 1).contains q

/-- Collaborators without a state of their own: a fixed current tab, a fixed answer of
`IsAllTabDataWellFormed()`, a fixed list of resources known to the folder keeper, tabs that
always close, a merge that always succeeds and no resource with a predecessor. -/
def fixedCollaborators (tab : Option LoadedTab) (wellFormed : Bool) (book : List Resource) :
    Collaborators Unit :=
  { GetCurrentContentTab := fun _ => tab
    IsAllTabDataWellFormed := fun _ => wellFormed
    GetResourceByFilename := fun _ name => book.find? (fun r => r.Filename = name)
    TabManager_OpenResource := fun _ _ _ _ _ _ _ _ _ => ()
    TabManager_SaveTabData := fun _ => ()
    TabManager_CloseTabForResource := fun _ _ => (true, ())
    afterSetViewState := fun _ _ => ()
    Book_PreviousResource := fun _ _ => none
    Book_MergeResources := fun _ _ => (none, ())
    BookBrowser_Refresh := fun _ => ()
    BookBrowser_UpdateSelection := fun _ _ => ()
    OpenResource_defaults :=
      { precede_current_tab := false
        fragment := ""
        view_state := .ViewState_Unknown
        line_to_scroll_to := -1
        position_to_scroll_to := -1
        caret_location_to_scroll_to := ""
        grab_focus := true } }

/-- An HTML tab in a `FlowTab` that adopts every view state, showing the resource `name`
with the text cursor at position 7. -/
def htmlTab (name : String) : LoadedTab :=
  { plainTab .HTMLResourceType with
    GetLoadedResource := htmlResource name []
    GetCursorPosition := 7
    GetCaretLocationUpdate := "" }

/-- A window in Book View with the given bookmark and no call made so far. -/
def windowWith (bookmark : LocationBookmark) : WindowState Unit :=
  { mw := bookViewWindow
    m_LinkOrStyleBookmark := bookmark
    actionGoBackFromLinkOrStyle_enabled := decide (bookmark.filename ≠ "")
    ext := ()
    log := [] }

/-- A bookmark set on `Section0001.xhtml` in Code View at cursor position 42. -/
def sampleBookmark : LocationBookmark :=
  { filename := "Section0001.xhtml"
    view_state := .ViewState_CodeView
    bv_caret_location_update := ""
    cv_cursor_position := 42 }

/-! ## Merge: selection and closing loop seen from the collaborators -/

/-- The head of `MainWindow::MergeResources` (the `isEmpty` test, the widening of a single
resource by `PreviousResource`, the confirmation box for several), seen from the
collaborators alone: the list that goes on to be merged, `none` when the function returns
before the well-formedness check. -/
def mergeList {σ : Type} (C : Collaborators σ) (s : σ) (resources : List Resource)
    (button_pressed_Ok : Bool) : Option (List Resource) :=
  match resources with
  | [] => none
  | first :: others =>
    if resources.length = 1 then
      match C.Book_PreviousResource s first with
      | none => none
      | some resource =>
        if resource = first then none else some (resource :: first :: others)
    else if !button_pressed_Ok then none else some resources

/-- The loop `foreach (resource, resources) if (!CloseTabForResource(*resource)) return`
seen from the tab manager alone: the tabs are closed in order starting in state `s`; the
result is the state in which the loop ends and the first resource whose tab refused to
close (`none` when every tab closed). -/
def closeTabsFrom {σ : Type} (C : Collaborators σ) : σ → List Resource → σ × Option Resource
  | s, [] => (s, none)
  | s, resource :: rest =>
    if !(C.TabManager_CloseTabForResource s resource).1 then
      ((C.TabManager_CloseTabForResource s resource).2, some resource)
    else closeTabsFrom C (C.TabManager_CloseTabForResource s resource).2 rest

/-- Whether a recorded call opens a resource in the tab manager. -/
def Event.isOpenResource : Event → Bool
  | .TabManager_OpenResource _ _ _ _ _ _ _ _ => true
  | _ => false

/-- The calls recorded by a run that started in `w` and ended in `w2`. -/
def callsSince {σ : Type} (w w2 : WindowState σ) : List Event :=
  w2.log.drop w.log.length

/-- Collaborators as `fixedCollaborators`, except that the tab of the resource named
`locked` refuses to close, the underlying merge reports `failed` as the resource it could
not merge, and every resource has `previous` as its predecessor. -/
def stubbornCollaborators (locked : String) (failed previous : Option Resource) :
    Collaborators Unit :=
  { fixedCollaborators none true [] with
    TabManager_CloseTabForResource := fun _ r => (decide (r.Filename ≠ locked), ())
    Book_PreviousResource := fun _ _ => previous
    Book_MergeResources := fun _ _ => (failed, ()) }

/-! ## Structural edits: split, index and contents generation, stylesheet links -/

/-- Source: `static const QString HTML_TOC_FILE = "TOC.html"`. -/
def HTML_TOC_FILE : String := "TOC.html"

/-- Source: `static const QString HTML_INDEX_FILE = "Index.html"`. -/
def HTML_INDEX_FILE : String := "Index.html"

/-- The collaborators used by the structural edits, in addition to those of
`Collaborators`: the book browser's resource lists, the current `FlowTab`, the marker scan
of an `HTMLResource`, `Book`, the OPF (`GetGuideSemanticTypeForResource`,
`AddGuideSemanticType`, `UpdateSpineOrder`), `Index::BuildIndex`, the two HTML writers,
`Resource::SetText`, `Resource::RenameTo` and `LinkUpdates::UpdateLinksInAllFiles`.  None of
them is part of `MainWindow.cpp`.  `Book_CreateEmptyHTMLFile` returns the new resource;
`Resource_RenameTo` returns the resource as it is after the call (the same object under
its new name when the renaming takes place). -/
structure EditCollaborators (σ : Type) extends Collaborators σ where
  AllHTMLResources : σ → List Resource
  AllCSSResources : σ → List Resource
  FlowTab_GetViewState : σ → ViewState
  FlowTab_SaveTabContent : σ → σ
  HTMLResource_SplitOnSGFSectionMarkers : σ → Resource → List String × σ
  Book_CreateNewSections : σ → List String → Resource → σ
  TabManager_ReloadTabDataForResources : σ → List Resource → σ
  BookBrowser_setFocus : σ → σ
  FlowTab_setFocus : σ → σ
  GetGuideSemanticTypeForResource : σ → Resource → GuideSemanticType
  AddGuideSemanticType : σ → Resource → GuideSemanticType → σ
  Book_CreateEmptyHTMLFile : σ → Resource × σ
  Resource_RenameTo : σ → Resource → String → Resource × σ
  UpdateSpineOrder : σ → List Resource → σ
  Index_BuildIndex : σ → List Resource → Bool × σ
  IndexHTMLWriter_WriteXML : σ → String
  TOCHTMLWriter_WriteXML : σ → String
  Resource_SetText : σ → Resource → String → σ
  Book_SetModified : σ → σ
  LinkUpdates_UpdateLinksInAllFiles : σ → List (Option Resource) → List String → σ
  BookBrowser_SelectResources : σ → List Resource → σ

/-- Source: `qobject_cast<HTMLResource *>(resource)`: the resource itself when it is an
`HTMLResource`, a null pointer (`none`) otherwise. -/
def qobject_cast_HTMLResource (resource : Resource) : Option Resource :=
  if resource.type = .HTMLResourceType then some resource else none

/-- Source: `qobject_cast<FlowTab*>(&GetCurrentContentTab())` is not null. -/
def currentTabIsFlowTab {σ : Type} (C : EditCollaborators σ) (s : σ) : Bool :=
  match C.GetCurrentContentTab s with
  | some tab => tab.flowTabSetViewState.isSome
  | none => false

/-- The loop of `SplitOnSGFSectionMarkers` over `html_resources`, carrying the list
`changed_resources`; `none` when `qobject_cast<HTMLResource *>` yields a null pointer, which
the code dereferences. -/
def splitResources {σ : Type} (C : EditCollaborators σ) :
    WindowState σ → List Resource → List Resource → Option (WindowState σ × List Resource)
  | w, [], changed_resources => some (w, changed_resources)
  | w, resource :: rest, changed_resources =>
    match qobject_cast_HTMLResource resource with
    | none => none
    | some html_resource =>
      let scan := C.HTMLResource_SplitOnSGFSectionMarkers w.ext html_resource
      let new_sections : List String := scan.1
      let w1 : WindowState σ :=
        { (w.record (.HTMLResource_SplitOnSGFSectionMarkers html_resource new_sections)) with
          ext := scan.2 }
      if !new_sections.isEmpty then
        let w2 : WindowState σ :=
          { (w1.record (.Book_CreateNewSections new_sections html_resource)) with
            ext := C.Book_CreateNewSections w1.ext new_sections html_resource }
        splitResources C w2 rest (changed_resources ++ [resource])
      else splitResources C w1 rest changed_resources

/-- Source: `MainWindow::SplitOnSGFSectionMarkers()`. -/
def SplitOnSGFSectionMarkers {σ : Type} (C : EditCollaborators σ) (w : WindowState σ) :
    Option (WindowState σ) :=
  let html_resources : List Resource := C.AllHTMLResources w.ext
  let w1 := w.record .IsAllTabDataWellFormed
  if !C.IsAllTabDataWellFormed w1.ext then
    some (ShowMessageOnStatusBar w1 "Split cancelled due to XML not well formed.")
  else
    let flow_tab : Bool := currentTabIsFlowTab C w1.ext
    let w2 : WindowState σ :=
      if flow_tab ∧ C.FlowTab_GetViewState w1.ext = .ViewState_BookView then
        { (w1.record .FlowTab_SaveTabContent) with ext := C.FlowTab_SaveTabContent w1.ext }
      else w1
    match splitResources C w2 html_resources [] with
    | none => none
    | some (w3, changed_resources) =>
      if changed_resources.length > 0 then
        let w4 : WindowState σ :=
          { (w3.record (.TabManager_ReloadTabDataForResources changed_resources)) with
            ext := C.TabManager_ReloadTabDataForResources w3.ext changed_resources }
        let w5 : WindowState σ :=
          { (w4.record .BookBrowser_Refresh) with ext := C.BookBrowser_Refresh w4.ext }
        let w6 := ShowMessageOnStatusBar w5
          "Split completed. You may need to update the Table of Contents."
        if flow_tab ∧ C.FlowTab_GetViewState w6.ext = .ViewState_BookView then
          let w7 : WindowState σ :=
            { (w6.record .BookBrowser_setFocus) with ext := C.BookBrowser_setFocus w6.ext }
          some { (w7.record .FlowTab_setFocus) with ext := C.FlowTab_setFocus w7.ext }
        else some w6
      else
        some (ShowMessageOnStatusBar w3
          "No split file markers found. Use Insert->Split Marker.")

/-- One round of the search loop of `CreateIndex`, on the pair `(html_resources,
index_resource)`; `html_resource` is the pointer returned by the cast, so inside
`if (html_resource)` the test `html_resource == NULL` of the source is evaluated as
written. -/
def indexSearchStep {σ : Type} (C : EditCollaborators σ) (s : σ)
    (acc : List Resource × Option Resource) (resource : Resource) :
    List Resource × Option Resource :=
  let html_resource : Option Resource := qobject_cast_HTMLResource resource
  match html_resource with
  | some h =>
    (acc.1 ++ [h],
      if C.GetGuideSemanticTypeForResource s h = .Index then some h
      else if resource.Filename = HTML_INDEX_FILE ∧ html_resource = none then html_resource
      else acc.2)
  | none => acc

/-- One round of the search loop of `CreateHTMLTOC`, on the pair `(htmlResources,
tocResource)`. -/
def tocSearchStep {σ : Type} (C : EditCollaborators σ) (s : σ)
    (acc : List Resource × Option Resource) (resource : Resource) :
    List Resource × Option Resource :=
  let htmlResource : Option Resource := qobject_cast_HTMLResource resource
  match htmlResource with
  | some h =>
    (acc.1 ++ [h],
      if C.GetGuideSemanticTypeForResource s h = .TableOfContents then some h
      else if resource.Filename = HTML_TOC_FILE ∧ acc.2 = none then some h
      else acc.2)
  | none => acc

/-- The search loop of `CreateIndex` run in collaborator state `s`: the list
`html_resources` and the pointer `index_resource` when the loop ends. -/
def indexSearch {σ : Type} (C : EditCollaborators σ) (s : σ) :
    List Resource × Option Resource :=
  (C.AllHTMLResources s).foldl (indexSearchStep C s) ([], none)

/-- The search loop of `CreateHTMLTOC` run in collaborator state `s`: the list
`htmlResources` and the pointer `tocResource` when the loop ends. -/
def tocSearch {σ : Type} (C : EditCollaborators σ) (s : σ) :
    List Resource × Option Resource :=
  (C.AllHTMLResources s).foldl (tocSearchStep C s) ([], none)

/-- The closing block shared, line for line, by `CreateIndex` and `CreateHTMLTOC`: write
the generated text into the derived resource, add the guide semantic type unless the
resource already has it, mark the book modified, refresh the book browser and open the
resource. -/
def writeDerivedResource {σ : Type} (C : EditCollaborators σ) (w : WindowState σ)
    (resource : Resource) (text : String) (guide_type : GuideSemanticType) : WindowState σ :=
  let w1 : WindowState σ :=
    { (w.record (.Resource_SetText resource text)) with
      ext := C.Resource_SetText w.ext resource text }
  let w2 : WindowState σ :=
    if C.GetGuideSemanticTypeForResource w1.ext resource ≠ guide_type then
      { (w1.record (.OPF_AddGuideSemanticType resource guide_type)) with
        ext := C.AddGuideSemanticType w1.ext resource guide_type }
    else w1
  let w3 : WindowState σ :=
    { (w2.record .Book_SetModified) with ext := C.Book_SetModified w2.ext }
  let w4 : WindowState σ :=
    { (w3.record .BookBrowser_Refresh) with ext := C.BookBrowser_Refresh w3.ext }
  OpenResourceDefault C.toCollaborators w4 resource

/-- The block of `CreateIndex` and `CreateHTMLTOC` that closes the tab of the derived
resource found by the search loop, `if (resource != NULL) CloseTabForResource(*resource)`. -/
def closeFoundResource {σ : Type} (C : EditCollaborators σ) (w : WindowState σ)
    (found : Option Resource) : WindowState σ :=
  match found with
  | some resource =>
    { (w.record (.TabManager_CloseTabForResource resource)) with
      ext := (C.TabManager_CloseTabForResource w.ext resource).2 }
  | none => w

/-- The block of `CreateIndex` and `CreateHTMLTOC` that creates the derived resource,
`CreateEmptyHTMLFile()` followed by `RenameTo(name)`: the window state afterwards and the
new resource. -/
def createDerivedResource {σ : Type} (C : EditCollaborators σ) (w : WindowState σ)
    (name : String) : WindowState σ × Resource :=
  let created := C.Book_CreateEmptyHTMLFile w.ext
  let w1 : WindowState σ := { (w.record .Book_CreateEmptyHTMLFile) with ext := created.2 }
  let renamed := C.Resource_RenameTo w1.ext created.1 name
  ({ (w1.record (.Resource_RenameTo created.1 name)) with ext := renamed.2 }, renamed.1)

/-- Source: `OPF::UpdateSpineOrder(html_resources)` called by the main window. -/
def UpdateSpineOrder {σ : Type} (C : EditCollaborators σ) (w : WindowState σ)
    (html_resources : List Resource) : WindowState σ :=
  { (w.record (.OPF_UpdateSpineOrder html_resources)) with
    ext := C.UpdateSpineOrder w.ext html_resources }

/-- Source: `MainWindow::CreateIndex()`. -/
def CreateIndex {σ : Type} (C : EditCollaborators σ) (w : WindowState σ) : WindowState σ :=
  let w1 := w.record .IsAllTabDataWellFormed
  if !C.IsAllTabDataWellFormed w1.ext then
    ShowMessageOnStatusBar w1 "Create Index cancelled due to XML not well formed."
  else
    let w2 := SaveTabData C.toCollaborators w1
    let found := indexSearch C w2.ext
    let w3 := closeFoundResource C w2 found.2
    let located : WindowState σ × List Resource × Resource :=
      match found.2 with
      | some index_resource => (w3, found.1, index_resource)
      | none =>
        let created := createDerivedResource C w3 HTML_INDEX_FILE
        let html_resources : List Resource := found.1 ++ [created.2]
        (UpdateSpineOrder C created.1 html_resources, html_resources, created.2)
    let w6 := located.1
    let index_resource : Resource := located.2.2
    let html_resources : List Resource := located.2.1.erase index_resource
    let built := C.Index_BuildIndex w6.ext html_resources
    let w7 : WindowState σ := { (w6.record (.Index_BuildIndex html_resources)) with ext := built.2 }
    if !built.1 then w7
    else
      writeDerivedResource C w7 index_resource (C.IndexHTMLWriter_WriteXML w7.ext) .Index

/-- Source: `MainWindow::CreateHTMLTOC()`. -/
def CreateHTMLTOC {σ : Type} (C : EditCollaborators σ) (w : WindowState σ) : WindowState σ :=
  let w1 := w.record .IsAllTabDataWellFormed
  if !C.IsAllTabDataWellFormed w1.ext then
    ShowMessageOnStatusBar w1 "Create HTML TOC cancelled due to XML not well formed."
  else
    let w2 := SaveTabData C.toCollaborators w1
    let found := tocSearch C w2.ext
    let w3 := closeFoundResource C w2 found.2
    let located : WindowState σ × Resource :=
      match found.2 with
      | some tocResource => (w3, tocResource)
      | none =>
        let created := createDerivedResource C w3 HTML_TOC_FILE
        let htmlResources : List Resource := created.2 :: found.1
        (UpdateSpineOrder C created.1 htmlResources, created.2)
    let w6 := located.1
    let tocResource : Resource := located.2
    writeDerivedResource C w6 tocResource (C.TOCHTMLWriter_WriteXML w6.ext) .TableOfContents

/-- Source: `MainWindow::LinkStylesheetsToResources(QList<Resource *> resources)`.
`dialog_Accepted` and `dialog_stylesheets` are the user's answer to the `LinkStylesheets`
dialog (`link.exec()`, `link.GetStylesheets()`); the result is `none` when
`GetStylesheetsMap` dereferences a null pointer. -/
def LinkStylesheetsToResources {σ : Type} (C : EditCollaborators σ) (w : WindowState σ)
    (resources : List Resource) (dialog_Accepted : Bool) (dialog_stylesheets : List String) :
    Option (WindowState σ) :=
  if resources.isEmpty then some w
  else
    let w1 := w.record .IsAllTabDataWellFormed
    if !C.IsAllTabDataWellFormed w1.ext then
      some (ShowMessageOnStatusBar w1 "Link Stylesheets cancelled due to XML not well formed.")
    else
      let w2 := SaveTabData C.toCollaborators w1
      match GetStylesheetsMap (C.AllCSSResources w2.ext) resources with
      | none => none
      | some stylesheets_map =>
        let w3 := w2.record (.LinkStylesheets_exec stylesheets_map)
        if !dialog_Accepted then some w3
        else
          let current_resource : Option Resource :=
            (C.GetCurrentContentTab w3.ext).map (fun tab => tab.GetLoadedResource)
          match closeTabsForResources C.toCollaborators w3 resources with
          | (w4, some resource) =>
            some (w4.record (.QMessageBox_critical
              ("Cannot link stylesheets\n\nCannot close tab: " ++ resource.Filename)))
          | (w4, none) =>
            let stylesheets : List String := dialog_stylesheets
            let html_resources : List (Option Resource) :=
              resources.map qobject_cast_HTMLResource
            let w5 : WindowState σ :=
              { (w4.record (.LinkUpdates_UpdateLinksInAllFiles html_resources stylesheets)) with
                ext := C.LinkUpdates_UpdateLinksInAllFiles w4.ext html_resources stylesheets }
            let w6 : WindowState σ :=
              { (w5.record .Book_SetModified) with ext := C.Book_SetModified w5.ext }
            let w7 : WindowState σ :=
              match current_resource with
              | some r =>
                if resources.contains r then OpenResourceDefault C.toCollaborators w6 r
                else w6
              | none => w6
            some { (w7.record (.BookBrowser_SelectResources resources)) with
              ext := C.BookBrowser_SelectResources w7.ext resources }

/-- The calls that the loop of `SplitOnSGFSectionMarkers` makes for one resource whose marker
scan returned `new_sections`: the scan, followed by `CreateNewSections` when the scan
returned at least one section. -/
def splitCalls (scan : Resource × List String) : List Event :=
  .HTMLResource_SplitOnSGFSectionMarkers scan.1 scan.2 ::
    (if scan.2.isEmpty then [] else [.Book_CreateNewSections scan.2 scan.1])

/-- The resources, in order, whose marker scan returned at least one section. -/
def changedBy (scans : List (Resource × List String)) : List Resource :=
  (scans.filter (fun scan => !scan.2.isEmpty)).map (fun scan => scan.1)

/-- The loop of `SplitOnSGFSectionMarkers` on the collaborators alone: every resource of the
list is scanned in the state left by the calls made before it, and `CreateNewSections` acts
on the state after the scan when the scan returned at least one section.  The result is the
list of the scanned resources, each with the sections its scan returned, and the state after
the loop. -/
def splitScans {σ : Type} (C : EditCollaborators σ) :
    σ → List Resource → List (Resource × List String) × σ
  | s, [] => ([], s)
  | s, resource :: rest =>
    let scan := C.HTMLResource_SplitOnSGFSectionMarkers s resource
    let scans := splitScans C
      (if !scan.1.isEmpty then C.Book_CreateNewSections scan.2 scan.1 resource else scan.2) rest
    ((resource, scan.1) :: scans.1, scans.2)

/-- The calls made by `writeDerivedResource`, the closing block of index and contents
generation, when it starts in window state `w`. -/
def writeCalls {σ : Type} (C : EditCollaborators σ) (w : WindowState σ) (resource : Resource)
    (text : String) (guide_type : GuideSemanticType) : List Event :=
  [.Resource_SetText resource text] ++
    (if C.GetGuideSemanticTypeForResource (C.Resource_SetText w.ext resource text) resource ≠
        guide_type then [.OPF_AddGuideSemanticType resource guide_type] else []) ++
    [.Book_SetModified, .BookBrowser_Refresh,
      .TabManager_OpenResource resource
        C.OpenResource_defaults.precede_current_tab C.OpenResource_defaults.fragment
        (if C.OpenResource_defaults.view_state ≠ .ViewState_Unknown then
          C.OpenResource_defaults.view_state else w.mw.m_ViewState)
        C.OpenResource_defaults.line_to_scroll_to
        C.OpenResource_defaults.position_to_scroll_to
        C.OpenResource_defaults.caret_location_to_scroll_to
        C.OpenResource_defaults.grab_focus]

/-- The behaviour of the OPF guide that index and contents generation rely on; the OPF is
not part of `MainWindow.cpp`.  `AddGuideSemanticType` is a toggle on its resource (source
comment: "Setting a semantic on a resource that already has it set will remove the
semantic") and leaves every other resource alone; a file made by `CreateEmptyHTMLFile`
holds no guide type; `RenameTo` keeps the guide type with the renamed resource; no other
call made during generation changes the guide type of any resource, and `SaveTabData` does
not change the list of HTML resources. -/
structure GuideLaws {σ : Type} (C : EditCollaborators σ) : Prop where
  AddGuideSemanticType_self : ∀ s r t,
    C.GetGuideSemanticTypeForResource (C.AddGuideSemanticType s r t) r =
      if C.GetGuideSemanticTypeForResource s r = t then .NoType else t
  AddGuideSemanticType_other : ∀ s r t x, x ≠ r →
    C.GetGuideSemanticTypeForResource (C.AddGuideSemanticType s r t) x =
      C.GetGuideSemanticTypeForResource s x
  CreateEmptyHTMLFile_new : ∀ s,
    C.GetGuideSemanticTypeForResource (C.Book_CreateEmptyHTMLFile s).2
      (C.Book_CreateEmptyHTMLFile s).1 = .NoType
  CreateEmptyHTMLFile_other : ∀ s x, x ≠ (C.Book_CreateEmptyHTMLFile s).1 →
    C.GetGuideSemanticTypeForResource (C.Book_CreateEmptyHTMLFile s).2 x =
      C.GetGuideSemanticTypeForResource s x
  RenameTo_self : ∀ s r name,
    C.GetGuideSemanticTypeForResource (C.Resource_RenameTo s r name).2
      (C.Resource_RenameTo s r name).1 = C.GetGuideSemanticTypeForResource s r
  RenameTo_other : ∀ s r name x, x ≠ (C.Resource_RenameTo s r name).1 →
    C.GetGuideSemanticTypeForResource (C.Resource_RenameTo s r name).2 x =
      C.GetGuideSemanticTypeForResource s x
  SaveTabData_guide : ∀ s x,
    C.GetGuideSemanticTypeForResource (C.TabManager_SaveTabData s) x =
      C.GetGuideSemanticTypeForResource s x
  SaveTabData_html : ∀ s, C.AllHTMLResources (C.TabManager_SaveTabData s) = C.AllHTMLResources s
  CloseTabForResource_guide : ∀ s r x,
    C.GetGuideSemanticTypeForResource (C.TabManager_CloseTabForResource s r).2 x =
      C.GetGuideSemanticTypeForResource s x
  UpdateSpineOrder_guide : ∀ s l x,
    C.GetGuideSemanticTypeForResource (C.UpdateSpineOrder s l) x =
      C.GetGuideSemanticTypeForResource s x
  BuildIndex_guide : ∀ s l x,
    C.GetGuideSemanticTypeForResource (C.Index_BuildIndex s l).2 x =
      C.GetGuideSemanticTypeForResource s x
  SetText_guide : ∀ s r text x,
    C.GetGuideSemanticTypeForResource (C.Resource_SetText s r text) x =
      C.GetGuideSemanticTypeForResource s x
  SetModified_guide : ∀ s x,
    C.GetGuideSemanticTypeForResource (C.Book_SetModified s) x =
      C.GetGuideSemanticTypeForResource s x
  Refresh_guide : ∀ s x,
    C.GetGuideSemanticTypeForResource (C.BookBrowser_Refresh s) x =
      C.GetGuideSemanticTypeForResource s x
  OpenResource_guide : ∀ s r p f v l q c g x,
    C.GetGuideSemanticTypeForResource (C.TabManager_OpenResource s r p f v l q c g) x =
      C.GetGuideSemanticTypeForResource s x
  afterSetViewState_guide : ∀ s v x,
    C.GetGuideSemanticTypeForResource (C.afterSetViewState s v) x =
      C.GetGuideSemanticTypeForResource s x

/-- A small book for examples: the HTML resources in spine order, the guide role of every
resource, the sections that the marker scan returns for every resource, and the answer of
`IsAllTabDataWellFormed()`. -/
structure SampleBook where
  html : List Resource
  guide : Resource → GuideSemanticType
  markers : Resource → List String
  wellFormed : Bool

/-- Collaborators over a `SampleBook`: no tab is open and every tab closes, a new HTML file
is `Section0001.xhtml` without a guide role and is placed last, renaming takes place unless
the book already has an HTML resource of the new name and keeps the guide role,
`AddGuideSemanticType` toggles the role of its resource,
`UpdateSpineOrder` installs its argument as the list of HTML resources, the index is always
built, and every other command leaves the book as it is. -/
def sampleEditCollaborators : EditCollaborators SampleBook :=
  { GetCurrentContentTab := fun _ => none
    IsAllTabDataWellFormed := fun s => s.wellFormed
    GetResourceByFilename := fun s name => s.html.find? (fun r => r.Filename = name)
    TabManager_OpenResource := fun s _ _ _ _ _ _ _ _ => s
    TabManager_SaveTabData := fun s => s
    TabManager_CloseTabForResource := fun s _ => (true, s)
    afterSetViewState := fun s _ => s
    Book_PreviousResource := fun _ _ => none
    Book_MergeResources := fun s _ => (none, s)
    BookBrowser_Refresh := fun s => s
    BookBrowser_UpdateSelection := fun s _ => s
    OpenResource_defaults :=
      { precede_current_tab := false
        fragment := ""
        view_state := .ViewState_Unknown
        line_to_scroll_to := -1
        position_to_scroll_to := -1
        caret_location_to_scroll_to := ""
        grab_focus := true }
    AllHTMLResources := fun s => s.html
    AllCSSResources := fun _ => []
    FlowTab_GetViewState := fun _ => .ViewState_BookView
    FlowTab_SaveTabContent := fun s => s
    HTMLResource_SplitOnSGFSectionMarkers := fun s r => (s.markers r, s)
    Book_CreateNewSections := fun s _ _ => s
    TabManager_ReloadTabDataForResources := fun s _ => s
    BookBrowser_setFocus := fun s => s
    FlowTab_setFocus := fun s => s
    GetGuideSemanticTypeForResource := fun s r => s.guide r
    AddGuideSemanticType := fun s r t =>
      { s with guide := fun x =>
          if x = r then (if s.guide r = t then .NoType else t) else s.guide x }
    Book_CreateEmptyHTMLFile := fun s =>
      (htmlResource "Section0001.xhtml" [],
        { s with html := s.html ++ [htmlResource "Section0001.xhtml" []]
                 guide := fun x =>
                   if x = htmlResource "Section0001.xhtml" [] then .NoType else s.guide x })
    Resource_RenameTo := fun s r name =>
      if s.html.any (fun x => x.Filename = name) then (r, s)
      else
        (htmlResource name r.GetLinkedStylesheets,
          { s with html := s.html.map
                     (fun x => if x = r then htmlResource name r.GetLinkedStylesheets else x)
                   guide := fun x =>
                     if x = htmlResource name r.GetLinkedStylesheets then s.guide r
                     else s.guide x })
    UpdateSpineOrder := fun s html_resources => { s with html := html_resources }
    Index_BuildIndex := fun s _ => (true, s)
    IndexHTMLWriter_WriteXML := fun _ => "<html><body><h1>Index</h1></body></html>"
    TOCHTMLWriter_WriteXML := fun _ => "<html><body><h1>Contents</h1></body></html>"
    Resource_SetText := fun s _ _ => s
    Book_SetModified := fun s => s
    LinkUpdates_UpdateLinksInAllFiles := fun s _ _ => s
    BookBrowser_SelectResources := fun s _ => s }

/-- A book of the given HTML resources in which no resource holds a guide role, the
resource named `Chapter2.xhtml` contains one split marker, and tab data is well formed
as stated. -/
def sampleBook (html : List Resource) (wellFormed : Bool) : SampleBook :=
  { html := html
    guide := fun _ => .NoType
    markers := fun r =>
      if r.Filename = "Chapter2.xhtml" then ["<p>first</p>", "<p>second</p>"] else []
    wellFormed := wellFormed }

/-- A window in Book View over a `SampleBook`, with an unset bookmark and no call made so
far. -/
def sampleWindow (book : SampleBook) : WindowState SampleBook :=
  { mw := bookViewWindow
    m_LinkOrStyleBookmark := ResetLocationBookmark sampleBookmark
    actionGoBackFromLinkOrStyle_enabled := false
    ext := book
    log := [] }

/-- The book `sampleBook html true` in which the resource `holder` holds the guide type
`role` (and no other resource holds any). -/
def sampleBookWithRole (html : List Resource) (holder : Resource) (role : GuideSemanticType) :
    SampleBook :=
  { sampleBook html true with guide := fun x => if x = holder then role else .NoType }

/-! ## The view state over the life of the window -/

/-- Source: the member initialiser `m_ViewState( MainWindow::ViewState_BookView )` of the
constructor `MainWindow::MainWindow`: the window before the constructor body runs, with
the action flags `ui` that `setupUi` installs. -/
def MainWindow.initial (ui : Ui) : MainWindow :=
  { m_ViewState := .ViewState_BookView
    ui := ui }

/-- Source: `MainWindow::SetDefaultViewState()`.  `view_state_value` is the stored setting
`settings.viewState()`; `code` gives the integer value of the enumerators of
`MainWindow::ViewState`, which are declared in `MainWindow.h`.  The signal
`SettingsChanged()` emitted in between does not touch `m_ViewState`. -/
def SetDefaultViewState (code : ViewState → ℤ) (env : Env) (mw : MainWindow)
    (view_state_value : ℤ) : MainWindow :=
  let view_state : ViewState :=
    if view_state_value = code .ViewState_PreviewView then .ViewState_PreviewView
    else if view_state_value = code .ViewState_CodeView then .ViewState_CodeView
    else .ViewState_BookView
  SetViewState env { mw with m_ViewState := view_state } view_state

/-- The calls of `MainWindow.cpp` that write `m_ViewState`: `SetViewState`,
`SetDefaultViewState` and `UpdateViewState` (called on its own by
`UpdateUiWhenTabsSwitch`), each with the current tab and tab data it meets. -/
inductive ViewStateCommand where
  | SetViewState (env : Env) (view_state : ViewState)
  | SetDefaultViewState (env : Env) (view_state_value : ℤ)
  | UpdateViewState (env : Env) (set_tab_state : Bool)

/-- Run one view-state command. -/
def ViewStateCommand.run (code : ViewState → ℤ) (mw : MainWindow) :
    ViewStateCommand → MainWindow
  | .SetViewState env view_state => Sigil.SetViewState env mw view_state
  | .SetDefaultViewState env view_state_value =>
    Sigil.SetDefaultViewState code env mw view_state_value
  | .UpdateViewState env set_tab_state => (Sigil.UpdateViewState env mw set_tab_state).2

/-- Run a sequence of view-state commands, first to last. -/
def runViewStateCommands (code : ViewState → ℤ) (mw : MainWindow)
    (commands : List ViewStateCommand) : MainWindow :=
  commands.foldl (ViewStateCommand.run code) mw

/-- The integer values of the view states used in the examples. -/
def sampleViewStateCode : ViewState → ℤ
  | .ViewState_Unknown => 0
  | .ViewState_BookView => 10
  | .ViewState_PreviewView => 20
  | .ViewState_CodeView => 30
  | .ViewState_RawView => 40

/-! ## The target of a zoom step -/

/-- The argument of the call `ZoomByFactor(...)` with which `MainWindow::ZoomByStep` ends,
for a tab whose zoom factor is `current_zoom_factor`. -/
def ZoomByStep_target (RoundToOneDecimal : ℚ → ℚ) (current_zoom_factor : ℚ)
    (zoom_in : Bool) : ℚ :=
  let zoom_stepping : ℚ := if zoom_in then ZOOM_STEP else -ZOOM_STEP
  let rounding_helper : ℚ := if zoom_in then f32 (1 / 20) else -f32 (1 / 20)
  let rounded_zoom_factor : ℚ :=
    RoundToOneDecimal (f32 (current_zoom_factor + rounding_helper))
  if qAbs (f32 (current_zoom_factor - rounded_zoom_factor)) < f32 (1 / 100) then
    RoundToOneDecimal (f32 (current_zoom_factor + zoom_stepping))
  else rounded_zoom_factor

/-! ## Zoom on the full value set of `float`

The zoom code once more, on every value a `float` can hold: the guard of `ZoomByFactor` is
two comparisons, and a comparison with a NaN operand is false. -/

/-- A value of C++ `float` (IEEE 754 binary32): a finite number, given by the rational it
denotes (the two zeros compare equal and are one value here), an infinity, or a NaN. -/
inductive FloatValue where
  | finite (value : ℚ)
  | posInf
  | negInf
  | NaN
  deriving DecidableEq

/-- The largest finite `float`, `(2 - 2 ^ -23) * 2 ^ 127`. -/
def FLT_MAX : ℚ := (2 ^ 24 - 1) * 2 ^ 104

/-- The `float` result of an operation whose exact result is `x`: rounding to nearest, ties
to even, and an infinity when the rounded magnitude exceeds `FLT_MAX`. -/
def IEEE.roundToFloat (x : ℚ) : FloatValue :=
  if FLT_MAX < f32 x then .posInf
  else if f32 x < -FLT_MAX then .negInf
  else .finite (f32 x)

/-- The operator `a + b` on `float`. -/
def IEEE.add : FloatValue → FloatValue → FloatValue
  | .NaN, _ => .NaN
  | _, .NaN => .NaN
  | .finite a, .finite b => IEEE.roundToFloat (a + b)
  | .posInf, .negInf => .NaN
  | .negInf, .posInf => .NaN
  | .posInf, _ => .posInf
  | .negInf, _ => .negInf
  | _, .posInf => .posInf
  | _, .negInf => .negInf

/-- The operator `-a` on `float`. -/
def IEEE.neg : FloatValue → FloatValue
  | .finite a => .finite (-a)
  | .posInf => .negInf
  | .negInf => .posInf
  | .NaN => .NaN

/-- The operator `a - b` on `float`. -/
def IEEE.sub (a b : FloatValue) : FloatValue := IEEE.add a (IEEE.neg b)

/-- The operator `a * b` on `float`. -/
def IEEE.mul : FloatValue → FloatValue → FloatValue
  | .NaN, _ => .NaN
  | _, .NaN => .NaN
  | .finite a, .finite b => IEEE.roundToFloat (a * b)
  | .finite a, .posInf => if a = 0 then .NaN else if 0 < a then .posInf else .negInf
  | .finite a, .negInf => if a = 0 then .NaN else if 0 < a then .negInf else .posInf
  | .posInf, .finite b => if b = 0 then .NaN else if 0 < b then .posInf else .negInf
  | .negInf, .finite b => if b = 0 then .NaN else if 0 < b then .negInf else .posInf
  | .posInf, .posInf => .posInf
  | .posInf, .negInf => .negInf
  | .negInf, .posInf => .negInf
  | .negInf, .negInf => .posInf

/-- The operator `a < b` on `float`: false when an operand is a NaN. -/
def IEEE.lt : FloatValue → FloatValue → Bool
  | .NaN, _ => false
  | _, .NaN => false
  | .finite a, .finite b => decide (a < b)
  | .finite _, .posInf => true
  | .finite _, .negInf => false
  | .posInf, _ => false
  | .negInf, .negInf => false
  | .negInf, _ => true

/-- The operator `a <= b` on `float`: false when an operand is a NaN. -/
def IEEE.le : FloatValue → FloatValue → Bool
  | .NaN, _ => false
  | _, .NaN => false
  | .finite a, .finite b => decide (a ≤ b)
  | .finite _, .posInf => true
  | .finite _, .negInf => false
  | .posInf, .posInf => true
  | .posInf, _ => false
  | .negInf, _ => true

/-- The operator `a > b` on `float`. -/
def IEEE.gt (a b : FloatValue) : Bool := IEEE.lt b a

/-- The operator `a >= b` on `float`. -/
def IEEE.ge (a b : FloatValue) : Bool := IEEE.le b a

/-- Qt: `qAbs(t)` is `t >= 0 ? t : -t`. -/
def IEEE.qAbs (t : FloatValue) : FloatValue :=
  if IEEE.ge t (.finite 0) then t else IEEE.neg t

/-- Qt: `qMin(a, b)` is `a < b ? a : b`. -/
def IEEE.qMin (a b : FloatValue) : FloatValue := if IEEE.lt a b then a else b

/-- Qt: `qFuzzyCompare(float p1, float p2)` is
`qAbs(p1 - p2) <= 0.00001f * qMin(qAbs(p1), qAbs(p2))`. -/
def IEEE.qFuzzyCompare (p1 p2 : FloatValue) : Bool :=
  IEEE.le (IEEE.qAbs (IEEE.sub p1 p2))
    (IEEE.mul (.finite (f32 (1 / 100000))) (IEEE.qMin (IEEE.qAbs p1) (IEEE.qAbs p2)))

/-- The current content tab as seen by the zoom code: the value read by `GetZoomFactor()`
and written by `SetZoomFactor()`. -/
structure IEEE.ContentTab where
  zoomFactor : FloatValue
  deriving DecidableEq

/-- Source: `MainWindow::ZoomByFactor(float new_zoom_factor)`, on every `float` value. -/
def IEEE.ZoomByFactor (tab : Option IEEE.ContentTab) (new_zoom_factor : FloatValue) :
    Option IEEE.ContentTab :=
  match tab with
  | none => none
  | some t =>
    if IEEE.gt new_zoom_factor (.finite ZOOM_MAX) || IEEE.lt new_zoom_factor (.finite ZOOM_MIN)
    then some t
    else some { t with zoomFactor := new_zoom_factor }

/-- Source: `MainWindow::ZoomByStep(bool zoom_in)`, on every `float` value.
`RoundToOneDecimal` is `Utility::RoundToOneDecimal`, which is not part of
`MainWindow.cpp`. -/
def IEEE.ZoomByStep (RoundToOneDecimal : FloatValue → FloatValue)
    (tab : Option IEEE.ContentTab) (zoom_in : Bool) : Option IEEE.ContentTab :=
  match tab with
  | none => none
  | some t =>
    let zoom_stepping : FloatValue :=
      if zoom_in then .finite ZOOM_STEP else IEEE.neg (.finite ZOOM_STEP)
    let rounding_helper : FloatValue :=
      if zoom_in then .finite (f32 (1 / 20)) else IEEE.neg (.finite (f32 (1 / 20)))
    let current_zoom_factor : FloatValue := t.zoomFactor
    let rounded_zoom_factor : FloatValue :=
      RoundToOneDecimal (IEEE.add current_zoom_factor rounding_helper)
    if IEEE.lt (IEEE.qAbs (IEEE.sub current_zoom_factor rounded_zoom_factor))
        (.finite (f32 (1 / 100))) then
      IEEE.ZoomByFactor tab (RoundToOneDecimal (IEEE.add current_zoom_factor zoom_stepping))
    else
      IEEE.ZoomByFactor tab rounded_zoom_factor

/-- Source: `MainWindow::ZoomIn()`. -/
def IEEE.ZoomIn (RoundToOneDecimal : FloatValue → FloatValue) (tab : Option IEEE.ContentTab) :
    Option IEEE.ContentTab :=
  IEEE.ZoomByStep RoundToOneDecimal tab true

/-- Source: `MainWindow::ZoomOut()`. -/
def IEEE.ZoomOut (RoundToOneDecimal : FloatValue → FloatValue) (tab : Option IEEE.ContentTab) :
    Option IEEE.ContentTab :=
  IEEE.ZoomByStep RoundToOneDecimal tab false

/-- Source: `MainWindow::ZoomReset()`. -/
def IEEE.ZoomReset (tab : Option IEEE.ContentTab) : Option IEEE.ContentTab :=
  IEEE.ZoomByFactor tab (.finite ZOOM_NORMAL)

/-- Source: `MainWindow::SliderZoom(int slider_value)`; the result of
`SliderRangeToZoomFactor` is a finite `float` for every `int`. -/
def IEEE.SliderZoom (tab : Option IEEE.ContentTab) (slider_value : ℤ) :
    Option IEEE.ContentTab :=
  match tab with
  | none => none
  | some t =>
    let new_zoom_factor : FloatValue := .finite (SliderRangeToZoomFactor slider_value)
    let current_zoom_factor : FloatValue := t.zoomFactor
    if !IEEE.qFuzzyCompare new_zoom_factor current_zoom_factor then
      IEEE.ZoomByFactor tab new_zoom_factor
    else some t

/-- Run one zoom command on the current tab. -/
def IEEE.runZoomCommand (RoundToOneDecimal : FloatValue → FloatValue)
    (tab : Option IEEE.ContentTab) : ZoomCommand → Option IEEE.ContentTab
  | .zoomIn => IEEE.ZoomIn RoundToOneDecimal tab
  | .zoomOut => IEEE.ZoomOut RoundToOneDecimal tab
  | .zoomReset => IEEE.ZoomReset tab
  | .zoomByStep zoom_in => IEEE.ZoomByStep RoundToOneDecimal tab zoom_in
  | .sliderZoom slider_value => IEEE.SliderZoom tab slider_value

/-- Run a sequence of zoom commands, left to right. -/
def IEEE.runZoomCommands (RoundToOneDecimal : FloatValue → FloatValue)
    (tab : Option IEEE.ContentTab) (cmds : List ZoomCommand) : Option IEEE.ContentTab :=
  cmds.foldl (IEEE.runZoomCommand RoundToOneDecimal) tab

/-- A rounding helper given on finite values, extended to every `float` value: an infinity
or a NaN is returned as it is. -/
def IEEE.extend (R : ℚ → ℚ) : FloatValue → FloatValue
  | .finite x => .finite (R x)
  | .posInf => .posInf
  | .negInf => .negInf
  | .NaN => .NaN

/-! Theorems. -/

/-! ## Facts about rounding -/

theorem pow2_eq (e : ℤ) : pow2 e = (2 : ℚ) ^ e := by
  unfold pow2
  split_ifs with h
  · obtain ⟨n, rfl⟩ := Int.eq_ofNat_of_zero_le h
    simp
  · push_neg at h
    obtain ⟨n, hn⟩ := Int.eq_ofNat_of_zero_le (by omega : 0 ≤ -e)
    have he : e = -(n : ℤ) := by omega
    subst he
    simp

theorem pow2_pos (e : ℤ) : 0 < pow2 e := by
  rw [pow2_eq]; positivity

theorem pow2_le {a b : ℤ} (h : a ≤ b) : pow2 a ≤ pow2 b := by
  rw [pow2_eq, pow2_eq]
  exact zpow_le_zpow_right₀ (by norm_num) h

theorem pow2_lt_iff {a b : ℤ} : pow2 a < pow2 b ↔ a < b := by
  rw [pow2_eq, pow2_eq]
  exact zpow_lt_zpow_iff_right₀ (by norm_num)

theorem pow2_add (a b : ℤ) : pow2 (a + b) = pow2 a * pow2 b := by
  simp only [pow2_eq]
  exact zpow_add₀ (by norm_num) a b

theorem log2Aux_spec (fuel : ℕ) : ∀ n : ℕ, n ≤ fuel → 0 < n →
    2 ^ log2Aux fuel n ≤ n ∧ n < 2 ^ (log2Aux fuel n + 1) := by
  induction fuel with
  | zero => intro n h1 h2; omega
  | succ fuel ih =>
    intro n h1 h2
    unfold log2Aux
    split_ifs with h
    · simp; omega
    · have h3 := ih (n / 2) (by omega) (by omega)
      obtain ⟨h4, h5⟩ := h3
      rw [pow_succ] at h5 ⊢
      constructor
      · omega
      · rw [pow_succ]; omega

theorem natLog2_spec (n : ℕ) (hn : 0 < n) :
    2 ^ natLog2 n ≤ n ∧ n < 2 ^ (natLog2 n + 1) :=
  log2Aux_spec n n le_rfl hn


theorem ilog2_spec (x : ℚ) (hx : x ≠ 0) :
    pow2 (ilog2 x) ≤ |x| ∧ |x| < pow2 (ilog2 x + 1) := by
  have hn : 0 < x.num.natAbs := Int.natAbs_pos.mpr (Rat.num_ne_zero.mpr hx)
  have hd : 0 < x.den := x.den_pos
  obtain ⟨ha1, ha2⟩ := natLog2_spec _ hn
  obtain ⟨hb1, hb2⟩ := natLog2_spec _ hd
  have habs : |x| = (x.num.natAbs : ℚ) / (x.den : ℚ) := by
    conv_lhs => rw [← Rat.num_div_den x]
    rw [abs_div, Nat.abs_cast]
    congr 1
    rw [Nat.cast_natAbs, Int.cast_abs]
  have hdq : (0 : ℚ) < (x.den : ℚ) := by exact_mod_cast hd
  have ha1q : (2 : ℚ) ^ (natLog2 x.num.natAbs) ≤ (x.num.natAbs : ℚ) := by exact_mod_cast ha1
  have ha2q : (x.num.natAbs : ℚ) < (2 : ℚ) ^ (natLog2 x.num.natAbs + 1) := by exact_mod_cast ha2
  have hb1q : (2 : ℚ) ^ (natLog2 x.den) ≤ (x.den : ℚ) := by exact_mod_cast hb1
  have hb2q : (x.den : ℚ) < (2 : ℚ) ^ (natLog2 x.den + 1) := by exact_mod_cast hb2
  have hpa : (0 : ℚ) < (2 : ℚ) ^ (natLog2 x.num.natAbs) := by positivity
  have hpb : (0 : ℚ) < (2 : ℚ) ^ (natLog2 x.den) := by positivity
  have key1 : ∀ k : ℤ, k = (natLog2 x.num.natAbs : ℤ) - (natLog2 x.den : ℤ) →
      |x| < pow2 (k + 1) := by
    intro k hk
    rw [pow2_eq, habs, div_lt_iff₀ hdq]
    have : (2 : ℚ) ^ (k + 1) * (2 : ℚ) ^ (natLog2 x.den) = (2 : ℚ) ^ (natLog2 x.num.natAbs + 1) := by
      rw [← zpow_natCast, ← zpow_natCast, ← zpow_add₀ (by norm_num)]
      congr 1
      push_cast
      omega
    calc (x.num.natAbs : ℚ) < (2 : ℚ) ^ (natLog2 x.num.natAbs + 1) := ha2q
      _ = (2 : ℚ) ^ (k + 1) * (2 : ℚ) ^ (natLog2 x.den) := this.symm
      _ ≤ (2 : ℚ) ^ (k + 1) * (x.den : ℚ) := by
          apply mul_le_mul_of_nonneg_left hb1q
          positivity
  have key2 : ∀ k : ℤ, k = (natLog2 x.num.natAbs : ℤ) - (natLog2 x.den : ℤ) →
      pow2 (k - 1) ≤ |x| := by
    intro k hk
    rw [pow2_eq, habs, le_div_iff₀ hdq]
    have : (2 : ℚ) ^ (k - 1) * (2 : ℚ) ^ (natLog2 x.den + 1) = (2 : ℚ) ^ (natLog2 x.num.natAbs) := by
      rw [← zpow_natCast, ← zpow_natCast, ← zpow_add₀ (by norm_num)]
      congr 1
      push_cast
      omega
    calc (2 : ℚ) ^ (k - 1) * (x.den : ℚ) ≤ (2 : ℚ) ^ (k - 1) * (2 : ℚ) ^ (natLog2 x.den + 1) := by
          apply mul_le_mul_of_nonneg_left hb2q.le
          positivity
      _ = (2 : ℚ) ^ (natLog2 x.num.natAbs) := this
      _ ≤ (x.num.natAbs : ℚ) := ha1q
  unfold ilog2
  simp only
  split_ifs with h
  · exact ⟨h, key1 _ rfl⟩
  · push_neg at h
    refine ⟨key2 _ rfl, ?_⟩
    rw [sub_add_cancel]
    exact h

theorem roundNE_err (q : ℚ) : |(roundNE q : ℚ) - q| ≤ 1 / 2 := by
  have h1 : (⌊q⌋ : ℚ) ≤ q := Int.floor_le q
  have h2 : q < (⌊q⌋ : ℚ) + 1 := Int.lt_floor_add_one q
  unfold roundNE
  simp only
  rw [abs_le]
  split_ifs with ha hb hc
  · constructor <;> linarith
  · push_cast; constructor <;> linarith
  · push_neg at ha hb; constructor <;> linarith
  · push_neg at ha hb; push_cast; constructor <;> linarith

theorem roundNE_nonneg (q : ℚ) (hq : 0 ≤ q) : 0 ≤ roundNE q := by
  have h0 : 0 ≤ ⌊q⌋ := Int.floor_nonneg.mpr hq
  unfold roundNE
  simp only
  split_ifs <;> omega

theorem rnd_nonneg (p emin : ℤ) (x : ℚ) (hx : 0 ≤ x) : 0 ≤ rnd p emin x := by
  unfold rnd
  split_ifs with h
  · exact le_rfl
  · simp only
    apply mul_nonneg
    · exact_mod_cast roundNE_nonneg _ (div_nonneg hx (pow2_pos _).le)
    · exact (pow2_pos _).le

theorem rnd_err {p m k : ℤ} {x : ℚ} (hk : m ≤ k + 1 - p) (hx : |x| ≤ pow2 k) :
    |rnd p m x - x| ≤ pow2 (k - p) := by
  unfold rnd
  split_ifs with h
  · subst h; simp; exact (pow2_pos _).le
  · simp only
    obtain ⟨hl, _⟩ := ilog2_spec x h
    have hle : ilog2 x ≤ k := by
      by_contra hc
      push_neg at hc
      have := pow2_lt_iff.mpr hc
      linarith
    set e := max (ilog2 x + 1 - p) m with he
    have hek : e ≤ k + 1 - p := max_le (by omega) hk
    have hpe := pow2_pos e
    have hr := roundNE_err (x / pow2 e)
    have hfac : (roundNE (x / pow2 e) : ℚ) * pow2 e - x
        = ((roundNE (x / pow2 e) : ℚ) - x / pow2 e) * pow2 e := by
      field_simp
    rw [hfac, abs_mul, abs_of_pos hpe]
    have h2 : pow2 e ≤ pow2 (k - p) * 2 := by
      have : pow2 (k + 1 - p) = pow2 (k - p) * 2 := by
        have : k + 1 - p = (k - p) + 1 := by ring
        rw [this, pow2_add]
        congr 1
      rw [← this]
      exact pow2_le hek
    calc |(roundNE (x / pow2 e) : ℚ) - x / pow2 e| * pow2 e ≤ 1 / 2 * pow2 e :=
          mul_le_mul_of_nonneg_right hr hpe.le
      _ ≤ 1 / 2 * (pow2 (k - p) * 2) := by linarith
      _ = pow2 (k - p) := by ring


theorem pow2_neg_nat (n : ℕ) : pow2 (-(n : ℤ)) = 1 / 2 ^ n := by
  rw [pow2_eq, zpow_neg, zpow_natCast, one_div]

theorem pow2_nat (n : ℕ) : pow2 (n : ℤ) = 2 ^ n := by
  rw [pow2_eq, zpow_natCast]

theorem f64_err_le_one {x : ℚ} (h : |x| ≤ 1) : |f64 x - x| ≤ 1 / 2 ^ 53 := by
  have h1 := rnd_err (p := 53) (m := -1074) (k := 0) (x := x) (by norm_num)
    (by rw [show (0 : ℤ) = ((0 : ℕ) : ℤ) from rfl, pow2_nat]; simpa using h)
  rw [show (0 : ℤ) - 53 = -((53 : ℕ) : ℤ) from rfl, pow2_neg_nat] at h1
  exact h1

theorem f64_err_le_two {x : ℚ} (h : |x| ≤ 2) : |f64 x - x| ≤ 1 / 2 ^ 52 := by
  have h1 := rnd_err (p := 53) (m := -1074) (k := 1) (x := x) (by norm_num)
    (by rw [show (1 : ℤ) = ((1 : ℕ) : ℤ) from rfl, pow2_nat]; simpa using h)
  rw [show (1 : ℤ) - 53 = -((52 : ℕ) : ℤ) from rfl, pow2_neg_nat] at h1
  exact h1

theorem f64_err_le_eight {x : ℚ} (h : |x| ≤ 8) : |f64 x - x| ≤ 1 / 2 ^ 50 := by
  have h1 := rnd_err (p := 53) (m := -1074) (k := 3) (x := x) (by norm_num)
    (by rw [show (3 : ℤ) = ((3 : ℕ) : ℤ) from rfl, pow2_nat]; norm_num; exact h)
  rw [show (3 : ℤ) - 53 = -((50 : ℕ) : ℤ) from rfl, pow2_neg_nat] at h1
  exact h1

theorem f64_err_le_1024 {x : ℚ} (h : |x| ≤ 1024) : |f64 x - x| ≤ 1 / 2 ^ 43 := by
  have h1 := rnd_err (p := 53) (m := -1074) (k := 10) (x := x) (by norm_num)
    (by rw [show (10 : ℤ) = ((10 : ℕ) : ℤ) from rfl, pow2_nat]; norm_num; exact h)
  rw [show (10 : ℤ) - 53 = -((43 : ℕ) : ℤ) from rfl, pow2_neg_nat] at h1
  exact h1

theorem f32_err_le_one {x : ℚ} (h : |x| ≤ 1) : |f32 x - x| ≤ 1 / 2 ^ 24 := by
  have h1 := rnd_err (p := 24) (m := -149) (k := 0) (x := x) (by norm_num)
    (by rw [show (0 : ℤ) = ((0 : ℕ) : ℤ) from rfl, pow2_nat]; simpa using h)
  rw [show (0 : ℤ) - 24 = -((24 : ℕ) : ℤ) from rfl, pow2_neg_nat] at h1
  exact h1

theorem f32_err_le_four {x : ℚ} (h : |x| ≤ 4) : |f32 x - x| ≤ 1 / 2 ^ 22 := by
  have h1 := rnd_err (p := 24) (m := -149) (k := 2) (x := x) (by norm_num)
    (by rw [show (2 : ℤ) = ((2 : ℕ) : ℤ) from rfl, pow2_nat]; norm_num; exact h)
  rw [show (2 : ℤ) - 24 = -((22 : ℕ) : ℤ) from rfl, pow2_neg_nat] at h1
  exact h1

theorem f32_err_le_eight {x : ℚ} (h : |x| ≤ 8) : |f32 x - x| ≤ 1 / 2 ^ 21 := by
  have h1 := rnd_err (p := 24) (m := -149) (k := 3) (x := x) (by norm_num)
    (by rw [show (3 : ℤ) = ((3 : ℕ) : ℤ) from rfl, pow2_nat]; norm_num; exact h)
  rw [show (3 : ℤ) - 24 = -((21 : ℕ) : ℤ) from rfl, pow2_neg_nat] at h1
  exact h1

theorem f32_err_le_small {x : ℚ} (h : |x| ≤ 1 / 2 ^ 16) : |f32 x - x| ≤ 1 / 2 ^ 40 := by
  have h1 := rnd_err (p := 24) (m := -149) (k := -16) (x := x) (by norm_num)
    (by rw [show (-16 : ℤ) = -((16 : ℕ) : ℤ) from rfl, pow2_neg_nat]; exact h)
  rw [show (-16 : ℤ) - 24 = -((40 : ℕ) : ℤ) from rfl, pow2_neg_nat] at h1
  exact h1

theorem f64_nonneg {x : ℚ} (h : 0 ≤ x) : 0 ≤ f64 x := rnd_nonneg _ _ x h

theorem f32_nonneg {x : ℚ} (h : 0 ≤ x) : 0 ≤ f32 x := rnd_nonneg _ _ x h

theorem qAbs_eq (t : ℚ) : qAbs t = |t| := by
  unfold qAbs
  split_ifs with h
  · exact (abs_of_nonneg h).symm
  · exact (abs_of_neg (not_le.mp h)).symm

theorem qMin_le_right (a b : ℚ) : qMin a b ≤ b := by
  unfold qMin
  split_ifs with h
  · exact h.le
  · exact le_rfl

theorem qMin_nonneg {a b : ℚ} (ha : 0 ≤ a) (hb : 0 ≤ b) : 0 ≤ qMin a b := by
  unfold qMin
  split_ifs <;> assumption

/-! ## The zoom constants as numbers -/

theorem ZOOM_MIN_eq : ZOOM_MIN = 3019899 / 33554432 := by decide!

theorem ZOOM_NORMAL_eq : ZOOM_NORMAL = 1 := by decide!

theorem ZOOM_MAX_eq : ZOOM_MAX = 5 := by decide!

theorem ZOOM_STEP_eq : ZOOM_STEP = 13421773 / 134217728 := by decide!

theorem range_low_eq : f32 (ZOOM_NORMAL - ZOOM_MIN) = 7633633 / 8388608 := by decide!

theorem range_high_eq : f32 (ZOOM_MAX - ZOOM_NORMAL) = 4 := by decide!

theorem fuzzy_scale_eq : f32 (1 / 100000) = 2748779 / 274877906944 := by decide!

/-! ## Bounds for the zoom mapping -/

theorem ZoomFactorToSliderRange_low {f : ℚ} (hz : qFuzzyCompare f ZOOM_NORMAL = false)
    (h : f < ZOOM_NORMAL) :
    ZoomFactorToSliderRange f = qRound (sliderOffsetLow f) := by
  unfold ZoomFactorToSliderRange sliderOffsetLow
  rw [hz]
  simp [h, ZOOM_SLIDER_MIN]

theorem ZoomFactorToSliderRange_high {f : ℚ} (hz : qFuzzyCompare f ZOOM_NORMAL = false)
    (h : ¬ f < ZOOM_NORMAL) :
    ZoomFactorToSliderRange f = 500 + qRound (sliderOffsetHigh f) := by
  unfold ZoomFactorToSliderRange sliderOffsetHigh
  rw [hz]
  simp [h, ZOOM_SLIDER_MIDDLE]

theorem ZoomFactorToSliderRange_fuzzy {f : ℚ} (hz : qFuzzyCompare f ZOOM_NORMAL = true) :
    ZoomFactorToSliderRange f = 500 := by
  unfold ZoomFactorToSliderRange
  rw [hz]
  simp [ZOOM_SLIDER_MIDDLE]

theorem fuzzy_rhs_bounds (f : ℚ) :
    0 ≤ 2748779 / 274877906944 * qMin |f| |(1 : ℚ)| ∧
    2748779 / 274877906944 * qMin |f| |(1 : ℚ)| ≤ 2748779 / 274877906944 := by
  have hm0 : 0 ≤ qMin |f| |(1 : ℚ)| := qMin_nonneg (abs_nonneg _) (abs_nonneg _)
  have hm1 : qMin |f| |(1 : ℚ)| ≤ 1 := by
    have := qMin_le_right |f| |(1 : ℚ)|
    simpa using this
  constructor <;> linarith

theorem fuzzy_true_near {f : ℚ} (hf : |f - 1| ≤ 8)
    (h : qFuzzyCompare f ZOOM_NORMAL = true) : |f - 1| ≤ 1 / 50000 := by
  unfold qFuzzyCompare at h
  rw [decide_eq_true_iff, ZOOM_NORMAL_eq, fuzzy_scale_eq, qAbs_eq, qAbs_eq, qAbs_eq] at h
  obtain ⟨hy0, hy1⟩ := fuzzy_rhs_bounds f
  generalize 2748779 / 274877906944 * qMin |f| |(1 : ℚ)| = y at h hy0 hy1
  have e1 := f32_err_le_small (x := y) (by rw [abs_le]; constructor <;> linarith)
  have e2 := f32_err_le_eight hf
  rw [abs_le] at e1
  have e3 := abs_sub_abs_le_abs_sub (f - 1) (f32 (f - 1))
  rw [abs_sub_comm (f - 1) (f32 (f - 1))] at e3
  generalize |f32 (f - 1) - (f - 1)| = u at e2 e3
  generalize |f32 (f - 1)| = v at h e3
  generalize |f - 1| = w at e3 ⊢
  norm_num at e1 e2 hy1 ⊢
  linarith [e1.1, e1.2]

theorem fuzzy_false_far {f : ℚ} (hf : |f - 1| ≤ 8) (h : 1 / 1000 ≤ |f - 1|) :
    qFuzzyCompare f ZOOM_NORMAL = false := by
  unfold qFuzzyCompare
  rw [decide_eq_false_iff_not, ZOOM_NORMAL_eq, fuzzy_scale_eq, qAbs_eq, qAbs_eq, qAbs_eq]
  obtain ⟨hy0, hy1⟩ := fuzzy_rhs_bounds f
  generalize 2748779 / 274877906944 * qMin |f| |(1 : ℚ)| = y at hy0 hy1 ⊢
  have e1 := f32_err_le_small (x := y) (by rw [abs_le]; constructor <;> linarith)
  have e2 := f32_err_le_eight hf
  rw [abs_le] at e1
  have e3 := abs_sub_abs_le_abs_sub (f - 1) (f32 (f - 1))
  rw [abs_sub_comm (f - 1) (f32 (f - 1))] at e3
  generalize |f32 (f - 1) - (f - 1)| = u at e2 e3
  generalize |f32 (f - 1)| = v at e3 ⊢
  generalize |f - 1| = w at e3 h
  norm_num at e1 e2 hy1 h ⊢
  linarith [e1.1, e1.2]

theorem truncInt_of_nonneg {d : ℚ} (h : 0 ≤ d) : truncInt d = ⌊d⌋ := by
  unfold truncInt
  rw [if_pos h]

theorem qRound_of_nonneg {d : ℚ} (h0 : 0 ≤ d) (h1 : d ≤ 1023) :
    0 ≤ qRound d ∧ (qRound d : ℚ) ≤ d + 1 / 2 + 1 / 2 ^ 43 ∧
      d + 1 / 2 - 1 / 2 ^ 43 - 1 < (qRound d : ℚ) := by
  unfold qRound
  rw [if_pos h0]
  have hy : 0 ≤ f64 (d + 1 / 2) := f64_nonneg (by linarith)
  rw [truncInt_of_nonneg hy]
  have e := f64_err_le_1024 (x := d + 1 / 2) (by rw [abs_le]; constructor <;> linarith)
  rw [abs_le] at e
  have f1 := Int.floor_le (f64 (d + 1 / 2))
  have f2 := Int.lt_floor_add_one (f64 (d + 1 / 2))
  refine ⟨Int.floor_nonneg.mpr hy, ?_, ?_⟩ <;> linarith [e.1, e.2]

theorem sliderOffsetLow_bounds {f : ℚ} (h0 : ZOOM_MIN ≤ f) (h1 : f ≤ 1) :
    0 ≤ sliderOffsetLow f ∧
    |sliderOffsetLow f - (f - 3019899 / 33554432) / (7633633 / 8388608) * 500| ≤ 1 / 10000 := by
  unfold sliderOffsetLow
  rw [range_low_eq]
  rw [ZOOM_MIN_eq] at h0 ⊢
  have hc : ((ZOOM_SLIDER_MIDDLE - ZOOM_SLIDER_MIN : ℤ) : ℚ) = 500 := by
    norm_num [ZOOM_SLIDER_MIDDLE, ZOOM_SLIDER_MIN]
  rw [hc]
  have n0 : 0 ≤ f32 (f - 3019899 / 33554432) := f32_nonneg (by linarith)
  have e1 := f32_err_le_one (x := f - 3019899 / 33554432)
    (by rw [abs_le]; constructor <;> linarith)
  rw [abs_le] at e1
  have n1 : 0 ≤ f64 (f32 (f - 3019899 / 33554432) / (7633633 / 8388608)) :=
    f64_nonneg (div_nonneg n0 (by norm_num))
  have e2 := f64_err_le_two (x := f32 (f - 3019899 / 33554432) / (7633633 / 8388608))
    (by rw [abs_le, div_eq_mul_inv]; constructor <;> norm_num <;> linarith [e1.1, e1.2])
  rw [abs_le, div_eq_mul_inv] at e2
  norm_num at e2
  have n2 : 0 ≤ f64 (f64 (f32 (f - 3019899 / 33554432) / (7633633 / 8388608)) * 500) :=
    f64_nonneg (mul_nonneg n1 (by norm_num))
  have e3 := f64_err_le_1024
    (x := f64 (f32 (f - 3019899 / 33554432) / (7633633 / 8388608)) * 500)
    (by rw [abs_le]; constructor <;> linarith [e1.1, e1.2, e2.1, e2.2])
  rw [abs_le] at e3
  refine ⟨n2, ?_⟩
  rw [abs_le, div_eq_mul_inv]
  norm_num at e1 e3 ⊢
  constructor <;> linarith [e1.1, e1.2, e2.1, e2.2, e3.1, e3.2]

theorem sliderOffsetHigh_bounds {f : ℚ} (h0 : 1 ≤ f) (h1 : f ≤ 6) :
    0 ≤ sliderOffsetHigh f ∧
    |sliderOffsetHigh f - (f - 1) / 4 * 500| ≤ 1 / 10000 := by
  unfold sliderOffsetHigh
  rw [range_high_eq, ZOOM_NORMAL_eq]
  have hc : ((ZOOM_SLIDER_MIDDLE : ℤ) : ℚ) = 500 := by
    norm_num [ZOOM_SLIDER_MIDDLE]
  rw [hc]
  have n0 : 0 ≤ f32 (f - 1) := f32_nonneg (by linarith)
  have e1 := f32_err_le_eight (x := f - 1) (by rw [abs_le]; constructor <;> linarith)
  rw [abs_le] at e1
  have n1 : 0 ≤ f64 (f32 (f - 1) / 4) := f64_nonneg (div_nonneg n0 (by norm_num))
  have e2 := f64_err_le_two (x := f32 (f - 1) / 4)
    (by rw [abs_le]; constructor <;> linarith [e1.1, e1.2])
  rw [abs_le] at e2
  have n2 : 0 ≤ f64 (f64 (f32 (f - 1) / 4) * 500) := f64_nonneg (mul_nonneg n1 (by norm_num))
  have e3 := f64_err_le_1024 (x := f64 (f32 (f - 1) / 4) * 500)
    (by rw [abs_le]; constructor <;> linarith [e1.1, e1.2, e2.1, e2.2])
  rw [abs_le] at e3
  refine ⟨n2, ?_⟩
  rw [abs_le]
  norm_num at e1 e2 e3 ⊢
  constructor <;> linarith [e1.1, e1.2, e2.1, e2.2, e3.1, e3.2]

theorem SliderRangeToZoomFactor_low {s : ℤ} (h0 : 0 ≤ s) (h1 : s < 500) :
    |SliderRangeToZoomFactor s
      - (3019899 / 33554432 + (s : ℚ) / 500 * (7633633 / 8388608))| ≤ 1 / 2 ^ 21 := by
  have hq0 : (0 : ℚ) ≤ (s : ℚ) := by exact_mod_cast h0
  have hq1 : (s : ℚ) < 500 := by exact_mod_cast h1
  unfold SliderRangeToZoomFactor
  rw [if_neg (by simp only [ZOOM_SLIDER_MIDDLE]; omega),
    if_pos (by simp only [ZOOM_SLIDER_MIDDLE]; omega)]
  simp only [range_low_eq]
  simp only [ZOOM_MIN_eq]
  have hc : ((ZOOM_SLIDER_MIDDLE - ZOOM_SLIDER_MIN : ℤ) : ℚ) = 500 := by
    norm_num [ZOOM_SLIDER_MIDDLE, ZOOM_SLIDER_MIN]
  have hs : ((s - ZOOM_SLIDER_MIN : ℤ) : ℚ) = (s : ℚ) := by
    norm_num [ZOOM_SLIDER_MIN]
  rw [hc, hs]
  have e1 := f64_err_le_one (x := (s : ℚ) / 500)
    (by rw [abs_le]; constructor <;> linarith)
  rw [abs_le] at e1
  generalize f64 ((s : ℚ) / 500) = a1 at e1 ⊢
  have e2 := f64_err_le_one (x := a1 * (7633633 / 8388608))
    (by rw [abs_le]; constructor <;> linarith [e1.1, e1.2])
  rw [abs_le] at e2
  generalize f64 (a1 * (7633633 / 8388608)) = a2 at e2 ⊢
  have e3 := f64_err_le_two (x := 3019899 / 33554432 + a2)
    (by rw [abs_le]; constructor <;> linarith [e1.1, e1.2, e2.1, e2.2])
  rw [abs_le] at e3
  generalize f64 (3019899 / 33554432 + a2) = a3 at e3 ⊢
  have e4 := f32_err_le_four (x := a3)
    (by rw [abs_le]; constructor <;> linarith [e1.1, e1.2, e2.1, e2.2, e3.1, e3.2])
  rw [abs_le] at e4
  rw [abs_le]
  norm_num at e1 e2 e3 e4 ⊢
  constructor <;> linarith [e1.1, e1.2, e2.1, e2.2, e3.1, e3.2, e4.1, e4.2]

theorem SliderRangeToZoomFactor_high {s : ℤ} (h0 : 500 < s) (h1 : s ≤ 1000) :
    |SliderRangeToZoomFactor s - (1 + ((s : ℚ) - 500) / 500 * 4)| ≤ 1 / 2 ^ 20 := by
  have hq0 : (500 : ℚ) < (s : ℚ) := by exact_mod_cast h0
  have hq1 : (s : ℚ) ≤ 1000 := by exact_mod_cast h1
  unfold SliderRangeToZoomFactor
  rw [if_neg (by simp only [ZOOM_SLIDER_MIDDLE]; omega),
    if_neg (by simp only [ZOOM_SLIDER_MIDDLE]; omega)]
  simp only [range_high_eq]
  simp only [ZOOM_NORMAL_eq]
  have hc : ((ZOOM_SLIDER_MAX - ZOOM_SLIDER_MIDDLE : ℤ) : ℚ) = 500 := by
    norm_num [ZOOM_SLIDER_MIDDLE, ZOOM_SLIDER_MAX]
  have hs : ((s - ZOOM_SLIDER_MIDDLE : ℤ) : ℚ) = (s : ℚ) - 500 := by
    norm_num [ZOOM_SLIDER_MIDDLE]
  rw [hc, hs]
  have e1 := f64_err_le_one (x := ((s : ℚ) - 500) / 500)
    (by rw [abs_le]; constructor <;> linarith)
  rw [abs_le] at e1
  generalize f64 (((s : ℚ) - 500) / 500) = a1 at e1 ⊢
  have e2 := f64_err_le_eight (x := a1 * 4)
    (by rw [abs_le]; constructor <;> linarith [e1.1, e1.2])
  rw [abs_le] at e2
  generalize f64 (a1 * 4) = a2 at e2 ⊢
  have e3 := f64_err_le_eight (x := 1 + a2)
    (by rw [abs_le]; constructor <;> linarith [e1.1, e1.2, e2.1, e2.2])
  rw [abs_le] at e3
  generalize f64 (1 + a2) = a3 at e3 ⊢
  have e4 := f32_err_le_eight (x := a3)
    (by rw [abs_le]; constructor <;> linarith [e1.1, e1.2, e2.1, e2.2, e3.1, e3.2])
  rw [abs_le] at e4
  rw [abs_le]
  norm_num at e1 e2 e3 e4 ⊢
  constructor <;> linarith [e1.1, e1.2, e2.1, e2.2, e3.1, e3.2, e4.1, e4.2]

theorem roundTrip_low {p : ℤ} (h0 : 0 < p) (h1 : p < 500) :
    ZoomFactorToSliderRange (SliderRangeToZoomFactor p) = p := by
  have hq0 : (1 : ℚ) ≤ (p : ℚ) := by exact_mod_cast h0
  have hq1 : (p : ℚ) ≤ 499 := by exact_mod_cast (by omega : p ≤ 499)
  have hb := SliderRangeToZoomFactor_low h0.le h1
  rw [abs_le] at hb
  generalize SliderRangeToZoomFactor p = f at hb
  norm_num at hb
  have hz : qFuzzyCompare f ZOOM_NORMAL = false :=
    fuzzy_false_far (by rw [abs_le]; constructor <;> linarith [hb.1, hb.2])
      (by rw [le_abs]; right; linarith [hb.1, hb.2])
  rw [ZoomFactorToSliderRange_low hz (by rw [ZOOM_NORMAL_eq]; linarith [hb.2])]
  obtain ⟨d0, d1⟩ := sliderOffsetLow_bounds (f := f)
    (by rw [ZOOM_MIN_eq]; linarith [hb.1]) (by linarith [hb.2])
  rw [abs_le, div_eq_mul_inv] at d1
  norm_num at d1
  obtain ⟨q0, q1, q2⟩ := qRound_of_nonneg d0 (by linarith [d1.2, hb.2])
  norm_num at q1 q2
  have u1 : (qRound (sliderOffsetLow f) : ℚ) < (p : ℚ) + 1 := by
    linarith [d1.1, d1.2, hb.1, hb.2]
  have u2 : (p : ℚ) - 1 < (qRound (sliderOffsetLow f) : ℚ) := by
    linarith [d1.1, d1.2, hb.1, hb.2]
  have v1 : qRound (sliderOffsetLow f) < p + 1 := by exact_mod_cast u1
  have v2 : p - 1 < qRound (sliderOffsetLow f) := by exact_mod_cast u2
  omega

theorem roundTrip_high {p : ℤ} (h0 : 500 < p) (h1 : p ≤ 1000) :
    ZoomFactorToSliderRange (SliderRangeToZoomFactor p) = p := by
  have hq0 : (501 : ℚ) ≤ (p : ℚ) := by exact_mod_cast (by omega : 501 ≤ p)
  have hq1 : (p : ℚ) ≤ 1000 := by exact_mod_cast h1
  have hb := SliderRangeToZoomFactor_high h0 h1
  rw [abs_le] at hb
  generalize SliderRangeToZoomFactor p = f at hb
  norm_num at hb
  have hz : qFuzzyCompare f ZOOM_NORMAL = false :=
    fuzzy_false_far (by rw [abs_le]; constructor <;> linarith [hb.1, hb.2])
      (by rw [le_abs]; left; linarith [hb.1, hb.2])
  rw [ZoomFactorToSliderRange_high hz (by rw [ZOOM_NORMAL_eq]; linarith [hb.1])]
  obtain ⟨d0, d1⟩ := sliderOffsetHigh_bounds (f := f)
    (by linarith [hb.1]) (by linarith [hb.2])
  rw [abs_le] at d1
  norm_num at d1
  obtain ⟨q0, q1, q2⟩ := qRound_of_nonneg d0 (by linarith [d1.2, hb.2])
  norm_num at q1 q2
  have u1 : (qRound (sliderOffsetHigh f) : ℚ) < (p : ℚ) - 500 + 1 := by
    linarith [d1.1, d1.2, hb.1, hb.2]
  have u2 : (p : ℚ) - 500 - 1 < (qRound (sliderOffsetHigh f) : ℚ) := by
    linarith [d1.1, d1.2, hb.1, hb.2]
  have v1 : qRound (sliderOffsetHigh f) < p - 500 + 1 := by exact_mod_cast u1
  have v2 : p - 500 - 1 < qRound (sliderOffsetHigh f) := by exact_mod_cast u2
  omega

theorem roundTrip_zero : ZoomFactorToSliderRange (SliderRangeToZoomFactor 0) = 0 := by
  decide!

theorem roundTrip_middle : ZoomFactorToSliderRange (SliderRangeToZoomFactor 500) = 500 := by
  decide!

/-- C1: for every integer slider position `p` with `0 <= p <= 1000`, converting `p` to a zoom
factor and back gives `p` again. -/
theorem ZoomFactorToSliderRange_SliderRangeToZoomFactor (p : ℤ) (h0 : 0 ≤ p) (h1 : p ≤ 1000) :
    ZoomFactorToSliderRange (SliderRangeToZoomFactor p) = p := by
  rcases lt_trichotomy p 500 with h | h | h
  · rcases eq_or_lt_of_le h0 with h2 | h2
    · rw [← h2]; exact roundTrip_zero
    · exact roundTrip_low h2 h
  · rw [h]; exact roundTrip_middle
  · exact roundTrip_high h h1

theorem ZoomFactorToSliderRange_SliderRangeToZoomFactor_witness :
    ZoomFactorToSliderRange (SliderRangeToZoomFactor 499) = 499 ∧
    ZoomFactorToSliderRange (SliderRangeToZoomFactor 501) = 501 ∧
    ZoomFactorToSliderRange (SliderRangeToZoomFactor 1000) = 1000 :=
  ⟨ZoomFactorToSliderRange_SliderRangeToZoomFactor 499 (by decide) (by decide),
   ZoomFactorToSliderRange_SliderRangeToZoomFactor 501 (by decide) (by decide),
   ZoomFactorToSliderRange_SliderRangeToZoomFactor 1000 (by decide) (by decide)⟩

/-- C2: the anchor maps exactly both ways: slider position 500 gives the factor 1.0 and the
factor 1.0 gives slider position 500. -/
theorem anchor_exact :
    SliderRangeToZoomFactor 500 = 1 ∧ ZoomFactorToSliderRange 1 = 500 := by
  decide!

theorem float_ge_ZOOM_MIN {f : ℚ} (hf : IsFloat f) (h : 9 / 100 ≤ f) : ZOOM_MIN ≤ f := by
  by_contra hc
  rw [not_le, ZOOM_MIN_eq] at hc
  have hne : f ≠ 0 := by intro h0; rw [h0] at h; norm_num at h
  have habs : |f| = f := abs_of_nonneg (by linarith)
  obtain ⟨l1, l2⟩ := ilog2_spec f hne
  rw [habs] at l1 l2
  have hl : ilog2 f = -4 := by
    have a1 : ilog2 f < -3 := by
      by_contra hh
      have := pow2_le (not_lt.mp hh)
      rw [show (-3 : ℤ) = -((3 : ℕ) : ℤ) from rfl, pow2_neg_nat] at this
      norm_num at this
      linarith
    have a2 : -5 < ilog2 f := by
      by_contra hh
      have := pow2_le (show ilog2 f + 1 ≤ -4 by omega)
      rw [show (-4 : ℤ) = -((4 : ℕ) : ℤ) from rfl, pow2_neg_nat] at this
      norm_num at this
      linarith
    omega
  unfold IsFloat f32 rnd at hf
  rw [if_neg hne, hl] at hf
  simp only at hf
  rw [show max ((-4 : ℤ) + 1 - 24) (-149) = -((27 : ℕ) : ℤ) from rfl, pow2_neg_nat] at hf
  generalize roundNE (f / (1 / 2 ^ 27)) = n at hf
  rw [← hf] at h hc
  have h1 : (n : ℚ) < 12079596 := by
    norm_num at hc
    linarith
  have h2 : (12079595 : ℚ) < (n : ℚ) := by
    norm_num at h
    linarith
  have h3 : n < 12079596 := by exact_mod_cast h1
  have h4 : 12079595 < n := by exact_mod_cast h2
  omega

theorem SliderRangeToZoomFactor_middle : SliderRangeToZoomFactor 500 = 1 := by decide!

theorem sliderRange_low {f : ℚ} (h0 : ZOOM_MIN ≤ f) (h1 : f < 1) :
    0 ≤ ZoomFactorToSliderRange f ∧ ZoomFactorToSliderRange f ≤ 500 ∧
      (f ≤ 999 / 1000 → ZoomFactorToSliderRange f < 500) := by
  have hz0 := h0
  rw [ZOOM_MIN_eq] at hz0
  cases hz : qFuzzyCompare f ZOOM_NORMAL with
  | true =>
    rw [ZoomFactorToSliderRange_fuzzy hz]
    refine ⟨by norm_num, le_rfl, ?_⟩
    intro h2
    have := fuzzy_false_far (f := f) (by rw [abs_le]; constructor <;> linarith)
      (by rw [le_abs]; right; linarith)
    rw [hz] at this
    exact absurd this (by decide)
  | false =>
    rw [ZoomFactorToSliderRange_low hz (by rw [ZOOM_NORMAL_eq]; exact h1)]
    obtain ⟨d0, d1⟩ := sliderOffsetLow_bounds h0 h1.le
    rw [abs_le, div_eq_mul_inv] at d1
    norm_num at d1
    obtain ⟨q0, q1, q2⟩ := qRound_of_nonneg d0 (by linarith [d1.2])
    norm_num at q1 q2
    refine ⟨q0, ?_, ?_⟩
    · have u : (qRound (sliderOffsetLow f) : ℚ) < 500 + 1 := by linarith [d1.2]
      have v : qRound (sliderOffsetLow f) < 500 + 1 := by exact_mod_cast u
      omega
    · intro h2
      have u : (qRound (sliderOffsetLow f) : ℚ) < 500 := by linarith [d1.2]
      exact_mod_cast u

theorem sliderRange_high {f : ℚ} (h0 : 1 < f) (h1 : f ≤ 5) :
    500 ≤ ZoomFactorToSliderRange f ∧ ZoomFactorToSliderRange f ≤ 1000 ∧
      (1005 / 1000 ≤ f → 500 < ZoomFactorToSliderRange f) := by
  cases hz : qFuzzyCompare f ZOOM_NORMAL with
  | true =>
    rw [ZoomFactorToSliderRange_fuzzy hz]
    refine ⟨le_rfl, by norm_num, ?_⟩
    intro h2
    have := fuzzy_false_far (f := f) (by rw [abs_le]; constructor <;> linarith)
      (by rw [le_abs]; left; linarith)
    rw [hz] at this
    exact absurd this (by decide)
  | false =>
    rw [ZoomFactorToSliderRange_high hz (by rw [ZOOM_NORMAL_eq]; exact not_lt.mpr h0.le)]
    obtain ⟨d0, d1⟩ := sliderOffsetHigh_bounds h0.le (by linarith)
    rw [abs_le] at d1
    norm_num at d1
    obtain ⟨q0, q1, q2⟩ := qRound_of_nonneg d0 (by linarith [d1.2])
    norm_num at q1 q2
    refine ⟨by omega, ?_, ?_⟩
    · have u : (qRound (sliderOffsetHigh f) : ℚ) < 500 + 1 := by linarith [d1.2]
      have v : qRound (sliderOffsetHigh f) < 500 + 1 := by exact_mod_cast u
      omega
    · intro h2
      have u : (0 : ℚ) < (qRound (sliderOffsetHigh f) : ℚ) := by linarith [d1.1]
      have v : 0 < qRound (sliderOffsetHigh f) := by exact_mod_cast u
      omega

/-- C3 (counterexample): the float 0.999755859375 lies in [0.09, 1.0) and the float
1.0009765625 lies in (1.0, 5.0], yet both are mapped to the anchor position 500, so the
below-anchor results are not all strictly below 500 and the above-anchor results are not all
strictly above 500. -/
theorem sliderRange_strict_counterexample :
    (IsFloat (4095 / 4096) ∧ (9 / 100 : ℚ) ≤ 4095 / 4096 ∧ (4095 / 4096 : ℚ) < 1 ∧
      ¬ ZoomFactorToSliderRange (4095 / 4096) < 500) ∧
    (IsFloat (1025 / 1024) ∧ (1 : ℚ) < 1025 / 1024 ∧ (1025 / 1024 : ℚ) ≤ 5 ∧
      ¬ 500 < ZoomFactorToSliderRange (1025 / 1024)) := by
  decide!

/-- C3 (amended): every float `f` with `0.09 <= f < 1.0` is mapped into `[0, 500]`, and
strictly below 500 when `f <= 0.999`; every factor `f` with `1.0 < f <= 5.0` is mapped into
`[500, 1000]`, and strictly above 500 when `f >= 1.005`; the endpoints map as
`0.09f -> 0` and `5.0f -> 1000`. -/
theorem sliderRange_subranges :
    (∀ f : ℚ, IsFloat f → 9 / 100 ≤ f → f < 1 →
      0 ≤ ZoomFactorToSliderRange f ∧ ZoomFactorToSliderRange f ≤ 500 ∧
        (f ≤ 999 / 1000 → ZoomFactorToSliderRange f < 500)) ∧
    (∀ f : ℚ, 1 < f → f ≤ 5 →
      500 ≤ ZoomFactorToSliderRange f ∧ ZoomFactorToSliderRange f ≤ 1000 ∧
        (1005 / 1000 ≤ f → 500 < ZoomFactorToSliderRange f)) ∧
    ZoomFactorToSliderRange ZOOM_MIN = 0 ∧ ZoomFactorToSliderRange ZOOM_MAX = 1000 := by
  refine ⟨fun f hf h0 h1 => sliderRange_low (float_ge_ZOOM_MIN hf h0) h1,
    fun f h0 h1 => sliderRange_high h0 h1, by decide!, by decide!⟩

theorem sliderRange_subranges_witness :
    (0 ≤ ZoomFactorToSliderRange (1 / 2) ∧ ZoomFactorToSliderRange (1 / 2) ≤ 500 ∧
        ((1 / 2 : ℚ) ≤ 999 / 1000 → ZoomFactorToSliderRange (1 / 2) < 500)) ∧
    (500 ≤ ZoomFactorToSliderRange 2 ∧ ZoomFactorToSliderRange 2 ≤ 1000 ∧
        ((1005 / 1000 : ℚ) ≤ 2 → 500 < ZoomFactorToSliderRange 2)) :=
  ⟨sliderRange_subranges.1 (1 / 2) (by decide!) (by norm_num) (by norm_num),
   sliderRange_subranges.2.1 2 (by norm_num) (by norm_num)⟩

theorem reverseTrip_fuzzy {f : ℚ} (h0 : 0 ≤ f) (h1 : f ≤ 5)
    (hz : qFuzzyCompare f ZOOM_NORMAL = true) :
    |SliderRangeToZoomFactor (ZoomFactorToSliderRange f) - f| ≤ 1 / 100 := by
  rw [ZoomFactorToSliderRange_fuzzy hz, SliderRangeToZoomFactor_middle]
  have := fuzzy_true_near (f := f) (by rw [abs_le]; constructor <;> linarith) hz
  rw [abs_sub_comm]
  linarith

theorem reverseTrip_low {f : ℚ} (h0 : ZOOM_MIN ≤ f) (h1 : f < 1)
    (hz : qFuzzyCompare f ZOOM_NORMAL = false) :
    |SliderRangeToZoomFactor (ZoomFactorToSliderRange f) - f| ≤ 1 / 100 := by
  have hz0 := h0
  rw [ZOOM_MIN_eq] at hz0
  rw [ZoomFactorToSliderRange_low hz (by rw [ZOOM_NORMAL_eq]; exact h1)]
  obtain ⟨d0, d1⟩ := sliderOffsetLow_bounds h0 h1.le
  rw [abs_le, div_eq_mul_inv] at d1
  norm_num at d1
  obtain ⟨q0, q1, q2⟩ := qRound_of_nonneg d0 (by linarith [d1.2])
  norm_num at q1 q2
  generalize sliderOffsetLow f = d at d0 d1 q0 q1 q2
  generalize hs : qRound d = s at q0 q1 q2
  rcases lt_or_le s 500 with h5 | h5
  · have hb := SliderRangeToZoomFactor_low q0 h5
    rw [abs_le] at hb ⊢
    norm_num at hb
    constructor <;> linarith [hb.1, hb.2, d1.1, d1.2]
  · have u : (s : ℚ) < 500 + 1 := by linarith [d1.2]
    have v : s < 500 + 1 := by exact_mod_cast u
    have hs5 : s = 500 := by omega
    rw [hs5, SliderRangeToZoomFactor_middle]
    rw [hs5] at q1 q2
    rw [abs_le]
    norm_num at q1 q2
    constructor <;> linarith [d1.1, d1.2]

theorem reverseTrip_high {f : ℚ} (h0 : 1 ≤ f) (h1 : f ≤ 5)
    (hz : qFuzzyCompare f ZOOM_NORMAL = false) :
    |SliderRangeToZoomFactor (ZoomFactorToSliderRange f) - f| ≤ 1 / 100 := by
  rw [ZoomFactorToSliderRange_high hz (by rw [ZOOM_NORMAL_eq]; exact not_lt.mpr h0)]
  obtain ⟨d0, d1⟩ := sliderOffsetHigh_bounds h0 (by linarith)
  rw [abs_le] at d1
  norm_num at d1
  obtain ⟨q0, q1, q2⟩ := qRound_of_nonneg d0 (by linarith [d1.2])
  norm_num at q1 q2
  generalize sliderOffsetHigh f = d at d0 d1 q0 q1 q2
  generalize hs : qRound d = s at q0 q1 q2
  rcases eq_or_lt_of_le q0 with h5 | h5
  · rw [← h5]
    rw [← h5] at q1 q2
    rw [show (500 : ℤ) + 0 = 500 from rfl, SliderRangeToZoomFactor_middle, abs_le]
    norm_num at q1 q2
    constructor <;> linarith [d1.1, d1.2]
  · have u : (s : ℚ) < 500 + 1 := by linarith [d1.2]
    have v : s < 500 + 1 := by exact_mod_cast u
    have hb := SliderRangeToZoomFactor_high (s := 500 + s) (by omega) (by omega)
    rw [abs_le] at hb ⊢
    push_cast at hb
    norm_num at hb
    constructor <;> linarith [hb.1, hb.2, d1.1, d1.2]

/-- C4: for every float zoom factor `f` in `[0.09, 5.0]`, mapping `f` to the slider and back
gives a factor within 0.01 of `f`, and the reverse round trip is exact at `f = 1.0`. -/
theorem SliderRangeToZoomFactor_ZoomFactorToSliderRange :
    (∀ f : ℚ, IsFloat f → 9 / 100 ≤ f → f ≤ 5 →
      |SliderRangeToZoomFactor (ZoomFactorToSliderRange f) - f| ≤ 1 / 100) ∧
    SliderRangeToZoomFactor (ZoomFactorToSliderRange 1) = 1 := by
  refine ⟨?_, by decide!⟩
  intro f hf h0 h1
  have hm := float_ge_ZOOM_MIN hf h0
  cases hz : qFuzzyCompare f ZOOM_NORMAL with
  | true => exact reverseTrip_fuzzy (by linarith) h1 hz
  | false =>
    rcases lt_or_le f 1 with h | h
    · exact reverseTrip_low hm h hz
    · exact reverseTrip_high h h1 hz

theorem SliderRangeToZoomFactor_ZoomFactorToSliderRange_witness :
    |SliderRangeToZoomFactor (ZoomFactorToSliderRange (3 / 4)) - 3 / 4| ≤ 1 / 100 :=
  SliderRangeToZoomFactor_ZoomFactorToSliderRange.1 (3 / 4) (by decide!) (by norm_num)
    (by norm_num)

/-! ## Zoom bounds -/

theorem float_lt_ZOOM_MIN_iff {x : ℚ} (hx : IsFloat x) : x < ZOOM_MIN ↔ x < 9 / 100 := by
  constructor
  · intro h
    by_contra hc
    exact absurd (float_ge_ZOOM_MIN hx (not_lt.mp hc)) (not_le.mpr h)
  · intro h
    rw [ZOOM_MIN_eq]
    linarith

theorem ZoomByFactor_inRange (t : ContentTab) (x : ℚ)
    (h : ZOOM_MIN ≤ t.zoomFactor ∧ t.zoomFactor ≤ ZOOM_MAX) :
    ∃ t1, ZoomByFactor (some t) x = some t1 ∧
      ZOOM_MIN ≤ t1.zoomFactor ∧ t1.zoomFactor ≤ ZOOM_MAX := by
  unfold ZoomByFactor
  simp only
  split_ifs with hc
  · exact ⟨t, rfl, h⟩
  · push_neg at hc
    exact ⟨_, rfl, hc.2, hc.1⟩

theorem ZoomByStep_inRange (R : ℚ → ℚ) (t : ContentTab) (zoom_in : Bool)
    (h : ZOOM_MIN ≤ t.zoomFactor ∧ t.zoomFactor ≤ ZOOM_MAX) :
    ∃ t1, ZoomByStep R (some t) zoom_in = some t1 ∧
      ZOOM_MIN ≤ t1.zoomFactor ∧ t1.zoomFactor ≤ ZOOM_MAX := by
  unfold ZoomByStep
  simp only
  split_ifs <;> exact ZoomByFactor_inRange t _ h

theorem SliderZoom_inRange (t : ContentTab) (v : ℤ)
    (h : ZOOM_MIN ≤ t.zoomFactor ∧ t.zoomFactor ≤ ZOOM_MAX) :
    ∃ t1, SliderZoom (some t) v = some t1 ∧
      ZOOM_MIN ≤ t1.zoomFactor ∧ t1.zoomFactor ≤ ZOOM_MAX := by
  unfold SliderZoom
  simp only
  split_ifs
  · exact ZoomByFactor_inRange t _ h
  · exact ⟨t, rfl, h⟩

theorem ZoomCommand_run_inRange (R : ℚ → ℚ) (t : ContentTab) (c : ZoomCommand)
    (h : ZOOM_MIN ≤ t.zoomFactor ∧ t.zoomFactor ≤ ZOOM_MAX) :
    ∃ t1, ZoomCommand.run R (some t) c = some t1 ∧
      ZOOM_MIN ≤ t1.zoomFactor ∧ t1.zoomFactor ≤ ZOOM_MAX := by
  cases c with
  | zoomIn => exact ZoomByStep_inRange R t true h
  | zoomOut => exact ZoomByStep_inRange R t false h
  | zoomReset => exact ZoomByFactor_inRange t _ h
  | zoomByStep b => exact ZoomByStep_inRange R t b h
  | sliderZoom v => exact SliderZoom_inRange t v h

theorem runZoomCommands_inRange (R : ℚ → ℚ) (cmds : List ZoomCommand) :
    ∀ t : ContentTab, (ZOOM_MIN ≤ t.zoomFactor ∧ t.zoomFactor ≤ ZOOM_MAX) →
    ∃ t1, runZoomCommands R (some t) cmds = some t1 ∧
      ZOOM_MIN ≤ t1.zoomFactor ∧ t1.zoomFactor ≤ ZOOM_MAX := by
  induction cmds with
  | nil => intro t h; exact ⟨t, rfl, h⟩
  | cons c cs ih =>
    intro t h
    obtain ⟨t1, e1, h1⟩ := ZoomCommand_run_inRange R t c h
    obtain ⟨t2, e2, h2⟩ := ih t1 h1
    refine ⟨t2, ?_, h2⟩
    unfold runZoomCommands at e2 ⊢
    rw [List.foldl_cons, e1]
    exact e2

/-- On finite values: `ZoomByFactor(x)` leaves the zoom factor of the current tab unchanged
when the float `x` is above 5.0 or below 0.09 and otherwise sets it to exactly `x`; hence,
starting from a float factor in `[0.09, 5.0]`, every sequence of `ZoomIn`, `ZoomOut`,
`ZoomReset`, `ZoomByStep` and `SliderZoom` calls leaves the tab with a factor in
`[0.09, 5.0]`, for every rounding helper with finite results. -/
theorem ZoomByFactor_finite_keeps_bounds :
    (∀ (t : ContentTab) (x : ℚ), IsFloat x → (x > 5 ∨ x < 9 / 100) →
      ZoomByFactor (some t) x = some t) ∧
    (∀ (t : ContentTab) (x : ℚ), IsFloat x → ¬ (x > 5 ∨ x < 9 / 100) →
      ZoomByFactor (some t) x = some { t with zoomFactor := x }) ∧
    (∀ (RoundToOneDecimal : ℚ → ℚ) (t : ContentTab) (cmds : List ZoomCommand),
      IsFloat t.zoomFactor → 9 / 100 ≤ t.zoomFactor → t.zoomFactor ≤ 5 →
      ∃ t1, runZoomCommands RoundToOneDecimal (some t) cmds = some t1 ∧
        9 / 100 ≤ t1.zoomFactor ∧ t1.zoomFactor ≤ 5) := by
  refine ⟨?_, ?_, ?_⟩
  · intro t x hx h
    unfold ZoomByFactor
    simp only
    rw [if_pos]
    rw [ZOOM_MAX_eq, float_lt_ZOOM_MIN_iff hx]
    exact h
  · intro t x hx h
    unfold ZoomByFactor
    simp only
    rw [if_neg]
    rw [ZOOM_MAX_eq, float_lt_ZOOM_MIN_iff hx]
    exact h
  · intro R t cmds hf h0 h1
    obtain ⟨t1, e1, h2, h3⟩ := runZoomCommands_inRange R cmds t
      ⟨float_ge_ZOOM_MIN hf h0, by rw [ZOOM_MAX_eq]; exact h1⟩
    rw [ZOOM_MIN_eq] at h2
    rw [ZOOM_MAX_eq] at h3
    exact ⟨t1, e1, by linarith, h3⟩

theorem ZoomByFactor_finite_keeps_bounds_witness :
    ZoomByFactor (some (plainTab .HTMLResourceType)) 6 = some (plainTab .HTMLResourceType) ∧
    ZoomByFactor (some (plainTab .HTMLResourceType)) 2
      = some { plainTab .HTMLResourceType with zoomFactor := 2 } ∧
    ∃ t1, runZoomCommands RoundToOneDecimal (some (plainTab .HTMLResourceType))
        [.zoomIn, .sliderZoom 2000, .zoomOut, .zoomReset] = some t1 ∧
      9 / 100 ≤ t1.zoomFactor ∧ t1.zoomFactor ≤ 5 :=
  ⟨ZoomByFactor_finite_keeps_bounds.1 (plainTab .HTMLResourceType) 6 (by decide!)
      (Or.inl (by norm_num)),
   ZoomByFactor_finite_keeps_bounds.2.1 (plainTab .HTMLResourceType) 2 (by decide!)
      (by norm_num),
   ZoomByFactor_finite_keeps_bounds.2.2 RoundToOneDecimal (plainTab .HTMLResourceType)
      [.zoomIn, .sliderZoom 2000, .zoomOut, .zoomReset] (by decide!)
      (by norm_num [plainTab]) (by norm_num [plainTab])⟩

/-! ## Zoom stepping -/

theorem half_step_eq : f32 (1 / 20) = 13421773 / 268435456 := by decide!

theorem hundredth_eq : f32 (1 / 100) = 5368709 / 536870912 := by decide!

theorem RoundToOneDecimal_spec : IsRoundToOneDecimal RoundToOneDecimal := by
  intro x
  refine ⟨roundNE (x * 10), rfl, ?_⟩
  have h := roundNE_err (x * 10)
  rw [abs_le] at h ⊢
  constructor <;> linarith [h.1, h.2]

theorem zoomIn_target {R : ℚ → ℚ} (hR : IsRoundToOneDecimal R) (t : ContentTab)
    (h0 : 9 / 100 ≤ t.zoomFactor) (h1 : t.zoomFactor ≤ 5) :
    ∃ K : ℤ, ZoomByStep R (some t) true = ZoomByFactor (some t) (f32 ((K : ℚ) / 10)) ∧
      9 / 1000 ≤ (K : ℚ) / 10 - t.zoomFactor ∧ (K : ℚ) / 10 - t.zoomFactor ≤ 111 / 1000 := by
  unfold ZoomByStep
  simp only [if_true]
  rw [half_step_eq, ZOOM_STEP_eq, hundredth_eq, qAbs_eq]
  generalize t.zoomFactor = c at h0 h1 ⊢
  obtain ⟨k, hk1, hk2⟩ := hR (f32 (c + 13421773 / 268435456))
  have e1 := f32_err_le_eight (x := c + 13421773 / 268435456)
    (by rw [abs_le]; constructor <;> linarith)
  rw [abs_le] at e1 hk2
  rw [hk1]
  generalize f32 (c + 13421773 / 268435456) = x1 at e1 hk2
  have e2 := f32_err_le_eight (x := (k : ℚ) / 10)
    (by rw [abs_le]; constructor <;> linarith [e1.1, e1.2, hk2.1, hk2.2])
  rw [abs_le] at e2
  generalize hr : f32 ((k : ℚ) / 10) = r at e2 ⊢
  have e3 := f32_err_le_eight (x := c - r)
    (by rw [abs_le]; constructor <;> linarith [e1.1, e1.2, hk2.1, hk2.2, e2.1, e2.2])
  rw [abs_le] at e3
  generalize f32 (c - r) = y at e3
  norm_num at e1 e2 e3
  by_cases htest : |y| < 5368709 / 536870912
  · rw [if_pos htest]
    rw [abs_lt] at htest
    obtain ⟨k2, hk21, hk22⟩ := hR (f32 (c + 13421773 / 134217728))
    have e4 := f32_err_le_eight (x := c + 13421773 / 134217728)
      (by rw [abs_le]; constructor <;> linarith)
    rw [abs_le] at e4 hk22
    rw [hk21]
    generalize f32 (c + 13421773 / 134217728) = x2 at e4 hk22
    norm_num at e4
    have u1 : (k : ℚ) < (k2 : ℚ) := by
      linarith [e1.1, e1.2, hk2.1, hk2.2, e2.1, e2.2, e3.1, e3.2, htest.1, htest.2, e4.1,
        e4.2, hk22.1, hk22.2]
    have u2 : (k2 : ℚ) < (k : ℚ) + 2 := by
      linarith [e1.1, e1.2, hk2.1, hk2.2, e2.1, e2.2, e3.1, e3.2, htest.1, htest.2, e4.1,
        e4.2, hk22.1, hk22.2]
    have v1 : k < k2 := by exact_mod_cast u1
    have v2 : k2 < k + 2 := by exact_mod_cast u2
    have hk : k2 = k + 1 := by omega
    refine ⟨k2, rfl, ?_, ?_⟩
    · rw [hk]; push_cast
      linarith [e1.1, e1.2, hk2.1, hk2.2, e2.1, e2.2, e3.1, e3.2, htest.1, htest.2]
    · rw [hk]; push_cast
      linarith [e1.1, e1.2, hk2.1, hk2.2, e2.1, e2.2, e3.1, e3.2, htest.1, htest.2]
  · rw [if_neg htest]
    rw [not_lt, le_abs] at htest
    refine ⟨k, by rw [hr], ?_, ?_⟩
    · rcases htest with hh | hh
      · linarith [e1.1, e1.2, hk2.1, hk2.2, e2.1, e2.2, e3.1, e3.2]
      · linarith [e1.1, e1.2, hk2.1, hk2.2, e2.1, e2.2, e3.1, e3.2]
    · linarith [e1.1, e1.2, hk2.1, hk2.2, e2.1, e2.2, e3.1, e3.2]

theorem zoomOut_target {R : ℚ → ℚ} (hR : IsRoundToOneDecimal R) (t : ContentTab)
    (h0 : 9 / 100 ≤ t.zoomFactor) (h1 : t.zoomFactor ≤ 5) :
    ∃ K : ℤ, ZoomByStep R (some t) false = ZoomByFactor (some t) (f32 ((K : ℚ) / 10)) ∧
      9 / 1000 ≤ t.zoomFactor - (K : ℚ) / 10 ∧ t.zoomFactor - (K : ℚ) / 10 ≤ 111 / 1000 := by
  unfold ZoomByStep
  simp only [Bool.false_eq_true, if_false]
  rw [half_step_eq, ZOOM_STEP_eq, hundredth_eq, qAbs_eq]
  generalize t.zoomFactor = c at h0 h1 ⊢
  obtain ⟨k, hk1, hk2⟩ := hR (f32 (c + -(13421773 / 268435456)))
  have e1 := f32_err_le_eight (x := c + -(13421773 / 268435456))
    (by rw [abs_le]; constructor <;> linarith)
  rw [abs_le] at e1 hk2
  rw [hk1]
  generalize f32 (c + -(13421773 / 268435456)) = x1 at e1 hk2
  have e2 := f32_err_le_eight (x := (k : ℚ) / 10)
    (by rw [abs_le]; constructor <;> linarith [e1.1, e1.2, hk2.1, hk2.2])
  rw [abs_le] at e2
  generalize hr : f32 ((k : ℚ) / 10) = r at e2 ⊢
  have e3 := f32_err_le_eight (x := c - r)
    (by rw [abs_le]; constructor <;> linarith [e1.1, e1.2, hk2.1, hk2.2, e2.1, e2.2])
  rw [abs_le] at e3
  generalize f32 (c - r) = y at e3
  norm_num at e1 e2 e3
  by_cases htest : |y| < 5368709 / 536870912
  · rw [if_pos htest]
    rw [abs_lt] at htest
    obtain ⟨k2, hk21, hk22⟩ := hR (f32 (c + -(13421773 / 134217728)))
    have e4 := f32_err_le_eight (x := c + -(13421773 / 134217728))
      (by rw [abs_le]; constructor <;> linarith)
    rw [abs_le] at e4 hk22
    rw [hk21]
    generalize f32 (c + -(13421773 / 134217728)) = x2 at e4 hk22
    norm_num at e4
    have u1 : (k2 : ℚ) < (k : ℚ) := by
      linarith [e1.1, e1.2, hk2.1, hk2.2, e2.1, e2.2, e3.1, e3.2, htest.1, htest.2, e4.1,
        e4.2, hk22.1, hk22.2]
    have u2 : (k : ℚ) - 2 < (k2 : ℚ) := by
      linarith [e1.1, e1.2, hk2.1, hk2.2, e2.1, e2.2, e3.1, e3.2, htest.1, htest.2, e4.1,
        e4.2, hk22.1, hk22.2]
    have v1 : k2 < k := by exact_mod_cast u1
    have v2 : k - 2 < k2 := by exact_mod_cast u2
    have hk : k2 = k - 1 := by omega
    refine ⟨k2, rfl, ?_, ?_⟩
    · rw [hk]; push_cast
      linarith [e1.1, e1.2, hk2.1, hk2.2, e2.1, e2.2, e3.1, e3.2, htest.1, htest.2]
    · rw [hk]; push_cast
      linarith [e1.1, e1.2, hk2.1, hk2.2, e2.1, e2.2, e3.1, e3.2, htest.1, htest.2]
  · rw [if_neg htest]
    rw [not_lt, le_abs] at htest
    refine ⟨k, by rw [hr], ?_, ?_⟩
    · rcases htest with hh | hh
      · linarith [e1.1, e1.2, hk2.1, hk2.2, e2.1, e2.2, e3.1, e3.2]
      · linarith [e1.1, e1.2, hk2.1, hk2.2, e2.1, e2.2, e3.1, e3.2]
    · linarith [e1.1, e1.2, hk2.1, hk2.2, e2.1, e2.2, e3.1, e3.2]

theorem tenth_50 : f32 (((50 : ℤ) : ℚ) / 10) = 5 := by decide!

theorem tenth_49 : f32 (((49 : ℤ) : ℚ) / 10) = 10276045 / 2097152 := by decide!

theorem tenth_1 : f32 (((1 : ℤ) : ℚ) / 10) = 13421773 / 134217728 := by decide!

theorem tenth_0 : f32 (((0 : ℤ) : ℚ) / 10) = 0 := by decide!

theorem ZoomByFactor_accept (t : ContentTab) (z : ℚ) (h0 : ZOOM_MIN ≤ z) (h1 : z ≤ ZOOM_MAX) :
    ZoomByFactor (some t) z = some { t with zoomFactor := z } := by
  unfold ZoomByFactor
  simp only
  rw [if_neg]
  push_neg
  exact ⟨h1, h0⟩

theorem ZoomByFactor_reject (t : ContentTab) (z : ℚ) (h : z > ZOOM_MAX ∨ z < ZOOM_MIN) :
    ZoomByFactor (some t) z = some t := by
  unfold ZoomByFactor
  simp only
  rw [if_pos h]

theorem zoomIn_zoomOut_rejected {R : ℚ → ℚ} (hR : IsRoundToOneDecimal R) (t : ContentTab)
    (h0 : 4989 / 1000 ≤ t.zoomFactor) (h1 : t.zoomFactor ≤ 5) :
    ∃ t2, ZoomByStep R (some t) false = some t2 ∧
      |t2.zoomFactor - t.zoomFactor| ≤ 1 / 10 := by
  obtain ⟨K, hK, b1, b2⟩ := zoomOut_target hR t (by linarith) h1
  have u1 : (48 : ℚ) < (K : ℚ) := by linarith
  have u2 : (K : ℚ) < 50 := by linarith
  have v1 : 48 < K := by exact_mod_cast u1
  have v2 : K < 50 := by exact_mod_cast u2
  have hk : K = 49 := by omega
  rw [hk, tenth_49] at hK
  rw [hK, ZoomByFactor_accept t _ (by rw [ZOOM_MIN_eq]; norm_num) (by rw [ZOOM_MAX_eq]; norm_num)]
  refine ⟨_, rfl, ?_⟩
  simp only
  rw [abs_le]
  constructor <;> linarith

theorem zoomIn_zoomOut_accepted {R : ℚ → ℚ} (hR : IsRoundToOneDecimal R) (t : ContentTab)
    (K : ℤ) (h0 : 9 / 100 ≤ t.zoomFactor) (h1 : t.zoomFactor ≤ 5) (b1 : 9 / 1000 ≤ (K : ℚ) / 10 - t.zoomFactor)
    (b2 : (K : ℚ) / 10 - t.zoomFactor ≤ 111 / 1000) (a1 : f32 ((K : ℚ) / 10) ≤ ZOOM_MAX) :
    ∃ t2, ZoomByStep R (some { t with zoomFactor := f32 ((K : ℚ) / 10) }) false = some t2 ∧
      |t2.zoomFactor - t.zoomFactor| ≤ 1 / 10 := by
  rw [ZOOM_MAX_eq] at a1
  have e := f32_err_le_eight (x := (K : ℚ) / 10) (by rw [abs_le]; constructor <;> linarith)
  rw [abs_le] at e
  norm_num at e
  obtain ⟨K2, hK2, c1, c2⟩ := zoomOut_target hR { t with zoomFactor := f32 ((K : ℚ) / 10) }
    (by simp only; linarith) (by simp only; exact a1)
  simp only at c1 c2
  have u1 : (K2 : ℚ) < (K : ℚ) := by linarith [e.1, e.2]
  have u2 : (K : ℚ) - 2 < (K2 : ℚ) := by linarith [e.1, e.2]
  have v1 : K2 < K := by exact_mod_cast u1
  have v2 : K - 2 < K2 := by exact_mod_cast u2
  have hk : K2 = K - 1 := by omega
  have w1 : (0 : ℚ) < (K : ℚ) := by linarith
  have w2 : 0 < K := by exact_mod_cast w1
  rw [hK2]
  rcases eq_or_lt_of_le (show 1 ≤ K by omega) with hK1 | hK1
  · have hz : K2 = 0 := by omega
    rw [hz, tenth_0, ZoomByFactor_reject _ _ (Or.inr (by rw [ZOOM_MIN_eq]; norm_num))]
    refine ⟨_, rfl, ?_⟩
    simp only
    rw [← hK1] at b1 b2 ⊢
    rw [tenth_1, abs_le]
    norm_num at b1 b2
    constructor <;> linarith
  · have w3 : (2 : ℚ) ≤ (K : ℚ) := by exact_mod_cast (show 2 ≤ K by omega)
    have hq : (K2 : ℚ) = (K : ℚ) - 1 := by rw [hk]; push_cast; ring
    have e2 := f32_err_le_eight (x := (K2 : ℚ) / 10)
      (by rw [abs_le, hq]; constructor <;> linarith [e.1, e.2])
    rw [abs_le] at e2
    norm_num at e2
    rw [ZoomByFactor_accept _ _ (by rw [ZOOM_MIN_eq]; linarith [e2.1, e2.2])
      (by rw [ZOOM_MAX_eq]; linarith [e2.1, e2.2, e.1, e.2])]
    refine ⟨_, rfl, ?_⟩
    simp only
    rw [abs_le]
    constructor <;> linarith [e2.1, e2.2]

/-- C6: for every zoom factor `f` in `[0.09, 5.0]`, `ZoomByStep(true)` followed by
`ZoomByStep(false)` starting from `f` yields a factor `g` with `|g - f| <= 0.1`, for every
rounding helper that rounds to the nearest tenth; a step whose target is out of bounds
leaves the factor unchanged. -/
theorem ZoomByStep_in_then_out (R : ℚ → ℚ) (hR : IsRoundToOneDecimal R) (t : ContentTab)
    (h0 : 9 / 100 ≤ t.zoomFactor) (h1 : t.zoomFactor ≤ 5) :
    ∃ t2, ZoomByStep R (ZoomByStep R (some t) true) false = some t2 ∧
      |t2.zoomFactor - t.zoomFactor| ≤ 1 / 10 := by
  obtain ⟨K, hK, b1, b2⟩ := zoomIn_target hR t h0 h1
  rw [hK]
  have e := f32_err_le_eight (x := (K : ℚ) / 10) (by rw [abs_le]; constructor <;> linarith)
  rw [abs_le] at e
  norm_num at e
  have w1 : (0 : ℚ) < (K : ℚ) := by linarith
  have w2 : 0 < K := by exact_mod_cast w1
  have w3 : (1 : ℚ) ≤ (K : ℚ) := by exact_mod_cast (show 1 ≤ K by omega)
  have a0 : ZOOM_MIN ≤ f32 ((K : ℚ) / 10) := by rw [ZOOM_MIN_eq]; linarith [e.1, e.2]
  by_cases hrej : f32 ((K : ℚ) / 10) > ZOOM_MAX
  · rw [ZoomByFactor_reject _ _ (Or.inl hrej)]
    rw [ZOOM_MAX_eq] at hrej
    have u1 : (49 : ℚ) < (K : ℚ) := by linarith [e.1, e.2]
    have v1 : 49 < K := by exact_mod_cast u1
    have hne : K ≠ 50 := by
      intro h50
      rw [h50, tenth_50] at hrej
      exact lt_irrefl _ hrej
    have w4 : (51 : ℚ) ≤ (K : ℚ) := by exact_mod_cast (show 51 ≤ K by omega)
    exact zoomIn_zoomOut_rejected hR t (by linarith) h1
  · rw [ZoomByFactor_accept _ _ a0 (not_lt.mp hrej)]
    exact zoomIn_zoomOut_accepted hR t K h0 h1 b1 b2 (not_lt.mp hrej)

theorem ZoomByStep_in_then_out_witness :
    ∃ t2, ZoomByStep RoundToOneDecimal
        (ZoomByStep RoundToOneDecimal (some (plainTab .HTMLResourceType)) true) false = some t2 ∧
      |t2.zoomFactor - (plainTab .HTMLResourceType).zoomFactor| ≤ 1 / 10 :=
  ZoomByStep_in_then_out RoundToOneDecimal RoundToOneDecimal_spec (plainTab .HTMLResourceType)
    (by norm_num [plainTab]) (by norm_num [plainTab])

/-! ## View-state machine -/

theorem SetViewState_of_failure (env : Env) (mw : MainWindow) (vs : ViewState)
    (h : (UpdateViewState env { mw with m_ViewState := requestedViewState vs }
      (decide (mw.m_ViewState ≠ requestedViewState vs))).1 = false) :
    (SetViewState env mw vs).m_ViewState = mw.m_ViewState ∧
    (SetViewState env mw vs).ui.checked .actionCodeView = true ∧
    (SetViewState env mw vs).ui.checked .actionBookView = false ∧
    (SetViewState env mw vs).ui.checked .actionSplitView = false := by
  unfold requestedViewState at h
  unfold SetViewState
  simp only [h]
  refine ⟨rfl, rfl, rfl, rfl⟩

theorem UpdateViewState_fails_iff (env : Env) (mw : MainWindow) (b : Bool) :
    (UpdateViewState env mw b).1 = false ↔
      (env.tab = none ∨ ∃ t g, env.tab = some t ∧ t.resourceType = .HTMLResourceType ∧
        b = true ∧ t.flowTabSetViewState = some g ∧ g mw.m_ViewState = false) := by
  unfold UpdateViewState
  cases ht : env.tab with
  | none => simp
  | some t =>
    simp only [false_or, Option.some.injEq, exists_and_left, exists_eq_left']
    by_cases h1 : t.resourceType = .HTMLResourceType
    · cases hg : t.flowTabSetViewState with
      | none => cases b <;> simp [h1] <;> split_ifs <;> simp
      | some g =>
        cases b <;> cases hgv : g mw.m_ViewState <;> simp [h1, hgv] <;> split_ifs <;> simp
    · simp only [h1, if_false, false_and]
      split_ifs <;> simp

/-- C8: whenever `UpdateViewState` returns false inside `SetViewState` (there is no current
tab, or the HTML tab refuses to adopt the requested mode), `m_ViewState` after the call
equals `m_ViewState` before it and the UI is re-asserted to Source: the Code View action is
checked, the Book View and Split View actions are unchecked. -/
theorem SetViewState_failure_restores (env : Env) (mw : MainWindow) (vs : ViewState) :
    ((UpdateViewState env { mw with m_ViewState := requestedViewState vs }
        (decide (mw.m_ViewState ≠ requestedViewState vs))).1 = false →
      (SetViewState env mw vs).m_ViewState = mw.m_ViewState ∧
      (SetViewState env mw vs).ui.checked .actionCodeView = true ∧
      (SetViewState env mw vs).ui.checked .actionBookView = false ∧
      (SetViewState env mw vs).ui.checked .actionSplitView = false) ∧
    ((UpdateViewState env { mw with m_ViewState := requestedViewState vs }
        (decide (mw.m_ViewState ≠ requestedViewState vs))).1 = false ↔
      (env.tab = none ∨ ∃ t g, env.tab = some t ∧ t.resourceType = .HTMLResourceType ∧
        mw.m_ViewState ≠ requestedViewState vs ∧ t.flowTabSetViewState = some g ∧
        g (requestedViewState vs) = false)) := by
  refine ⟨SetViewState_of_failure env mw vs, ?_⟩
  rw [UpdateViewState_fails_iff]
  simp

theorem SetViewState_failure_restores_witness :
    (SetViewState ⟨some refusingTab, true⟩ bookViewWindow .ViewState_CodeView).m_ViewState
        = bookViewWindow.m_ViewState ∧
      (SetViewState ⟨some refusingTab, true⟩ bookViewWindow .ViewState_CodeView).ui.checked
        .actionCodeView = true ∧
      (SetViewState ⟨some refusingTab, true⟩ bookViewWindow .ViewState_CodeView).ui.checked
        .actionBookView = false ∧
      (SetViewState ⟨some refusingTab, true⟩ bookViewWindow .ViewState_CodeView).ui.checked
        .actionSplitView = false :=
  (SetViewState_failure_restores ⟨some refusingTab, true⟩ bookViewWindow
    .ViewState_CodeView).1 (by decide)

/-- C7 (counterexample): with a CSS tab current, Book View active and
`IsAllTabDataWellFormed()` false, `SetViewState(ViewState_CodeView)` changes `m_ViewState`
to Code View and leaves none of the three view actions checked, so the previously active
Book View is not re-asserted. -/
theorem SetViewState_not_gated_counterexample :
    (Env.mk (some (plainTab .CSSResourceType)) false).IsAllTabDataWellFormed = false ∧
    (SetViewState ⟨some (plainTab .CSSResourceType), false⟩ bookViewWindow
      .ViewState_CodeView).m_ViewState ≠ bookViewWindow.m_ViewState ∧
    (SetViewState ⟨some (plainTab .CSSResourceType), false⟩ bookViewWindow
      .ViewState_CodeView).ui.checked .actionBookView = false := by
  decide

/-- C7 (amended): `SetViewState` does not consult `IsAllTabDataWellFormed()`: its result is
the same for both answers.  For every requested mode, when the current HTML tab refuses the
requested view state (`FlowTab::SetViewState` returns false, the place where a
well-formedness failure is observed), `m_ViewState` keeps the value it had before the call
and the UI is re-asserted to Code View, which is the mode active before the call whenever
that mode was Code View. -/
theorem SetViewState_refused_keeps_state :
    (∀ (env : Env) (mw : MainWindow) (vs : ViewState) (b : Bool),
      SetViewState { env with IsAllTabDataWellFormed := b } mw vs = SetViewState env mw vs) ∧
    (∀ (env : Env) (mw : MainWindow) (vs : ViewState) (t : ContentTab) (g : ViewState → Bool),
      env.tab = some t → t.resourceType = .HTMLResourceType →
      t.flowTabSetViewState = some g → g (requestedViewState vs) = false →
      mw.m_ViewState ≠ requestedViewState vs →
      (SetViewState env mw vs).m_ViewState = mw.m_ViewState ∧
      (SetViewState env mw vs).ui.showsViewState .ViewState_CodeView ∧
      (mw.m_ViewState = .ViewState_CodeView →
        (SetViewState env mw vs).ui.showsViewState mw.m_ViewState)) := by
  constructor
  · intro env mw vs b
    rfl
  · intro env mw vs t g h1 h2 h3 h4 h5
    have hf : (UpdateViewState env { mw with m_ViewState := requestedViewState vs }
        (decide (mw.m_ViewState ≠ requestedViewState vs))).1 = false := by
      rw [UpdateViewState_fails_iff]
      exact Or.inr ⟨t, g, h1, h2, by simpa using h5, h3, h4⟩
    obtain ⟨a1, a2, a3, a4⟩ := SetViewState_of_failure env mw vs hf
    have hs : (SetViewState env mw vs).ui.showsViewState .ViewState_CodeView := by
      unfold Ui.showsViewState
      rw [a2, a3, a4]
      decide
    refine ⟨a1, hs, ?_⟩
    intro hcv
    rw [hcv]
    exact hs

theorem SetViewState_refused_keeps_state_witness :
    (SetViewState ⟨some refusingTab, false⟩ bookViewWindow .ViewState_CodeView).m_ViewState
        = bookViewWindow.m_ViewState ∧
      (SetViewState ⟨some refusingTab, false⟩ bookViewWindow
        .ViewState_CodeView).ui.showsViewState .ViewState_CodeView ∧
      (bookViewWindow.m_ViewState = .ViewState_CodeView →
        (SetViewState ⟨some refusingTab, false⟩ bookViewWindow
          .ViewState_CodeView).ui.showsViewState bookViewWindow.m_ViewState) :=
  SetViewState_refused_keeps_state.2 ⟨some refusingTab, false⟩ bookViewWindow
    .ViewState_CodeView refusingTab (fun _ => false) rfl rfl rfl rfl (by decide)

/-! ## Enabled-action tables -/

theorem SelectEntryOnHeadingToolbar_enabled (element_name : String) (ui : Ui) :
    (SelectEntryOnHeadingToolbar element_name ui).enabled = ui.enabled := by
  unfold SelectEntryOnHeadingToolbar
  simp only
  split_ifs <;> rfl

theorem UpdateUIOnTabChanges_enabled (tab : Option ContentTab) (ui : Ui) (a : Action)
    (h : a ∉ tabControlledActions) :
    (UpdateUIOnTabChanges tab ui).enabled a = ui.enabled a := by
  cases tab with
  | none => rfl
  | some t =>
    unfold UpdateUIOnTabChanges
    simp only
    rw [SelectEntryOnHeadingToolbar_enabled]
    cases a <;> first | rfl | (exact absurd (by decide) h)

theorem UpdateUIOnTabChanges_enabled_of_mem (t : ContentTab) (ui1 ui2 : Ui) (a : Action)
    (h : a ∈ tabControlledActions) :
    (UpdateUIOnTabChanges (some t) ui1).enabled a
      = (UpdateUIOnTabChanges (some t) ui2).enabled a := by
  unfold UpdateUIOnTabChanges
  simp only
  rw [SelectEntryOnHeadingToolbar_enabled, SelectEntryOnHeadingToolbar_enabled]
  cases a <;> first | rfl | (exact absurd h (by decide))

theorem SetStateActionsStaticView_enabled (tab : Option ContentTab) (ui : Ui) (a : Action)
    (h : a ∉ tabControlledActions) :
    (SetStateActionsStaticView tab ui).enabled a = false := by
  unfold SetStateActionsStaticView
  rw [UpdateUIOnTabChanges_enabled tab _ a h]
  cases a <;> first | rfl | (exact absurd (by decide) h)

theorem SetStateActionsCSSView_enabled_eq_raw (tab : Option ContentTab) (ui : Ui) (a : Action)
    (h : a ∉ cssFormattingActions) :
    (SetStateActionsCSSView tab ui).enabled a = (SetStateActionsRawView tab ui).enabled a := by
  unfold SetStateActionsCSSView
  by_cases hc : a ∈ tabControlledActions
  · cases tab with
    | none => cases a <;> first | rfl | (exact absurd (by decide) h)
    | some t =>
      unfold SetStateActionsRawView
      exact UpdateUIOnTabChanges_enabled_of_mem t _ _ a hc
  · rw [UpdateUIOnTabChanges_enabled tab _ a hc]
    cases a <;> first | rfl | (exact absurd (by decide) h)

theorem SetStateActionsCSSView_enabled_formatting (tab : Option ContentTab) (ui : Ui)
    (a : Action) (h : a ∈ cssFormattingActions) :
    (SetStateActionsCSSView tab ui).enabled a = true := by
  unfold SetStateActionsCSSView
  rw [UpdateUIOnTabChanges_enabled tab _ a
    (by revert h; cases a <;> decide)]
  cases a <;> first | rfl | (exact absurd h (by decide))

theorem SetStateActionsRawView_enabled_structural (tab : Option ContentTab) (ui : Ui)
    (a : Action) (h : a ∈ htmlStructuralActions) :
    (SetStateActionsRawView tab ui).enabled a = false := by
  unfold SetStateActionsRawView
  rw [UpdateUIOnTabChanges_enabled tab _ a
    (by revert h; cases a <;> decide)]
  cases a <;> first | rfl | (exact absurd h (by decide))

theorem SetStateActionsCSSView_enabled_structural (tab : Option ContentTab) (ui : Ui)
    (a : Action) (h : a ∈ htmlStructuralActions) :
    (SetStateActionsCSSView tab ui).enabled a = false := by
  rw [SetStateActionsCSSView_enabled_eq_raw tab ui a (by revert h; cases a <;> decide)]
  exact SetStateActionsRawView_enabled_structural tab ui a h

theorem UpdateViewState_css (env : Env) (mw : MainWindow) (b : Bool) (t : ContentTab)
    (h1 : env.tab = some t) (h2 : t.resourceType = .CSSResourceType) :
    UpdateViewState env mw b = (true, { mw with ui := SetStateActionsCSSView env.tab mw.ui }) := by
  unfold UpdateViewState
  rw [h1]
  simp [h2]

/-- C9: the enabled flags for a CSS resource equal those of the raw-text table
(`SetStateActionsRawView`) in every action except bold, italic, underline, strikethrough,
the four alignment actions and the three text-direction actions, which are enabled; every
structural HTML-only action is disabled; and for a CSS tab the flags set by `SetViewState`
do not depend on the requested mode nor on the mode that was active. -/
theorem SetStateActionsCSSView_table :
    (∀ (tab : Option ContentTab) (ui : Ui) (a : Action), a ∉ cssFormattingActions →
      (SetStateActionsCSSView tab ui).enabled a = (SetStateActionsRawView tab ui).enabled a) ∧
    (∀ (tab : Option ContentTab) (ui : Ui) (a : Action), a ∈ cssFormattingActions →
      (SetStateActionsCSSView tab ui).enabled a = true) ∧
    (∀ (tab : Option ContentTab) (ui : Ui) (a : Action), a ∈ htmlStructuralActions →
      (SetStateActionsCSSView tab ui).enabled a = false) ∧
    (∀ (env : Env) (ui : Ui) (m vs : ViewState) (t : ContentTab), env.tab = some t →
      t.resourceType = .CSSResourceType →
      (SetViewState env ⟨m, ui⟩ vs).ui = SetStateActionsCSSView env.tab ui) := by
  refine ⟨SetStateActionsCSSView_enabled_eq_raw, SetStateActionsCSSView_enabled_formatting,
    SetStateActionsCSSView_enabled_structural, ?_⟩
  intro env ui m vs t h1 h2
  unfold SetViewState
  simp only [UpdateViewState_css env _ _ t h1 h2]
  rfl

theorem SetStateActionsCSSView_table_witness :
    (SetStateActionsCSSView (some (plainTab .CSSResourceType)) bookViewWindow.ui).enabled
        .actionFind
      = (SetStateActionsRawView (some (plainTab .CSSResourceType)) bookViewWindow.ui).enabled
        .actionFind ∧
    (SetStateActionsCSSView (some (plainTab .CSSResourceType)) bookViewWindow.ui).enabled
        .actionBold = true ∧
    (SetStateActionsCSSView (some (plainTab .CSSResourceType)) bookViewWindow.ui).enabled
        .actionSplitSection = false ∧
    (SetViewState ⟨some (plainTab .CSSResourceType), true⟩ ⟨.ViewState_CodeView,
        bookViewWindow.ui⟩ .ViewState_BookView).ui
      = SetStateActionsCSSView (some (plainTab .CSSResourceType)) bookViewWindow.ui :=
  ⟨SetStateActionsCSSView_table.1 _ _ .actionFind (by decide),
   SetStateActionsCSSView_table.2.1 _ _ .actionBold (by decide),
   SetStateActionsCSSView_table.2.2.1 _ _ .actionSplitSection (by decide),
   SetStateActionsCSSView_table.2.2.2 ⟨some (plainTab .CSSResourceType), true⟩ _ _ _
     (plainTab .CSSResourceType) rfl rfl⟩

theorem UpdateViewState_static (env : Env) (mw : MainWindow) (b : Bool) (t : ContentTab)
    (h1 : env.tab = some t) (h2 : t.resourceType.isStatic = true) :
    UpdateViewState env mw b
      = (true, { mw with ui := SetStateActionsStaticView env.tab mw.ui }) := by
  unfold UpdateViewState
  rw [h1]
  cases hr : t.resourceType <;> rw [hr] at h2 <;> first | (exact absurd h2 (by decide)) | simp [hr]

/-- C10 (counterexample): for an image tab, starting from a window with every action
enabled, the table applied by `UpdateViewState` leaves the find action and the lowercase
casing action disabled. -/
theorem static_view_find_casing_counterexample :
    (ResourceType.isStatic .ImageResourceType = true) ∧
    (UpdateViewState ⟨some (plainTab .ImageResourceType), true⟩ bookViewWindow
      false).2.ui.enabled .actionFind = false ∧
    (UpdateViewState ⟨some (plainTab .ImageResourceType), true⟩ bookViewWindow
      false).2.ui.enabled .actionCasingLowercase = false := by
  decide

/-- C10 (amended): for every non-editable resource type (neither HTML, CSS nor one of the
raw-text types, handled by `SetStateActionsStaticView`), the table applied by
`UpdateViewState` disables every action of the table, the find actions and the casing
actions included; only the selection-dependent actions that `UpdateUIOnTabChanges` copies
from the tab (cut, copy, paste, delete line, add to index, mark for index, remove
formatting) are left to the tab. -/
theorem static_view_disables_all (env : Env) (mw : MainWindow) (b : Bool) (t : ContentTab)
    (h1 : env.tab = some t) (h2 : t.resourceType.isStatic = true) :
    (UpdateViewState env mw b).1 = true ∧
    (∀ a : Action, a ∉ tabControlledActions →
      (UpdateViewState env mw b).2.ui.enabled a = false) ∧
    (∀ a : Action, a ∈ findActions ∨ a ∈ casingActions →
      (UpdateViewState env mw b).2.ui.enabled a = false) := by
  rw [UpdateViewState_static env mw b t h1 h2]
  refine ⟨rfl, fun a ha => SetStateActionsStaticView_enabled _ _ a ha, ?_⟩
  intro a ha
  apply SetStateActionsStaticView_enabled
  revert ha
  cases a <;> decide

theorem static_view_disables_all_witness :
    (UpdateViewState ⟨some (plainTab .ImageResourceType), true⟩ bookViewWindow true).1 = true ∧
    (∀ a : Action, a ∉ tabControlledActions →
      (UpdateViewState ⟨some (plainTab .ImageResourceType), true⟩ bookViewWindow
        true).2.ui.enabled a = false) ∧
    (∀ a : Action, a ∈ findActions ∨ a ∈ casingActions →
      (UpdateViewState ⟨some (plainTab .ImageResourceType), true⟩ bookViewWindow
        true).2.ui.enabled a = false) :=
  static_view_disables_all ⟨some (plainTab .ImageResourceType), true⟩ bookViewWindow true
    (plainTab .ImageResourceType) rfl rfl

/-! ## Location bookmark -/

theorem record_ext {σ : Type} (w : WindowState σ) (e : Event) : (w.record e).ext = w.ext :=
  rfl

theorem record_mw {σ : Type} (w : WindowState σ) (e : Event) : (w.record e).mw = w.mw := rfl

theorem record_log {σ : Type} (w : WindowState σ) (e : Event) :
    (w.record e).log = w.log ++ [e] := rfl

theorem OpenResource_log {σ : Type} (C : Collaborators σ) (w : WindowState σ) (r : Resource)
    (p : Bool) (f : String) (v : ViewState) (l q : ℤ) (c : String) (g : Bool) :
    (OpenResource C w r p f v l q c g).log = w.log ++ [.TabManager_OpenResource r p f
      (if v ≠ .ViewState_Unknown then v else w.mw.m_ViewState) l q c g] := by
  unfold OpenResource
  simp only
  split_ifs <;> rfl

theorem GoToBookmark_of_unset {σ : Type} (C : Collaborators σ) (w : WindowState σ)
    (bm : LocationBookmark) (h : bm.filename = "") : GoToBookmark C w bm = (w, bm) := by
  unfold GoToBookmark
  rw [if_pos h]

theorem GoToBookmark_of_not_wellFormed {σ : Type} (C : Collaborators σ) (w : WindowState σ)
    (bm : LocationBookmark) (h : bm.filename ≠ "")
    (hw : C.IsAllTabDataWellFormed w.ext = false) :
    GoToBookmark C w bm =
      (((w.record .IsAllTabDataWellFormed).record (.StatusBar_showMessage
        "Go To Bookmark cancelled due to XML not well formed.")), bm) := by
  unfold GoToBookmark
  rw [if_neg h]
  simp only [record_ext, hw]
  rfl

theorem GoToBookmark_of_missing {σ : Type} (C : Collaborators σ) (w : WindowState σ)
    (bm : LocationBookmark) (h : bm.filename ≠ "")
    (hw : C.IsAllTabDataWellFormed w.ext = true)
    (hl : C.GetResourceByFilename w.ext bm.filename = none) :
    GoToBookmark C w bm =
      (((w.record .IsAllTabDataWellFormed).record (.GetResourceByFilename bm.filename)),
        ResetLocationBookmark bm) := by
  unfold GoToBookmark
  rw [if_neg h]
  simp only [record_ext, hw, hl]
  rfl

theorem GoToBookmark_of_found {σ : Type} (C : Collaborators σ) (w : WindowState σ)
    (bm : LocationBookmark) (r : Resource) (h : bm.filename ≠ "")
    (hw : C.IsAllTabDataWellFormed w.ext = true)
    (hl : C.GetResourceByFilename w.ext bm.filename = some r) :
    GoToBookmark C w bm =
      (OpenResource C
        (((w.record .IsAllTabDataWellFormed).record
          (.GetResourceByFilename bm.filename)).applySetViewState C bm.view_state)
        r false "" bm.view_state (-1) bm.cv_cursor_position bm.bv_caret_location_update
        C.OpenResource_defaults.grab_focus, bm) := by
  unfold GoToBookmark
  rw [if_neg h]
  simp only [record_ext, hw, hl]
  rfl

/-- C11: `GoToBookmark` on a bookmark whose filename is empty is a no-op: the window state
(action flags, `m_ViewState`, collaborator state with the open tabs) and the bookmark are
returned unchanged, and no call is recorded: no resource lookup, no well-formedness query
and no status message. -/
theorem GoToBookmark_unset_noop {σ : Type} (C : Collaborators σ) (w : WindowState σ)
    (bm : LocationBookmark) (h : bm.filename = "") :
    GoToBookmark C w bm = (w, bm) ∧
    (GoToBookmark C w bm).1.log = w.log ∧
    (GoToBookmark C w bm).1.mw.m_ViewState = w.mw.m_ViewState ∧
    (GoToBookmark C w bm).1.ext = w.ext ∧
    (GoToBookmark C w bm).2 = bm := by
  rw [GoToBookmark_of_unset C w bm h]
  exact ⟨rfl, rfl, rfl, rfl, rfl⟩

theorem GoToBookmark_unset_noop_witness :
    GoToBookmark (fixedCollaborators none true [])
        (windowWith (ResetLocationBookmark sampleBookmark))
        (ResetLocationBookmark sampleBookmark)
      = (windowWith (ResetLocationBookmark sampleBookmark),
         ResetLocationBookmark sampleBookmark) :=
  (GoToBookmark_unset_noop (fixedCollaborators none true [])
    (windowWith (ResetLocationBookmark sampleBookmark)) (ResetLocationBookmark sampleBookmark)
    rfl).1

theorem BookmarkLinkOrStyleLocation_bookmark {σ : Type} (C : Collaborators σ)
    (w : WindowState σ) :
    (BookmarkLinkOrStyleLocation C w).m_LinkOrStyleBookmark =
      match C.GetCurrentContentTab w.ext with
      | none => ResetLocationBookmark w.m_LinkOrStyleBookmark
      | some tab =>
        { filename := tab.GetLoadedResource.Filename
          view_state := w.mw.m_ViewState
          bv_caret_location_update := tab.GetCaretLocationUpdate
          cv_cursor_position := tab.GetCursorPosition } := by
  unfold BookmarkLinkOrStyleLocation ResetLinkOrStyleBookmark
  simp only
  cases C.GetCurrentContentTab w.ext <;> rfl

theorem BookmarkLinkOrStyleLocation_independent {σ : Type} (C : Collaborators σ)
    (w : WindowState σ) (b : LocationBookmark) :
    (BookmarkLinkOrStyleLocation C { w with m_LinkOrStyleBookmark := b }).m_LinkOrStyleBookmark
      = (BookmarkLinkOrStyleLocation C w).m_LinkOrStyleBookmark := by
  rw [BookmarkLinkOrStyleLocation_bookmark, BookmarkLinkOrStyleLocation_bookmark]
  cases C.GetCurrentContentTab w.ext <;> rfl

/-- C12 (counterexample): the bookmark is set on `Section0001.xhtml`, no resource of that
name exists, and `IsAllTabDataWellFormed()` is false: `GoToBookmark` is cancelled before the
lookup and the bookmark stays set instead of being reset. -/
theorem GoToBookmark_missing_not_reset_counterexample :
    sampleBookmark.filename ≠ "" ∧
    (fixedCollaborators none false []).GetResourceByFilename () sampleBookmark.filename
      = none ∧
    (GoToBookmark (fixedCollaborators none false []) (windowWith sampleBookmark)
      sampleBookmark).2 = sampleBookmark ∧
    (GoToBookmark (fixedCollaborators none false []) (windowWith sampleBookmark)
      sampleBookmark).2.filename ≠ "" := by
  decide

/-- C12 (amended): for every set bookmark whose target filename no longer resolves to a
resource, a `GoToBookmark` that is not cancelled (all tab data is well formed) leaves the
bookmark in the unset state (filename empty, view state Unknown, caret location empty,
cursor position -1), and a subsequent `BookmarkLinkOrStyleLocation`, in whatever window
state it runs, produces the same bookmark as it does on any freshly created bookmark. -/
theorem GoToBookmark_missing_resets {σ : Type} (C : Collaborators σ) (w : WindowState σ)
    (bm : LocationBookmark) (h : bm.filename ≠ "")
    (hw : C.IsAllTabDataWellFormed w.ext = true)
    (hl : C.GetResourceByFilename w.ext bm.filename = none) :
    (GoToBookmark C w bm).2 =
      { filename := ""
        view_state := .ViewState_Unknown
        bv_caret_location_update := ""
        cv_cursor_position := -1 } ∧
    ∀ (w1 : WindowState σ) (fresh : LocationBookmark),
      (BookmarkLinkOrStyleLocation C
        { w1 with m_LinkOrStyleBookmark := (GoToBookmark C w bm).2 }).m_LinkOrStyleBookmark
      = (BookmarkLinkOrStyleLocation C
        { w1 with m_LinkOrStyleBookmark := fresh }).m_LinkOrStyleBookmark := by
  refine ⟨?_, ?_⟩
  · rw [GoToBookmark_of_missing C w bm h hw hl]
    rfl
  · intro w1 fresh
    rw [BookmarkLinkOrStyleLocation_independent C w1 (GoToBookmark C w bm).2,
      BookmarkLinkOrStyleLocation_independent C w1 fresh]

theorem GoToBookmark_missing_resets_witness :
    (GoToBookmark (fixedCollaborators none true []) (windowWith sampleBookmark)
      sampleBookmark).2 =
      { filename := ""
        view_state := .ViewState_Unknown
        bv_caret_location_update := ""
        cv_cursor_position := -1 } ∧
    ∀ (w1 : WindowState Unit) (fresh : LocationBookmark),
      (BookmarkLinkOrStyleLocation (fixedCollaborators none true [])
        { w1 with m_LinkOrStyleBookmark :=
            (GoToBookmark (fixedCollaborators none true []) (windowWith sampleBookmark)
              sampleBookmark).2 }).m_LinkOrStyleBookmark
      = (BookmarkLinkOrStyleLocation (fixedCollaborators none true [])
        { w1 with m_LinkOrStyleBookmark := fresh }).m_LinkOrStyleBookmark :=
  GoToBookmark_missing_resets (fixedCollaborators none true []) (windowWith sampleBookmark)
    sampleBookmark (by decide) rfl rfl

/-- C13: `GoToBookmark` modifies the bookmark only when the target lookup fails.  When the
call is cancelled because tab data is not well formed, the bookmark is unchanged.  When the
target resource exists, the bookmark is unchanged, the stored view state is set and the
resource is opened through `OpenResource` with the stored view state, cursor position and
caret location (the tab manager receives the stored view state whenever it is not Unknown),
and a second `GoToBookmark` opens the same location again. -/
theorem GoToBookmark_found_keeps_bookmark {σ : Type} (C : Collaborators σ)
    (w : WindowState σ) (bm : LocationBookmark) :
    ((GoToBookmark C w bm).2 ≠ bm →
      bm.filename ≠ "" ∧ C.IsAllTabDataWellFormed w.ext = true ∧
        C.GetResourceByFilename w.ext bm.filename = none) ∧
    (C.IsAllTabDataWellFormed w.ext = false → (GoToBookmark C w bm).2 = bm) ∧
    (∀ r : Resource, bm.filename ≠ "" → C.IsAllTabDataWellFormed w.ext = true →
      C.GetResourceByFilename w.ext bm.filename = some r →
      (GoToBookmark C w bm).2 = bm ∧
      (GoToBookmark C w bm).1 =
        OpenResource C
          (((w.record .IsAllTabDataWellFormed).record
            (.GetResourceByFilename bm.filename)).applySetViewState C bm.view_state)
          r false "" bm.view_state (-1) bm.cv_cursor_position bm.bv_caret_location_update
          C.OpenResource_defaults.grab_focus ∧
      (bm.view_state ≠ .ViewState_Unknown →
        (GoToBookmark C w bm).1.log = w.log ++
          [.IsAllTabDataWellFormed, .GetResourceByFilename bm.filename,
           .TabManager_OpenResource r false "" bm.view_state (-1) bm.cv_cursor_position
             bm.bv_caret_location_update C.OpenResource_defaults.grab_focus]) ∧
      (∀ r2 : Resource, bm.view_state ≠ .ViewState_Unknown →
        C.IsAllTabDataWellFormed (GoToBookmark C w bm).1.ext = true →
        C.GetResourceByFilename (GoToBookmark C w bm).1.ext bm.filename = some r2 →
        (GoToBookmark C (GoToBookmark C w bm).1 (GoToBookmark C w bm).2).2 = bm ∧
        (GoToBookmark C (GoToBookmark C w bm).1 (GoToBookmark C w bm).2).1.log =
          (GoToBookmark C w bm).1.log ++
            [.IsAllTabDataWellFormed, .GetResourceByFilename bm.filename,
             .TabManager_OpenResource r2 false "" bm.view_state (-1) bm.cv_cursor_position
               bm.bv_caret_location_update C.OpenResource_defaults.grab_focus])) := by
  have hlog : ∀ (w0 : WindowState σ) (r0 : Resource), bm.filename ≠ "" →
      C.IsAllTabDataWellFormed w0.ext = true →
      C.GetResourceByFilename w0.ext bm.filename = some r0 →
      bm.view_state ≠ .ViewState_Unknown →
      (GoToBookmark C w0 bm).2 = bm ∧
      (GoToBookmark C w0 bm).1.log = w0.log ++
        [.IsAllTabDataWellFormed, .GetResourceByFilename bm.filename,
         .TabManager_OpenResource r0 false "" bm.view_state (-1) bm.cv_cursor_position
           bm.bv_caret_location_update C.OpenResource_defaults.grab_focus] := by
    intro w0 r0 h0 hw hl hu
    rw [GoToBookmark_of_found C w0 bm r0 h0 hw hl]
    refine ⟨rfl, ?_⟩
    simp only [OpenResource_log, hu, ne_eq, not_false_eq_true, if_true]
    simp [WindowState.applySetViewState, record_log]
  refine ⟨?_, ?_, ?_⟩
  · intro hne
    by_cases h0 : bm.filename = ""
    · rw [GoToBookmark_of_unset C w bm h0] at hne
      exact absurd rfl hne
    · cases hw : C.IsAllTabDataWellFormed w.ext with
      | false =>
        rw [GoToBookmark_of_not_wellFormed C w bm h0 hw] at hne
        exact absurd rfl hne
      | true =>
        cases hl : C.GetResourceByFilename w.ext bm.filename with
        | none => exact ⟨h0, rfl, rfl⟩
        | some r =>
          rw [GoToBookmark_of_found C w bm r h0 hw hl] at hne
          exact absurd rfl hne
  · intro hw
    by_cases h0 : bm.filename = ""
    · rw [GoToBookmark_of_unset C w bm h0]
    · rw [GoToBookmark_of_not_wellFormed C w bm h0 hw]
  · intro r h0 hw hl
    have hb : (GoToBookmark C w bm).2 = bm := by
      rw [GoToBookmark_of_found C w bm r h0 hw hl]
    refine ⟨hb, ?_, ?_, ?_⟩
    · rw [GoToBookmark_of_found C w bm r h0 hw hl]
    · intro hu
      exact (hlog w r h0 hw hl hu).2
    · intro r2 hu hw2 hl2
      rw [hb]
      exact hlog _ r2 h0 hw2 hl2 hu

theorem GoToBookmark_found_keeps_bookmark_witness :
    (GoToBookmark (fixedCollaborators none true [htmlResource "Section0001.xhtml" []])
        (windowWith sampleBookmark) sampleBookmark).2 = sampleBookmark ∧
    (GoToBookmark (fixedCollaborators none true [htmlResource "Section0001.xhtml" []])
        (windowWith sampleBookmark) sampleBookmark).1.log =
      (windowWith sampleBookmark).log ++
        [.IsAllTabDataWellFormed, .GetResourceByFilename "Section0001.xhtml",
         .TabManager_OpenResource (htmlResource "Section0001.xhtml" []) false ""
           .ViewState_CodeView (-1) 42 "" true] :=
  ⟨((GoToBookmark_found_keeps_bookmark
      (fixedCollaborators none true [htmlResource "Section0001.xhtml" []])
      (windowWith sampleBookmark) sampleBookmark).2.2
      (htmlResource "Section0001.xhtml" []) (by decide) rfl (by decide)).1,
   ((GoToBookmark_found_keeps_bookmark
      (fixedCollaborators none true [htmlResource "Section0001.xhtml" []])
      (windowWith sampleBookmark) sampleBookmark).2.2
      (htmlResource "Section0001.xhtml" []) (by decide) rfl (by decide)).2.2.1 (by decide)⟩

/-- C14: capture overwrites the bookmark unconditionally: the bookmark after
`BookmarkLinkOrStyleLocation` does not depend on the bookmark before it, and with a current
tab it consists of the filename of the tab's resource, the current `m_ViewState`, the tab's
cursor position and the tab's caret location (without a current tab it is the unset
bookmark). -/
theorem BookmarkLinkOrStyleLocation_overwrites {σ : Type} (C : Collaborators σ)
    (w : WindowState σ) :
    (∀ b : LocationBookmark,
      (BookmarkLinkOrStyleLocation C
        { w with m_LinkOrStyleBookmark := b }).m_LinkOrStyleBookmark
      = (BookmarkLinkOrStyleLocation C w).m_LinkOrStyleBookmark) ∧
    (∀ tab : LoadedTab, C.GetCurrentContentTab w.ext = some tab →
      (BookmarkLinkOrStyleLocation C w).m_LinkOrStyleBookmark =
        { filename := tab.GetLoadedResource.Filename
          view_state := w.mw.m_ViewState
          bv_caret_location_update := tab.GetCaretLocationUpdate
          cv_cursor_position := tab.GetCursorPosition }) ∧
    (C.GetCurrentContentTab w.ext = none →
      (BookmarkLinkOrStyleLocation C w).m_LinkOrStyleBookmark =
        { filename := ""
          view_state := .ViewState_Unknown
          bv_caret_location_update := ""
          cv_cursor_position := -1 }) := by
  refine ⟨BookmarkLinkOrStyleLocation_independent C w, ?_, ?_⟩
  · intro tab ht
    rw [BookmarkLinkOrStyleLocation_bookmark, ht]
  · intro ht
    rw [BookmarkLinkOrStyleLocation_bookmark, ht]
    rfl

theorem BookmarkLinkOrStyleLocation_overwrites_witness :
    (BookmarkLinkOrStyleLocation
        (fixedCollaborators (some (htmlTab "Section0002.xhtml")) true [])
        (windowWith sampleBookmark)).m_LinkOrStyleBookmark =
      { filename := "Section0002.xhtml"
        view_state := .ViewState_BookView
        bv_caret_location_update := ""
        cv_cursor_position := 7 } :=
  (BookmarkLinkOrStyleLocation_overwrites
    (fixedCollaborators (some (htmlTab "Section0002.xhtml")) true [])
    (windowWith sampleBookmark)).2.1 (htmlTab "Section0002.xhtml") rfl

/-! ## Merge -/

/-- C20: `MergeResources` called with exactly one resource that has no predecessor in spine
order (`PreviousResource` returns null or the resource itself) shows a warning and returns
without any mutation: the window state is unchanged except for the record of calls, which
gains only the `PreviousResource` query and the warning box, so no tab data is saved, no tab
is closed, the underlying merge is not invoked and nothing is opened. -/
theorem MergeResources_single_without_previous {σ : Type} (C : Collaborators σ)
    (w : WindowState σ) (resource : Resource) (button_pressed_Ok : Bool)
    (h : C.Book_PreviousResource w.ext resource = none ∨
      C.Book_PreviousResource w.ext resource = some resource) :
    MergeResources C w [resource] button_pressed_Ok =
      { w with log := w.log ++
          [.Book_PreviousResource resource,
           .QMessageBox_warning
             "One resource selected and there is no previous resource to merge into."] } ∧
    (MergeResources C w [resource] button_pressed_Ok).ext = w.ext ∧
    (MergeResources C w [resource] button_pressed_Ok).mw = w.mw ∧
    (∀ e ∈ (MergeResources C w [resource] button_pressed_Ok).log, e ∈ w.log ∨
      e = .Book_PreviousResource resource ∨
      e = .QMessageBox_warning
        "One resource selected and there is no previous resource to merge into.") := by
  have key : MergeResources C w [resource] button_pressed_Ok =
      { w with log := w.log ++
          [.Book_PreviousResource resource,
           .QMessageBox_warning
             "One resource selected and there is no previous resource to merge into."] } := by
    unfold MergeResources
    rcases h with h | h
    · simp [record_ext, h, WindowState.record]
    · simp [record_ext, h, WindowState.record]
  rw [key]
  refine ⟨rfl, rfl, rfl, ?_⟩
  intro e he
  simp only [List.mem_append, List.mem_cons, List.mem_singleton, List.not_mem_nil,
    or_false] at he
  exact he

theorem MergeResources_single_without_previous_witness :
    MergeResources (fixedCollaborators none true []) (windowWith sampleBookmark)
        [htmlResource "Section0001.xhtml" []] true =
      { windowWith sampleBookmark with log := (windowWith sampleBookmark).log ++
          [.Book_PreviousResource (htmlResource "Section0001.xhtml" []),
           .QMessageBox_warning
             "One resource selected and there is no previous resource to merge into."] } :=
  (MergeResources_single_without_previous (fixedCollaborators none true [])
    (windowWith sampleBookmark) (htmlResource "Section0001.xhtml" []) true (Or.inl rfl)).1

/-! ## Stylesheet link reconciliation -/

theorem erase_filter_of_not (good : String → Bool) (p : String) (hp : good p = false) :
    ∀ l : List String, (l.erase p).filter good = l.filter good := by
  intro l
  induction l with
  | nil => rfl
  | cons a t ih =>
    by_cases h : a = p
    · subst h
      rw [List.erase_cons_head, List.filter_cons_of_neg (by simp [hp])]
    · rw [List.erase_cons_tail (by simpa using h)]
      by_cases hg : good a = true
      · rw [List.filter_cons_of_pos hg, List.filter_cons_of_pos hg, ih]
      · rw [List.filter_cons_of_neg hg, List.filter_cons_of_neg hg, ih]

theorem foldl_erase_eq_filter (good : String → Bool) :
    ∀ (it cur : List String), (∀ p, good p = false → it.count p = cur.count p) →
      it.foldl (fun current path => if !good path then current.erase path else current) cur
        = cur.filter good := by
  intro it
  induction it with
  | nil =>
    intro cur h
    rw [List.foldl_nil]
    symm
    rw [List.filter_eq_self]
    intro a ha
    by_contra hg
    have h0 := h a (by simpa using hg)
    rw [List.count_nil] at h0
    exact absurd ha (List.count_eq_zero.mp h0.symm)
  | cons a it ih =>
    intro cur h
    rw [List.foldl_cons]
    by_cases hg : good a = true
    · simp only [hg, Bool.not_true, Bool.false_eq_true, if_false]
      apply ih
      intro p hp
      have h1 := h p hp
      have hne : a ≠ p := by
        intro hap
        rw [hap, hp] at hg
        exact absurd hg (by decide)
      rw [List.count_cons_of_ne hne.symm] at h1
      exact h1
    · have hg2 : good a = false := by simpa using hg
      simp only [hg2, Bool.not_false, if_true]
      rw [ih (cur.erase a), erase_filter_of_not good a hg2]
      intro p hp
      have h1 := h p hp
      by_cases hap : a = p
      · subst hap
        rw [List.count_cons_self] at h1
        rw [List.count_erase_self]
        omega
      · rw [List.count_cons_of_ne (Ne.symm hap)] at h1
        rw [List.count_erase_of_ne (Ne.symm hap)]
        exact h1

theorem removeUnlinked_eq (linked_paths checked : List String) :
    removeUnlinked linked_paths checked
      = checked.filter (fun p => linked_paths.contains p) := by
  unfold removeUnlinked
  exact foldl_erase_eq_filter (fun p => linked_paths.contains p) checked checked
    (fun _ _ => rfl)

theorem GetStylesheetsAlreadyLinked_html (css : List Resource) (r : Resource)
    (h : r.type = .HTMLResourceType) :
    GetStylesheetsAlreadyLinked css r = some (filteredLinks css r) := by
  unfold GetStylesheetsAlreadyLinked filteredLinks
  rw [if_pos h]

theorem checkLinkedPaths_eq (css : List Resource) :
    ∀ (rs : List Resource) (checked : List String),
      (∀ r ∈ rs, r.type = .HTMLResourceType) →
      checkLinkedPaths css rs checked
        = some (checked.filter
            (fun p => rs.all (fun r => (filteredLinks css r).contains p))) := by
  intro rs
  induction rs with
  | nil =>
    intro checked _
    unfold checkLinkedPaths
    simp
  | cons r rest ih =>
    intro checked h
    unfold checkLinkedPaths
    rw [GetStylesheetsAlreadyLinked_html css r (h r (List.mem_cons_self r rest))]
    simp only
    rw [ih _ (fun x hx => h x (List.mem_cons_of_mem r hx)), removeUnlinked_eq,
      List.filter_filter]
    congr 1
    apply List.filter_congr
    intro p _
    rw [List.all_cons, Bool.and_comm]

theorem GetStylesheetsMap_eq (css : List Resource) (first : Resource) (rest : List Resource)
    (h : ∀ r ∈ first :: rest, r.type = .HTMLResourceType) :
    GetStylesheetsMap css (first :: rest)
      = some (stylesheetsMapReference css (filteredLinks css) first (first :: rest)) := by
  unfold GetStylesheetsMap
  simp only
  rw [GetStylesheetsAlreadyLinked_html css first (h first (List.mem_cons_self first rest))]
  simp only
  rw [checkLinkedPaths_eq css (first :: rest) _ h]
  rfl

theorem includedPaths_append (xs ys : List String) :
    includedPaths (xs.map (fun p => (p, true)) ++ ys.map (fun q => (q, false))) = xs := by
  unfold includedPaths
  rw [List.filter_append, List.map_append]
  have h1 : (xs.map (fun p => (p, true))).filter (fun entry => entry.2)
      = xs.map (fun p => (p, true)) := by
    rw [List.filter_eq_self]
    intro a ha
    rw [List.mem_map] at ha
    obtain ⟨x, _, rfl⟩ := ha
    rfl
  have h2 : (ys.map (fun q => (q, false))).filter (fun entry => entry.2) = [] := by
    rw [List.filter_eq_nil_iff]
    intro a ha
    rw [List.mem_map] at ha
    obtain ⟨y, _, rfl⟩ := ha
    simp
  rw [h1, h2, List.map_nil, List.append_nil, List.map_map]
  exact List.map_id _

theorem includedPaths_reference (css : List Resource) (linked : Resource → List String)
    (first : Resource) (rs : List Resource) :
    includedPaths (stylesheetsMapReference css linked first rs)
      = (linked first).filter (fun p => rs.all (fun r => (linked r).contains p)) := by
  unfold stylesheetsMapReference
  exact includedPaths_append _ _

theorem contains_iff_mem (l : List String) (p : String) : l.contains p = true ↔ p ∈ l :=
  List.elem_iff

theorem filteredLinks_sub (css : List Resource) (r : Resource) (p : String)
    (h : p ∈ filteredLinks css r) :
    ∃ c ∈ css, p = "../" ++ c.GetRelativePathToOEBPS := by
  unfold filteredLinks at h
  rw [List.mem_filter] at h
  have h2 := h.2
  rw [contains_iff_mem, List.mem_map] at h2
  obtain ⟨c, hc, rfl⟩ := h2
  exact ⟨c, hc, rfl⟩

theorem stylesheetsMapReference_congr (css : List Resource) (l1 l2 : Resource → List String)
    (first : Resource) (rs : List Resource) (h1 : l1 first = l2 first)
    (h : ∀ r ∈ rs, l1 r = l2 r) :
    stylesheetsMapReference css l1 first rs = stylesheetsMapReference css l2 first rs := by
  have hall : ∀ p : String, rs.all (fun r => (l1 r).contains p)
      = rs.all (fun r => (l2 r).contains p) := by
    intro p
    induction rs with
    | nil => rfl
    | cons a t ih =>
      rw [List.all_cons, List.all_cons, h a (List.mem_cons_self a t),
        ih (fun r hr => h r (List.mem_cons_of_mem a hr))]
  unfold stylesheetsMapReference
  simp only [h1, hall]

/-- C15: for every non-empty group of HTML resources the paths flagged `included = true` by
`GetStylesheetsMap` form a subsequence of the first resource's filtered link list; and for
a group where resource A links `[x, y, z]` and resource B links `[y, z]`, with `x`, `y`, `z`
existing stylesheets and `x` different from `y` and `z`, the included paths are exactly
`[y, z]`, in that order. -/
theorem GetStylesheetsMap_included_sublist :
    (∀ (css : List Resource) (first : Resource) (rest : List Resource),
      (∀ r ∈ first :: rest, r.type = .HTMLResourceType) →
      ∃ out, GetStylesheetsMap css (first :: rest) = some out ∧
        (includedPaths out).Sublist (filteredLinks css first) ∧
        GetStylesheetsAlreadyLinked css first = some (filteredLinks css first)) ∧
    (∀ (css : List Resource) (A B : Resource) (x y z : String),
      A.type = .HTMLResourceType → B.type = .HTMLResourceType →
      A.GetLinkedStylesheets = [x, y, z] → B.GetLinkedStylesheets = [y, z] →
      x ∈ css.map stylesheetPath → y ∈ css.map stylesheetPath →
      z ∈ css.map stylesheetPath → x ≠ y → x ≠ z →
      ∃ out, GetStylesheetsMap css [A, B] = some out ∧ includedPaths out = [y, z]) := by
  constructor
  · intro css first rest h
    refine ⟨_, GetStylesheetsMap_eq css first rest h, ?_,
      GetStylesheetsAlreadyLinked_html css first (h first (List.mem_cons_self first rest))⟩
    rw [includedPaths_reference]
    exact List.filter_sublist _
  · intro css A B x y z hA hB lA lB hx hy hz hxy hxz
    have h : ∀ r ∈ [A, B], r.type = .HTMLResourceType := by
      intro r hr
      simp only [List.mem_cons, List.mem_singleton, List.not_mem_nil, or_false] at hr
      rcases hr with rfl | rfl
      · exact hA
      · exact hB
    refine ⟨_, GetStylesheetsMap_eq css A [B] h, ?_⟩
    rw [includedPaths_reference]
    have cx := (contains_iff_mem _ _).mpr hx
    have cy := (contains_iff_mem _ _).mpr hy
    have cz := (contains_iff_mem _ _).mpr hz
    have fA : filteredLinks css A = [x, y, z] := by
      unfold filteredLinks
      rw [lA, List.filter_cons_of_pos cx, List.filter_cons_of_pos cy,
        List.filter_cons_of_pos cz, List.filter_nil]
    have fB : filteredLinks css B = [y, z] := by
      unfold filteredLinks
      rw [lB, List.filter_cons_of_pos cy, List.filter_cons_of_pos cz, List.filter_nil]
    rw [fA]
    simp [fA, fB, hxy, hxz]

theorem GetStylesheetsMap_included_sublist_witness :
    ∃ out, GetStylesheetsMap [cssResource "x.css", cssResource "y.css", cssResource "z.css"]
        [htmlResource "A.html" ["../Styles/x.css", "../Styles/y.css", "../Styles/z.css"],
         htmlResource "B.html" ["../Styles/y.css", "../Styles/z.css"]] = some out ∧
      includedPaths out = ["../Styles/y.css", "../Styles/z.css"] :=
  GetStylesheetsMap_included_sublist.2
    [cssResource "x.css", cssResource "y.css", cssResource "z.css"]
    (htmlResource "A.html" ["../Styles/x.css", "../Styles/y.css", "../Styles/z.css"])
    (htmlResource "B.html" ["../Styles/y.css", "../Styles/z.css"])
    "../Styles/x.css" "../Styles/y.css" "../Styles/z.css" rfl rfl rfl rfl
    (by decide) (by decide) (by decide) (by decide) (by decide)

/-- C16: for every non-empty group `rs` of HTML resources `GetStylesheetsMap` equals its
reference definition: with `L r` the result of `GetStylesheetsAlreadyLinked` for `r`, the
survivors are the elements of `L rs[0]`, in order, that occur in `L r` for every `r` of the
group; the output is the survivors flagged `true` followed by every stylesheet path of the
collection that is not a survivor, in collection order, flagged `false`.  No path is
required to occur only once. -/
theorem GetStylesheetsMap_eq_reference (css : List Resource) (first : Resource)
    (rest : List Resource) (h : ∀ r ∈ first :: rest, r.type = .HTMLResourceType) :
    GetStylesheetsMap css (first :: rest) =
      some (stylesheetsMapReference css
        (fun r => (GetStylesheetsAlreadyLinked css r).getD []) first (first :: rest)) := by
  rw [GetStylesheetsMap_eq css first rest h]
  congr 1
  apply stylesheetsMapReference_congr
  · show filteredLinks css first = (GetStylesheetsAlreadyLinked css first).getD []
    rw [GetStylesheetsAlreadyLinked_html css first (h first (List.mem_cons_self first rest))]
    rfl
  · intro r hr
    show filteredLinks css r = (GetStylesheetsAlreadyLinked css r).getD []
    rw [GetStylesheetsAlreadyLinked_html css r (h r hr)]
    rfl

theorem GetStylesheetsMap_eq_reference_witness :
    GetStylesheetsMap [cssResource "a.css", cssResource "b.css"]
        [htmlResource "A.html" ["../Styles/a.css", "../Styles/b.css", "../Styles/a.css"],
         htmlResource "B.html" ["../Styles/b.css"]] =
      some (stylesheetsMapReference [cssResource "a.css", cssResource "b.css"]
        (fun r => (GetStylesheetsAlreadyLinked [cssResource "a.css", cssResource "b.css"]
          r).getD [])
        (htmlResource "A.html" ["../Styles/a.css", "../Styles/b.css", "../Styles/a.css"])
        [htmlResource "A.html" ["../Styles/a.css", "../Styles/b.css", "../Styles/a.css"],
         htmlResource "B.html" ["../Styles/b.css"]]) :=
  GetStylesheetsMap_eq_reference [cssResource "a.css", cssResource "b.css"]
    (htmlResource "A.html" ["../Styles/a.css", "../Styles/b.css", "../Styles/a.css"])
    [htmlResource "B.html" ["../Styles/b.css"]] (by decide)

/-- C17 (failing input): resource A links `[y, z]` and resource B links `[z, y]`, both
stylesheets exist.  `GetStylesheetsMap` flags `y` and `z` as included, in the order
`[y, z]`, although in B's link list no occurrence of `y` comes before an occurrence of
`z`. -/
theorem GetStylesheetsMap_ignores_order :
    GetStylesheetsMap [cssResource "y.css", cssResource "z.css"]
        [htmlResource "A.html" ["../Styles/y.css", "../Styles/z.css"],
         htmlResource "B.html" ["../Styles/z.css", "../Styles/y.css"]]
      = some [("../Styles/y.css", true), ("../Styles/z.css", true)] ∧
    occursBefore "../Styles/y.css" "../Styles/z.css"
      (htmlResource "B.html" ["../Styles/z.css", "../Styles/y.css"]).GetLinkedStylesheets
      = false := by
  decide

/-- C18: for a group consisting of a single HTML resource `r`, `GetStylesheetsMap` returns
every path of `r`'s link list that resolves to an existing stylesheet, in `r`'s order,
flagged `true`, followed by every other stylesheet of the collection, in collection order,
flagged `false`. -/
theorem GetStylesheetsMap_single (css : List Resource) (r : Resource)
    (h : r.type = .HTMLResourceType) :
    GetStylesheetsMap css [r] =
      some ((r.GetLinkedStylesheets.filter
              (fun p => (css.map stylesheetPath).contains p)).map (fun p => (p, true))
        ++ ((css.map stylesheetPath).filter
              (fun q => !(r.GetLinkedStylesheets.filter
                (fun p => (css.map stylesheetPath).contains p)).contains q)).map
            (fun q => (q, false))) := by
  rw [GetStylesheetsMap_eq css r [] (by
    intro x hx
    rw [List.mem_singleton] at hx
    rw [hx]
    exact h)]
  unfold stylesheetsMapReference
  have hs : (filteredLinks css r).filter
        (fun p => [r].all (fun x => (filteredLinks css x).contains p))
      = filteredLinks css r := by
    rw [List.filter_eq_self]
    intro a ha
    simp [ha]
  simp only [hs]
  rfl

theorem GetStylesheetsMap_single_witness :
    GetStylesheetsMap [cssResource "a.css", cssResource "b.css"]
        [htmlResource "A.html" ["../Styles/b.css", "../Styles/gone.css"]] =
      some [("../Styles/b.css", true), ("../Styles/a.css", false)] :=
  (GetStylesheetsMap_single [cssResource "a.css", cssResource "b.css"]
    (htmlResource "A.html" ["../Styles/b.css", "../Styles/gone.css"]) rfl).trans (by decide)

/-- C19: dangling links are dropped: for an HTML resource `r`,
`GetStylesheetsAlreadyLinked(r)` is exactly `r`'s link list filtered, in order and with
multiplicity, to the paths equal to `"../"` followed by the relative path of some CSS
resource of the collection; consequently every path in the output of `GetStylesheetsMap`,
included or not, resolves to an existing CSS resource. -/
theorem GetStylesheetsAlreadyLinked_drops_dangling :
    (∀ (css : List Resource) (r : Resource), r.type = .HTMLResourceType →
      GetStylesheetsAlreadyLinked css r =
        some (r.GetLinkedStylesheets.filter
          (fun p => decide (∃ c ∈ css, p = "../" ++ c.GetRelativePathToOEBPS)))) ∧
    (∀ (css : List Resource) (first : Resource) (rest : List Resource),
      (∀ r ∈ first :: rest, r.type = .HTMLResourceType) →
      ∃ out, GetStylesheetsMap css (first :: rest) = some out ∧
        ∀ e ∈ out, ∃ c ∈ css, e.1 = "../" ++ c.GetRelativePathToOEBPS) := by
  constructor
  · intro css r h
    rw [GetStylesheetsAlreadyLinked_html css r h]
    unfold filteredLinks
    congr 1
    apply List.filter_congr
    intro p _
    rw [Bool.eq_iff_iff, contains_iff_mem, List.mem_map, decide_eq_true_iff]
    constructor
    · rintro ⟨c, hc, rfl⟩
      exact ⟨c, hc, rfl⟩
    · rintro ⟨c, hc, rfl⟩
      exact ⟨c, hc, rfl⟩
  · intro css first rest h
    refine ⟨_, GetStylesheetsMap_eq css first rest h, ?_⟩
    intro e he
    unfold stylesheetsMapReference at he
    simp only [List.mem_append, List.mem_map, List.mem_filter] at he
    rcases he with ⟨p, ⟨hp, _⟩, rfl⟩ | ⟨q, ⟨hq, _⟩, rfl⟩
    · exact filteredLinks_sub css first p hp
    · obtain ⟨c, hc, rfl⟩ := hq
      exact ⟨c, hc, rfl⟩

theorem GetStylesheetsAlreadyLinked_drops_dangling_witness :
    GetStylesheetsAlreadyLinked [cssResource "a.css", cssResource "b.css"]
        (htmlResource "A.html" ["../Styles/b.css", "../Styles/gone.css", "../Styles/b.css"])
      = some ["../Styles/b.css", "../Styles/b.css"] :=
  (GetStylesheetsAlreadyLinked_drops_dangling.1 [cssResource "a.css", cssResource "b.css"]
    (htmlResource "A.html" ["../Styles/b.css", "../Styles/gone.css", "../Styles/b.css"])
    rfl).trans (by decide)

/-! ## Merge: refused close and partial failure -/

theorem closeTabs_eq {σ : Type} (C : Collaborators σ) (L : List Resource) :
    ∀ w : WindowState σ, (closeTabsForResources C w L).1.ext = (closeTabsFrom C w.ext L).1 ∧
      (closeTabsForResources C w L).2 = (closeTabsFrom C w.ext L).2 := by
  induction L with
  | nil => intro w; exact ⟨rfl, rfl⟩
  | cons r rest ih =>
    intro w
    unfold closeTabsForResources closeTabsFrom
    simp only
    split_ifs with h
    · exact ⟨rfl, rfl⟩
    · exact ih _

theorem closeTabs_log {σ : Type} (C : Collaborators σ) (L : List Resource) :
    ∀ w : WindowState σ, ∃ closed : List Resource,
      (closeTabsForResources C w L).1.log =
        w.log ++ closed.map Event.TabManager_CloseTabForResource ∧
      ((closeTabsFrom C w.ext L).2 = none → closed = L) := by
  induction L with
  | nil => intro w; exact ⟨[], by simp [closeTabsForResources], fun _ => rfl⟩
  | cons r rest ih =>
    intro w
    unfold closeTabsForResources closeTabsFrom
    simp only
    split_ifs with h
    · exact ⟨[r], by simp [WindowState.record], fun hn => by simp at hn⟩
    · obtain ⟨closed, h1, h2⟩ := ih
        { (w.record (.TabManager_CloseTabForResource r)) with
          ext := (C.TabManager_CloseTabForResource w.ext r).2 }
      refine ⟨r :: closed, ?_, ?_⟩
      · rw [h1]
        simp [WindowState.record]
      · intro hn
        rw [h2 hn]

theorem closeTabs_mw {σ : Type} (C : Collaborators σ) (L : List Resource) :
    ∀ w : WindowState σ, (closeTabsForResources C w L).1.mw = w.mw := by
  induction L with
  | nil => intro w; rfl
  | cons r rest ih =>
    intro w
    unfold closeTabsForResources
    simp only
    split_ifs with h
    · rfl
    · rw [ih]
      rfl

theorem MergeResources_selected {σ : Type} (C : Collaborators σ) (w : WindowState σ)
    (resources : List Resource) (ok : Bool) (L : List Resource)
    (h : mergeList C w.ext resources ok = some L) :
    ∃ (w1 : WindowState σ) (pre : List Event) (hd : Resource) (tl : List Resource),
      w1.ext = w.ext ∧ w1.mw = w.mw ∧ w1.log = w.log ++ pre ∧
      (∀ e ∈ pre, (∃ r, e = .Book_PreviousResource r) ∨ ∃ t, e = .QMessageBox_warning t) ∧
      L = hd :: tl ∧
      MergeResources C w resources ok =
        (if !C.IsAllTabDataWellFormed w.ext then
          ShowMessageOnStatusBar (w1.record .IsAllTabDataWellFormed)
            "Merge cancelled due to XML not well formed."
        else
          match closeTabsForResources C (SaveTabData C (w1.record .IsAllTabDataWellFormed)) L
          with
          | (w4, some resource) =>
            w4.record (.QMessageBox_critical
              ("Cannot merge\n\nCannot close tab: " ++ resource.Filename))
          | (w4, none) =>
            let w5 := w4.record (.Book_MergeResources L)
            let merged := C.Book_MergeResources w5.ext L
            let w6 : WindowState σ := { w5 with ext := merged.2 }
            let opened : WindowState σ :=
              match merged.1 with
              | some failed_resource =>
                OpenResourceDefault C
                  (w6.record (.QMessageBox_critical
                    ("Cannot merge file " ++ failed_resource.Filename)))
                  failed_resource
              | none =>
                OpenResourceDefault C
                  { (w6.record .BookBrowser_Refresh) with
                    ext := C.BookBrowser_Refresh w6.ext }
                  hd
            ShowMessageOnStatusBar (UpdateBrowserSelectionToTab C opened)
              "Merge completed. You may need to regenerate or edit your Table Of Contents.") := by
  match resources, h with
  | [], h => simp [mergeList] at h
  | [first], h =>
    simp only [mergeList, List.length_singleton, if_true] at h
    cases hp : C.Book_PreviousResource w.ext first with
    | none => rw [hp] at h; simp at h
    | some p =>
      rw [hp] at h
      simp only at h
      by_cases hpf : p = first
      · rw [if_pos hpf] at h; simp at h
      · rw [if_neg hpf] at h
        simp only [Option.some.injEq] at h
        refine ⟨w.record (.Book_PreviousResource first), [.Book_PreviousResource first], p,
          [first], rfl, rfl, rfl, ?_, h.symm, ?_⟩
        · intro e he
          simp only [List.mem_singleton] at he
          exact Or.inl ⟨first, he⟩
        · subst h
          unfold MergeResources
          simp only [List.length_singleton, if_true, record_ext, hp, if_neg hpf,
            List.headD_cons]
  | first :: second :: rest, h =>
    have hlen : ¬ ((first :: second :: rest).length = 1) := by simp
    simp only [mergeList, if_neg hlen] at h
    cases ok with
    | false => simp at h
    | true =>
      simp only [Bool.not_true, Bool.false_eq_true, if_false, Option.some.injEq] at h
      refine ⟨w.record (.QMessageBox_warning
          "Are you sure you want to merge the selected files?\nThis action cannot be reversed."),
        [.QMessageBox_warning
          "Are you sure you want to merge the selected files?\nThis action cannot be reversed."],
        first, second :: rest, rfl, rfl, rfl, ?_, h.symm, ?_⟩
      · intro e he
        simp only [List.mem_singleton] at he
        exact Or.inr ⟨_, he⟩
      · subst h
        unfold MergeResources
        simp only [if_neg hlen, Bool.not_true, Bool.false_eq_true, if_false, record_ext,
          List.headD_cons]

theorem callsSince_of_log {σ : Type} (w w2 : WindowState σ) (l : List Event)
    (h : w2.log = w.log ++ l) : callsSince w w2 = l := by
  unfold callsSince
  rw [h]
  exact List.drop_left _ _

theorem ShowMessageOnStatusBar_log {σ : Type} (w : WindowState σ) (m : String)
    (h : m ≠ "") : (ShowMessageOnStatusBar w m).log = w.log ++ [.StatusBar_showMessage m] := by
  unfold ShowMessageOnStatusBar
  rw [if_neg h]
  rfl

theorem UpdateBrowserSelectionToTab_log {σ : Type} (C : Collaborators σ) (w : WindowState σ) :
    ∃ sel : List Event, (UpdateBrowserSelectionToTab C w).log = w.log ++ sel ∧
      ∀ e ∈ sel, ∃ r, e = .BookBrowser_UpdateSelection r := by
  unfold UpdateBrowserSelectionToTab
  cases C.GetCurrentContentTab w.ext with
  | none => exact ⟨[], by simp, by simp⟩
  | some tab =>
    refine ⟨[.BookBrowser_UpdateSelection tab.GetLoadedResource], rfl, ?_⟩
    intro e he
    simp only [List.mem_singleton] at he
    exact ⟨_, he⟩

/-- The call by which `OpenResource(resource)` with defaulted arguments reaches the tab
manager when the window is in view state `vs`. -/
theorem OpenResourceDefault_log {σ : Type} (C : Collaborators σ) (w : WindowState σ)
    (r : Resource) :
    (OpenResourceDefault C w r).log = w.log ++ [.TabManager_OpenResource r
      C.OpenResource_defaults.precede_current_tab C.OpenResource_defaults.fragment
      (if C.OpenResource_defaults.view_state ≠ .ViewState_Unknown then
        C.OpenResource_defaults.view_state else w.mw.m_ViewState)
      C.OpenResource_defaults.line_to_scroll_to C.OpenResource_defaults.position_to_scroll_to
      C.OpenResource_defaults.caret_location_to_scroll_to
      C.OpenResource_defaults.grab_focus] := by
  unfold OpenResourceDefault
  exact OpenResource_log _ _ _ _ _ _ _ _ _ _

theorem MergeResources_not_wellFormed_calls {σ : Type} (C : Collaborators σ)
    (w : WindowState σ) (resources : List Resource) (ok : Bool) (L : List Resource)
    (h : mergeList C w.ext resources ok = some L)
    (hwf : C.IsAllTabDataWellFormed w.ext = false) :
    ∃ pre : List Event,
      (∀ e ∈ pre, (∃ r, e = .Book_PreviousResource r) ∨ ∃ t, e = .QMessageBox_warning t) ∧
      callsSince w (MergeResources C w resources ok) =
        pre ++ [.IsAllTabDataWellFormed,
          .StatusBar_showMessage "Merge cancelled due to XML not well formed."] ∧
      (MergeResources C w resources ok).ext = w.ext ∧
      (MergeResources C w resources ok).mw = w.mw := by
  obtain ⟨w1, pre, hd, tl, e1, e2, e3, hpre, _, hM⟩ := MergeResources_selected C w resources ok L h
  rw [hM, hwf]
  simp only [Bool.not_false, if_true]
  refine ⟨pre, hpre, ?_, ?_, ?_⟩
  · apply callsSince_of_log
    rw [ShowMessageOnStatusBar_log _ _ (by decide), record_log, e3]
    simp
  · unfold ShowMessageOnStatusBar
    rw [if_neg (by decide)]
    simp only [record_ext, e1]
  · unfold ShowMessageOnStatusBar
    rw [if_neg (by decide)]
    simp only [record_mw, e2]

theorem MergeResources_refused_calls {σ : Type} (C : Collaborators σ)
    (w : WindowState σ) (resources : List Resource) (ok : Bool) (L : List Resource)
    (refused : Resource)
    (h : mergeList C w.ext resources ok = some L)
    (hwf : C.IsAllTabDataWellFormed w.ext = true)
    (hr : (closeTabsFrom C (C.TabManager_SaveTabData w.ext) L).2 = some refused) :
    ∃ (pre : List Event) (closed : List Resource),
      (∀ e ∈ pre, (∃ r, e = .Book_PreviousResource r) ∨ ∃ t, e = .QMessageBox_warning t) ∧
      callsSince w (MergeResources C w resources ok) =
        pre ++ [.IsAllTabDataWellFormed, .TabManager_SaveTabData] ++
          closed.map Event.TabManager_CloseTabForResource ++
          [.QMessageBox_critical ("Cannot merge\n\nCannot close tab: " ++ refused.Filename)] := by
  obtain ⟨w1, pre, hd, tl, e1, e2, e3, hpre, _, hM⟩ := MergeResources_selected C w resources ok L h
  rw [hM, hwf]
  simp only [Bool.not_true, Bool.false_eq_true, if_false]
  have hs : (SaveTabData C (w1.record .IsAllTabDataWellFormed)).ext =
      C.TabManager_SaveTabData w.ext := by
    simp only [SaveTabData, record_ext, e1]
  obtain ⟨closed, hlog, _⟩ := closeTabs_log C L (SaveTabData C (w1.record .IsAllTabDataWellFormed))
  have h2 := (closeTabs_eq C L (SaveTabData C (w1.record .IsAllTabDataWellFormed))).2
  rw [hs, hr] at h2
  refine ⟨pre, closed, hpre, ?_⟩
  rcases hc : closeTabsForResources C (SaveTabData C (w1.record .IsAllTabDataWellFormed)) L
    with ⟨w4, o⟩
  rw [hc] at h2 hlog
  simp only at h2 hlog
  subst h2
  simp only
  apply callsSince_of_log
  rw [record_log, hlog]
  simp [SaveTabData, WindowState.record, e3]

theorem MergeResources_closed_calls {σ : Type} (C : Collaborators σ)
    (w : WindowState σ) (resources : List Resource) (ok : Bool) (L : List Resource)
    (h : mergeList C w.ext resources ok = some L)
    (hwf : C.IsAllTabDataWellFormed w.ext = true)
    (hr : (closeTabsFrom C (C.TabManager_SaveTabData w.ext) L).2 = none) :
    ∃ (pre sel : List Event) (hd : Resource) (tl : List Resource),
      (∀ e ∈ pre, (∃ r, e = .Book_PreviousResource r) ∨ ∃ t, e = .QMessageBox_warning t) ∧
      (∀ e ∈ sel, ∃ r, e = .BookBrowser_UpdateSelection r) ∧
      L = hd :: tl ∧
      callsSince w (MergeResources C w resources ok) =
        pre ++ [.IsAllTabDataWellFormed, .TabManager_SaveTabData] ++
          L.map Event.TabManager_CloseTabForResource ++ [.Book_MergeResources L] ++
          (match (C.Book_MergeResources
              (closeTabsFrom C (C.TabManager_SaveTabData w.ext) L).1 L).1 with
            | some failed_resource =>
              [.QMessageBox_critical ("Cannot merge file " ++ failed_resource.Filename),
               .TabManager_OpenResource failed_resource
                C.OpenResource_defaults.precede_current_tab C.OpenResource_defaults.fragment
                (if C.OpenResource_defaults.view_state ≠ .ViewState_Unknown then
                  C.OpenResource_defaults.view_state else w.mw.m_ViewState)
                C.OpenResource_defaults.line_to_scroll_to
                C.OpenResource_defaults.position_to_scroll_to
                C.OpenResource_defaults.caret_location_to_scroll_to
                C.OpenResource_defaults.grab_focus]
            | none =>
              [.BookBrowser_Refresh,
               .TabManager_OpenResource hd
                C.OpenResource_defaults.precede_current_tab C.OpenResource_defaults.fragment
                (if C.OpenResource_defaults.view_state ≠ .ViewState_Unknown then
                  C.OpenResource_defaults.view_state else w.mw.m_ViewState)
                C.OpenResource_defaults.line_to_scroll_to
                C.OpenResource_defaults.position_to_scroll_to
                C.OpenResource_defaults.caret_location_to_scroll_to
                C.OpenResource_defaults.grab_focus]) ++ sel ++
          [.StatusBar_showMessage
            "Merge completed. You may need to regenerate or edit your Table Of Contents."] := by
  obtain ⟨w1, pre, hd, tl, e1, e2, e3, hpre, hL, hM⟩ :=
    MergeResources_selected C w resources ok L h
  rw [hM, hwf]
  simp only [Bool.not_true, Bool.false_eq_true, if_false]
  have hs : (SaveTabData C (w1.record .IsAllTabDataWellFormed)).ext =
      C.TabManager_SaveTabData w.ext := by
    simp only [SaveTabData, record_ext, e1]
  obtain ⟨closed, hlog, hcl⟩ :=
    closeTabs_log C L (SaveTabData C (w1.record .IsAllTabDataWellFormed))
  rw [hs] at hcl
  have hclosed := hcl hr
  rw [hclosed] at hlog
  have h1 := (closeTabs_eq C L (SaveTabData C (w1.record .IsAllTabDataWellFormed))).1
  have h2 := (closeTabs_eq C L (SaveTabData C (w1.record .IsAllTabDataWellFormed))).2
  have hmw := closeTabs_mw C L (SaveTabData C (w1.record .IsAllTabDataWellFormed))
  rw [hs] at h1 h2
  rw [hr] at h2
  rcases hc : closeTabsForResources C (SaveTabData C (w1.record .IsAllTabDataWellFormed)) L
    with ⟨w4, o⟩
  rw [hc] at h1 h2 hlog hmw
  simp only at h1 h2 hlog hmw
  subst h2
  simp only [record_ext, h1]
  have hmw4 : w4.mw = w.mw := by
    rw [hmw]
    simp only [SaveTabData, record_mw, e2]
  cases hm : (C.Book_MergeResources (closeTabsFrom C (C.TabManager_SaveTabData w.ext) L).1 L).1
    with
  | some failed =>
    simp only
    obtain ⟨sel, hsel, hsel2⟩ := UpdateBrowserSelectionToTab_log C
      (OpenResourceDefault C
        (WindowState.record
          { w4.record (.Book_MergeResources L) with
            ext := (C.Book_MergeResources
              (closeTabsFrom C (C.TabManager_SaveTabData w.ext) L).1 L).2 }
          (.QMessageBox_critical ("Cannot merge file " ++ failed.Filename)))
        failed)
    refine ⟨pre, sel, hd, tl, hpre, hsel2, hL, ?_⟩
    apply callsSince_of_log
    rw [ShowMessageOnStatusBar_log _ _ (by decide), hsel, OpenResourceDefault_log]
    simp [WindowState.record, hlog, SaveTabData, e3, hmw4]
  | none =>
    simp only
    obtain ⟨sel, hsel, hsel2⟩ := UpdateBrowserSelectionToTab_log C
      (OpenResourceDefault C
        { (WindowState.record
          { w4.record (.Book_MergeResources L) with
            ext := (C.Book_MergeResources
              (closeTabsFrom C (C.TabManager_SaveTabData w.ext) L).1 L).2 }
          .BookBrowser_Refresh) with
          ext := C.BookBrowser_Refresh (C.Book_MergeResources
              (closeTabsFrom C (C.TabManager_SaveTabData w.ext) L).1 L).2 }
        hd)
    refine ⟨pre, sel, hd, tl, hpre, hsel2, hL, ?_⟩
    apply callsSince_of_log
    rw [ShowMessageOnStatusBar_log _ _ (by decide), hsel, OpenResourceDefault_log]
    simp [WindowState.record, hlog, SaveTabData, e3, hmw4]

theorem MergeResources_unselected_calls {σ : Type} (C : Collaborators σ)
    (w : WindowState σ) (resources : List Resource) (ok : Bool)
    (h : mergeList C w.ext resources ok = none) :
    ∃ pre : List Event,
      (∀ e ∈ pre, (∃ r, e = .Book_PreviousResource r) ∨ ∃ t, e = .QMessageBox_warning t) ∧
      callsSince w (MergeResources C w resources ok) = pre := by
  match resources, h with
  | [], _ =>
    refine ⟨[], by simp, ?_⟩
    apply callsSince_of_log
    simp [MergeResources]
  | [first], h =>
    refine ⟨[.Book_PreviousResource first, .QMessageBox_warning
      "One resource selected and there is no previous resource to merge into."], ?_, ?_⟩
    · intro e he
      simp only [List.mem_cons, List.mem_singleton, List.not_mem_nil, or_false] at he
      rcases he with he | he
      · exact Or.inl ⟨_, he⟩
      · exact Or.inr ⟨_, he⟩
    · apply callsSince_of_log
      simp only [mergeList, List.length_singleton, if_true] at h
      cases hp : C.Book_PreviousResource w.ext first with
      | none => simp [MergeResources, record_ext, hp, WindowState.record]
      | some p =>
        rw [hp] at h
        simp only at h
        by_cases hpf : p = first
        · simp [MergeResources, record_ext, hp, hpf, WindowState.record]
        · rw [if_neg hpf] at h
          simp at h
  | first :: second :: rest, h =>
    have hlen : ¬ ((first :: second :: rest).length = 1) := by simp
    simp only [mergeList, if_neg hlen] at h
    cases ok with
    | true => simp at h
    | false =>
      refine ⟨[.QMessageBox_warning
        "Are you sure you want to merge the selected files?\nThis action cannot be reversed."],
        ?_, ?_⟩
      · intro e he
        simp only [List.mem_singleton] at he
        exact Or.inr ⟨_, he⟩
      · apply callsSince_of_log
        unfold MergeResources
        simp only [if_neg hlen, Bool.not_false, if_true]
        rfl

/-- C21: when the tab of a resource of the (possibly widened) merge list refuses to close,
`MergeResources` aborts: among the calls it has made there is no `Book::MergeResources`, no
refresh of the book browser and no opening of a resource, and the last call is the error
box naming the refusing resource.  Conversely, whenever `Book::MergeResources` is called,
it is called on the merge list, `CloseTabForResource` has returned true for every resource
of that list, and those closing calls directly precede the merge call. -/
theorem MergeResources_close_refused {σ : Type} (C : Collaborators σ) (w : WindowState σ)
    (resources : List Resource) (button_pressed_Ok : Bool) :
    (∀ L refused, mergeList C w.ext resources button_pressed_Ok = some L →
      C.IsAllTabDataWellFormed w.ext = true →
      (closeTabsFrom C (C.TabManager_SaveTabData w.ext) L).2 = some refused →
      (∀ e ∈ callsSince w (MergeResources C w resources button_pressed_Ok),
        (∀ rs, e ≠ .Book_MergeResources rs) ∧ e ≠ .BookBrowser_Refresh ∧
          e.isOpenResource = false) ∧
      (callsSince w (MergeResources C w resources button_pressed_Ok)).getLast? =
        some (.QMessageBox_critical
          ("Cannot merge\n\nCannot close tab: " ++ refused.Filename))) ∧
    (∀ rs, Event.Book_MergeResources rs ∈
        callsSince w (MergeResources C w resources button_pressed_Ok) →
      mergeList C w.ext resources button_pressed_Ok = some rs ∧
      (closeTabsFrom C (C.TabManager_SaveTabData w.ext) rs).2 = none ∧
      ∃ before after, callsSince w (MergeResources C w resources button_pressed_Ok) =
        before ++ rs.map Event.TabManager_CloseTabForResource ++
          Event.Book_MergeResources rs :: after) := by
  constructor
  · intro L refused hL hwf hr
    obtain ⟨pre, closed, hpre, hcalls⟩ :=
      MergeResources_refused_calls C w resources button_pressed_Ok L refused hL hwf hr
    constructor
    · intro e he
      rw [hcalls] at he
      simp only [List.mem_append, List.mem_cons, List.mem_singleton, List.not_mem_nil,
        or_false, List.mem_map] at he
      rcases he with ((he | he | he) | ⟨r, _, he⟩) | he
      · rcases hpre e he with ⟨r, hr2⟩ | ⟨t, ht⟩
        · subst hr2; exact ⟨fun rs => by simp, by simp, rfl⟩
        · subst ht; exact ⟨fun rs => by simp, by simp, rfl⟩
      · subst he; exact ⟨fun rs => by simp, by simp, rfl⟩
      · subst he; exact ⟨fun rs => by simp, by simp, rfl⟩
      · subst he; exact ⟨fun rs => by simp, by simp, rfl⟩
      · subst he; exact ⟨fun rs => by simp, by simp, rfl⟩
    · rw [hcalls]
      exact List.getLast?_concat _
  · intro rs hmem
    cases hL : mergeList C w.ext resources button_pressed_Ok with
    | none =>
      obtain ⟨pre, hpre, hcalls⟩ :=
        MergeResources_unselected_calls C w resources button_pressed_Ok hL
      rw [hcalls] at hmem
      rcases hpre _ hmem with ⟨r, hr2⟩ | ⟨t, ht⟩
      · simp at hr2
      · simp at ht
    | some L =>
      cases hwf : C.IsAllTabDataWellFormed w.ext with
      | false =>
        obtain ⟨pre, hpre, hcalls, _, _⟩ :=
          MergeResources_not_wellFormed_calls C w resources button_pressed_Ok L hL hwf
        rw [hcalls] at hmem
        simp only [List.mem_append, List.mem_cons, List.mem_singleton, List.not_mem_nil,
          or_false] at hmem
        rcases hmem with hmem | hmem | hmem
        · rcases hpre _ hmem with ⟨r, hr2⟩ | ⟨t, ht⟩
          · simp at hr2
          · simp at ht
        · simp at hmem
        · simp at hmem
      | true =>
        cases hr : (closeTabsFrom C (C.TabManager_SaveTabData w.ext) L).2 with
        | some refused =>
          obtain ⟨pre, closed, hpre, hcalls⟩ :=
            MergeResources_refused_calls C w resources button_pressed_Ok L refused hL hwf hr
          rw [hcalls] at hmem
          simp only [List.mem_append, List.mem_cons, List.mem_singleton, List.not_mem_nil,
            or_false, List.mem_map] at hmem
          rcases hmem with ((hmem | hmem | hmem) | ⟨r, _, hmem⟩) | hmem
          · rcases hpre _ hmem with ⟨r, hr2⟩ | ⟨t, ht⟩
            · simp at hr2
            · simp at ht
          · simp at hmem
          · simp at hmem
          · simp at hmem
          · simp at hmem
        | none =>
          obtain ⟨pre, sel, hd, tl, hpre, hsel, _, hcalls⟩ :=
            MergeResources_closed_calls C w resources button_pressed_Ok L hL hwf hr
          have hrs : rs = L := by
            rw [hcalls] at hmem
            simp only [List.mem_append, List.mem_cons, List.mem_singleton, List.not_mem_nil,
              or_false, List.mem_map] at hmem
            rcases hmem with (((((hmem | hmem | hmem) | ⟨r, _, hmem⟩) | hmem) | hmem) |
              hmem) | hmem
            · rcases hpre _ hmem with ⟨r, hr2⟩ | ⟨t, ht⟩
              · simp at hr2
              · simp at ht
            · simp at hmem
            · simp at hmem
            · simp at hmem
            · simpa using hmem
            · cases hm : (C.Book_MergeResources
                (closeTabsFrom C (C.TabManager_SaveTabData w.ext) L).1 L).1 with
              | none => rw [hm] at hmem; simp at hmem
              | some f => rw [hm] at hmem; simp at hmem
            · obtain ⟨r, hr2⟩ := hsel _ hmem
              simp at hr2
            · simp at hmem
          subst hrs
          refine ⟨rfl, hr, pre ++ [.IsAllTabDataWellFormed, .TabManager_SaveTabData], ?_⟩
          rw [hcalls]
          simp only [List.append_assoc, List.singleton_append]
          exact ⟨_, rfl⟩

theorem MergeResources_close_refused_witness :
    (∀ e ∈ callsSince (windowWith sampleBookmark)
        (MergeResources (stubbornCollaborators "B.html" none none) (windowWith sampleBookmark)
          [htmlResource "A.html" [], htmlResource "B.html" []] true),
      (∀ rs, e ≠ .Book_MergeResources rs) ∧ e ≠ .BookBrowser_Refresh ∧
        e.isOpenResource = false) ∧
    (callsSince (windowWith sampleBookmark)
        (MergeResources (stubbornCollaborators "B.html" none none) (windowWith sampleBookmark)
          [htmlResource "A.html" [], htmlResource "B.html" []] true)).getLast? =
      some (.QMessageBox_critical
        ("Cannot merge\n\nCannot close tab: " ++ (htmlResource "B.html" []).Filename)) :=
  (MergeResources_close_refused (stubbornCollaborators "B.html" none none)
    (windowWith sampleBookmark) [htmlResource "A.html" [], htmlResource "B.html" []] true).1
    [htmlResource "A.html" [], htmlResource "B.html" []] (htmlResource "B.html" [])
    (by decide) (by decide) (by decide)

/-- C22 (as stated) fails: with two selected resources whose tabs close and an underlying
merge that reports `B.html` as failed, `MergeResources` never refreshes the book browser. -/
theorem MergeResources_failure_not_refreshed_counterexample :
    ((stubbornCollaborators "" (some (htmlResource "B.html" [])) none).Book_MergeResources ()
        [htmlResource "A.html" [], htmlResource "B.html" []]).1 =
      some (htmlResource "B.html" []) ∧
    Event.BookBrowser_Refresh ∉
      (MergeResources (stubbornCollaborators "" (some (htmlResource "B.html" [])) none)
        (windowWith sampleBookmark)
        [htmlResource "A.html" [], htmlResource "B.html" []] true).log := by
  decide

/-- C22 (amended): when every tab has closed and the underlying merge reports a failed
resource, `MergeResources` shows an error box naming it and opens the failed resource with
the default arguments, and the book browser is not refreshed; when the merge reports no
failed resource the book browser is refreshed right after the merge and the first resource
of the merge list is opened.  In both cases the run ends with the browser selection update
and the completion message. -/
theorem MergeResources_failed_resource {σ : Type} (C : Collaborators σ) (w : WindowState σ)
    (resources : List Resource) (button_pressed_Ok : Bool) (L : List Resource)
    (hL : mergeList C w.ext resources button_pressed_Ok = some L)
    (hwf : C.IsAllTabDataWellFormed w.ext = true)
    (hclosed : (closeTabsFrom C (C.TabManager_SaveTabData w.ext) L).2 = none) :
    (∀ failed_resource,
      (C.Book_MergeResources (closeTabsFrom C (C.TabManager_SaveTabData w.ext) L).1 L).1 =
        some failed_resource →
      Event.BookBrowser_Refresh ∉
        callsSince w (MergeResources C w resources button_pressed_Ok) ∧
      ∃ before sel, (∀ e ∈ sel, ∃ r, e = .BookBrowser_UpdateSelection r) ∧
        callsSince w (MergeResources C w resources button_pressed_Ok) =
          before ++ [.Book_MergeResources L,
            .QMessageBox_critical ("Cannot merge file " ++ failed_resource.Filename),
            .TabManager_OpenResource failed_resource
              C.OpenResource_defaults.precede_current_tab C.OpenResource_defaults.fragment
              (if C.OpenResource_defaults.view_state ≠ .ViewState_Unknown then
                C.OpenResource_defaults.view_state else w.mw.m_ViewState)
              C.OpenResource_defaults.line_to_scroll_to
              C.OpenResource_defaults.position_to_scroll_to
              C.OpenResource_defaults.caret_location_to_scroll_to
              C.OpenResource_defaults.grab_focus] ++ sel ++
            [.StatusBar_showMessage
              "Merge completed. You may need to regenerate or edit your Table Of Contents."]) ∧
    ((C.Book_MergeResources (closeTabsFrom C (C.TabManager_SaveTabData w.ext) L).1 L).1 =
        none →
      ∃ before sel hd tl, L = hd :: tl ∧ (∀ e ∈ sel, ∃ r, e = .BookBrowser_UpdateSelection r) ∧
        callsSince w (MergeResources C w resources button_pressed_Ok) =
          before ++ [.Book_MergeResources L, .BookBrowser_Refresh,
            .TabManager_OpenResource hd
              C.OpenResource_defaults.precede_current_tab C.OpenResource_defaults.fragment
              (if C.OpenResource_defaults.view_state ≠ .ViewState_Unknown then
                C.OpenResource_defaults.view_state else w.mw.m_ViewState)
              C.OpenResource_defaults.line_to_scroll_to
              C.OpenResource_defaults.position_to_scroll_to
              C.OpenResource_defaults.caret_location_to_scroll_to
              C.OpenResource_defaults.grab_focus] ++ sel ++
            [.StatusBar_showMessage
              "Merge completed. You may need to regenerate or edit your Table Of Contents."]) := by
  obtain ⟨pre, sel, hd, tl, hpre, hsel, hcons, hcalls⟩ :=
    MergeResources_closed_calls C w resources button_pressed_Ok L hL hwf hclosed
  constructor
  · intro failed hf
    rw [hf] at hcalls
    constructor
    · rw [hcalls]
      simp only [List.mem_append, List.mem_cons, List.mem_singleton, List.not_mem_nil,
        or_false, List.mem_map]
      rintro ((((((hmem | hmem | hmem) | ⟨r, _, hmem⟩) | hmem) | hmem | hmem) | hmem) | hmem)
      · rcases hpre _ hmem with ⟨r, hr2⟩ | ⟨t, ht⟩
        · simp at hr2
        · simp at ht
      · simp at hmem
      · simp at hmem
      · simp at hmem
      · simp at hmem
      · simp at hmem
      · simp at hmem
      · obtain ⟨r, hr2⟩ := hsel _ hmem
        simp at hr2
      · simp at hmem
    · refine ⟨pre ++ [.IsAllTabDataWellFormed, .TabManager_SaveTabData] ++
        L.map Event.TabManager_CloseTabForResource, sel, hsel, ?_⟩
      rw [hcalls]
      simp only [List.append_assoc, List.singleton_append, List.cons_append, List.nil_append]
  · intro hf
    rw [hf] at hcalls
    refine ⟨pre ++ [.IsAllTabDataWellFormed, .TabManager_SaveTabData] ++
      L.map Event.TabManager_CloseTabForResource, sel, hd, tl, hcons, hsel, ?_⟩
    rw [hcalls]
    simp only [List.append_assoc, List.singleton_append, List.cons_append, List.nil_append]

theorem MergeResources_failed_resource_witness :
    Event.BookBrowser_Refresh ∉
      callsSince (windowWith sampleBookmark)
        (MergeResources (stubbornCollaborators "" (some (htmlResource "B.html" [])) none)
          (windowWith sampleBookmark)
          [htmlResource "A.html" [], htmlResource "B.html" []] true) :=
  ((MergeResources_failed_resource
    (stubbornCollaborators "" (some (htmlResource "B.html" [])) none)
    (windowWith sampleBookmark) [htmlResource "A.html" [], htmlResource "B.html" []] true
    [htmlResource "A.html" [], htmlResource "B.html" []] (by decide) (by decide)
    (by decide)).1 (htmlResource "B.html" []) (by decide)).1

/-! ## Split on section markers -/

theorem qobject_cast_of_html (r : Resource) (h : r.type = .HTMLResourceType) :
    qobject_cast_HTMLResource r = some r := by
  unfold qobject_cast_HTMLResource
  rw [if_pos h]

theorem splitResources_scans {σ : Type} (C : EditCollaborators σ) (L : List Resource) :
    ∀ (w : WindowState σ) (changed : List Resource),
      (∀ r ∈ L, r.type = .HTMLResourceType) →
      ∃ w2 : WindowState σ,
        splitResources C w L changed =
          some (w2, changed ++ changedBy (splitScans C w.ext L).1) ∧
        (splitScans C w.ext L).1.map (fun scan => scan.1) = L ∧
        w2.log = w.log ++ (splitScans C w.ext L).1.flatMap splitCalls ∧ w2.mw = w.mw ∧
        w2.ext = (splitScans C w.ext L).2 := by
  induction L with
  | nil =>
    intro w changed _
    exact ⟨w, by simp [splitResources, splitScans, changedBy], rfl, by simp [splitScans], rfl,
      rfl⟩
  | cons r rest ih =>
    intro w changed hL
    have hr : r.type = .HTMLResourceType := hL r (List.mem_cons_self _ _)
    have hrest : ∀ x ∈ rest, x.type = .HTMLResourceType :=
      fun x hx => hL x (List.mem_cons_of_mem _ hx)
    unfold splitResources splitScans
    rw [qobject_cast_of_html r hr]
    simp only
    by_cases hs : (C.HTMLResource_SplitOnSGFSectionMarkers w.ext r).1.isEmpty = true
    · simp only [hs, Bool.not_true, Bool.false_eq_true, if_false]
      obtain ⟨w2, h1, h2, h3, h4, h5⟩ := ih
        { (w.record (.HTMLResource_SplitOnSGFSectionMarkers r
            (C.HTMLResource_SplitOnSGFSectionMarkers w.ext r).1)) with
          ext := (C.HTMLResource_SplitOnSGFSectionMarkers w.ext r).2 } changed hrest
      simp only at h1 h2 h3 h4 h5
      refine ⟨w2, ?_, ?_, ?_, ?_, h5⟩
      · rw [h1]
        simp [changedBy, hs]
      · simp [h2]
      · rw [h3]
        simp [splitCalls, hs, WindowState.record]
      · rw [h4]
        rfl
    · simp only [Bool.not_eq_true] at hs
      simp only [hs, Bool.not_false, if_true]
      obtain ⟨w2, h1, h2, h3, h4, h5⟩ := ih
        { (WindowState.record
            { (w.record (.HTMLResource_SplitOnSGFSectionMarkers r
                (C.HTMLResource_SplitOnSGFSectionMarkers w.ext r).1)) with
              ext := (C.HTMLResource_SplitOnSGFSectionMarkers w.ext r).2 }
            (.Book_CreateNewSections (C.HTMLResource_SplitOnSGFSectionMarkers w.ext r).1 r)) with
          ext := C.Book_CreateNewSections (C.HTMLResource_SplitOnSGFSectionMarkers w.ext r).2
            (C.HTMLResource_SplitOnSGFSectionMarkers w.ext r).1 r } (changed ++ [r]) hrest
      simp only at h1 h2 h3 h4 h5
      refine ⟨w2, ?_, ?_, ?_, ?_, h5⟩
      · rw [h1]
        simp [changedBy, hs]
      · simp [h2]
      · rw [h3]
        simp [splitCalls, hs, WindowState.record]
      · rw [h4]
        rfl

theorem changedBy_sublist (scans : List (Resource × List String)) :
    List.Sublist (changedBy scans) (scans.map (fun scan => scan.1)) := by
  unfold changedBy
  exact List.Sublist.map _ (List.filter_sublist _)

theorem mem_flatMap_splitCalls_create (scans : List (Resource × List String))
    (secs : List String) (r : Resource) :
    Event.Book_CreateNewSections secs r ∈ scans.flatMap splitCalls ↔
      (r, secs) ∈ scans ∧ secs ≠ [] := by
  simp only [List.mem_flatMap, splitCalls, List.mem_cons]
  constructor
  · rintro ⟨⟨r2, s2⟩, hmem, h | h⟩
    · simp at h
    · by_cases he : s2.isEmpty = true
      · simp [he] at h
      · simp only [he, Bool.false_eq_true, if_false, List.mem_singleton,
          Event.Book_CreateNewSections.injEq] at h
        obtain ⟨h1, h2⟩ := h
        subst h1 h2
        refine ⟨hmem, ?_⟩
        intro hnil
        apply he
        simp [hnil]
  · rintro ⟨hmem, hne⟩
    refine ⟨(r, secs), hmem, Or.inr ?_⟩
    have he : ¬ (secs.isEmpty = true) := by
      intro h
      exact hne (List.isEmpty_iff.mp h)
    simp [he]

theorem not_mem_flatMap_splitCalls (scans : List (Resource × List String)) (e : Event)
    (h1 : ∀ r s, e ≠ .HTMLResource_SplitOnSGFSectionMarkers r s)
    (h2 : ∀ s r, e ≠ .Book_CreateNewSections s r) : e ∉ scans.flatMap splitCalls := by
  simp only [List.mem_flatMap, splitCalls, List.mem_cons, not_exists, not_and, not_or]
  intro scan _
  refine ⟨h1 _ _, ?_⟩
  by_cases he : scan.2.isEmpty = true
  · simp [he]
  · simp only [he, Bool.false_eq_true, if_false, List.mem_singleton]
    exact h2 _ _

/-- C23: with well-formed tab data, `SplitOnSGFSectionMarkers` scans every HTML resource of
the collection once, in collection order, each in the state left by the calls before it
(`scans` is the list of the resources with what `HTMLResource::SplitOnSGFSectionMarkers`
returned for them, `splitScans`), and calls `CreateNewSections` exactly for the resources
whose scan returned at least one section, right after their scan.  The list of those
resources (`changedBy scans`, a sublist of the collection in collection order) is the list
passed to `ReloadTabDataForResources`; when it is empty, neither
`ReloadTabDataForResources` nor the book browser's `Refresh` is called.  The calls made and
the state of the collaborators afterwards are determined in full. -/
theorem SplitOnSGFSectionMarkers_changed {σ : Type} (C : EditCollaborators σ)
    (w : WindowState σ) (hwf : C.IsAllTabDataWellFormed w.ext = true)
    (hhtml : ∀ r ∈ C.AllHTMLResources w.ext, r.type = .HTMLResourceType) :
    ∃ (w2 : WindowState σ) (scans : List (Resource × List String)) (s1 : σ)
      (saved focus : List Event),
      SplitOnSGFSectionMarkers C w = some w2 ∧
      splitScans C
        (if currentTabIsFlowTab C w.ext = true ∧
            C.FlowTab_GetViewState w.ext = .ViewState_BookView
          then C.FlowTab_SaveTabContent w.ext else w.ext)
        (C.AllHTMLResources w.ext) = (scans, s1) ∧
      saved = (if currentTabIsFlowTab C w.ext = true ∧
            C.FlowTab_GetViewState w.ext = .ViewState_BookView
          then [.FlowTab_SaveTabContent] else []) ∧
      focus = (if currentTabIsFlowTab C w.ext = true ∧
            C.FlowTab_GetViewState (C.BookBrowser_Refresh
              (C.TabManager_ReloadTabDataForResources s1 (changedBy scans))) =
              .ViewState_BookView
          then [.BookBrowser_setFocus, .FlowTab_setFocus] else []) ∧
      scans.map (fun scan => scan.1) = C.AllHTMLResources w.ext ∧
      List.Sublist (changedBy scans) (C.AllHTMLResources w.ext) ∧
      (saved = [] ∨ saved = [.FlowTab_SaveTabContent]) ∧
      (focus = [] ∨ focus = [.BookBrowser_setFocus, .FlowTab_setFocus]) ∧
      callsSince w w2 = [.IsAllTabDataWellFormed] ++ saved ++ scans.flatMap splitCalls ++
        (if changedBy scans = [] then
          [.StatusBar_showMessage "No split file markers found. Use Insert->Split Marker."]
        else
          [.TabManager_ReloadTabDataForResources (changedBy scans), .BookBrowser_Refresh,
            .StatusBar_showMessage
              "Split completed. You may need to update the Table of Contents."] ++ focus) ∧
      w2.ext = (if changedBy scans = [] then s1
        else if currentTabIsFlowTab C w.ext = true ∧
            C.FlowTab_GetViewState (C.BookBrowser_Refresh
              (C.TabManager_ReloadTabDataForResources s1 (changedBy scans))) =
              .ViewState_BookView
          then C.FlowTab_setFocus (C.BookBrowser_setFocus (C.BookBrowser_Refresh
            (C.TabManager_ReloadTabDataForResources s1 (changedBy scans))))
          else C.BookBrowser_Refresh
            (C.TabManager_ReloadTabDataForResources s1 (changedBy scans))) ∧
      (∀ secs r, Event.Book_CreateNewSections secs r ∈ callsSince w w2 ↔
        (r, secs) ∈ scans ∧ secs ≠ []) ∧
      (changedBy scans = [] →
        (∀ l, Event.TabManager_ReloadTabDataForResources l ∉ callsSince w w2) ∧
        Event.BookBrowser_Refresh ∉ callsSince w w2) := by
  have hsave : ∃ (ws : WindowState σ),
      (if currentTabIsFlowTab C (w.record .IsAllTabDataWellFormed).ext = true ∧
          C.FlowTab_GetViewState (w.record .IsAllTabDataWellFormed).ext = .ViewState_BookView
        then
          { (WindowState.record (w.record .IsAllTabDataWellFormed) .FlowTab_SaveTabContent) with
            ext := C.FlowTab_SaveTabContent (w.record .IsAllTabDataWellFormed).ext }
        else w.record .IsAllTabDataWellFormed) = ws ∧
      ws.log = w.log ++ [.IsAllTabDataWellFormed] ++
        (if currentTabIsFlowTab C w.ext = true ∧
            C.FlowTab_GetViewState w.ext = .ViewState_BookView
          then [.FlowTab_SaveTabContent] else []) ∧
      ws.ext = (if currentTabIsFlowTab C w.ext = true ∧
            C.FlowTab_GetViewState w.ext = .ViewState_BookView
          then C.FlowTab_SaveTabContent w.ext else w.ext) := by
    refine ⟨_, rfl, ?_, ?_⟩
    · simp only [record_ext]
      split_ifs <;> simp [WindowState.record]
    · simp only [record_ext]
      split_ifs <;> rfl
  obtain ⟨ws, hws, hwslog, hwsext⟩ := hsave
  obtain ⟨w3, hsplit, hscans, hlog3, _, hext3⟩ :=
    splitResources_scans C (C.AllHTMLResources w.ext) ws [] hhtml
  rw [List.nil_append] at hsplit
  rw [hwsext] at hsplit hscans hlog3 hext3
  generalize hsc : splitScans C
    (if currentTabIsFlowTab C w.ext = true ∧
        C.FlowTab_GetViewState w.ext = .ViewState_BookView
      then C.FlowTab_SaveTabContent w.ext else w.ext) (C.AllHTMLResources w.ext) = sc
    at hsplit hscans hlog3 hext3
  obtain ⟨scans, s1⟩ := sc
  simp only at hsplit hscans hlog3 hext3
  generalize hsv : (if currentTabIsFlowTab C w.ext = true ∧
      C.FlowTab_GetViewState w.ext = .ViewState_BookView
    then [Event.FlowTab_SaveTabContent] else []) = saved at hwslog
  have hsaved : saved = [] ∨ saved = [.FlowTab_SaveTabContent] := by
    rw [← hsv]
    split_ifs
    · exact Or.inr rfl
    · exact Or.inl rfl
  have hres : SplitOnSGFSectionMarkers C w =
      (if (changedBy scans).length > 0 then
        (if currentTabIsFlowTab C w.ext = true ∧
            C.FlowTab_GetViewState
              (C.BookBrowser_Refresh
                (C.TabManager_ReloadTabDataForResources w3.ext (changedBy scans))) =
              .ViewState_BookView then
          some
            { (WindowState.record
                { (WindowState.record
                    (ShowMessageOnStatusBar
                      { (WindowState.record
                          { (w3.record (.TabManager_ReloadTabDataForResources
                              (changedBy scans))) with
                            ext := C.TabManager_ReloadTabDataForResources w3.ext
                              (changedBy scans) }
                          .BookBrowser_Refresh) with
                        ext := C.BookBrowser_Refresh
                          (C.TabManager_ReloadTabDataForResources w3.ext (changedBy scans)) }
                      "Split completed. You may need to update the Table of Contents.")
                    .BookBrowser_setFocus) with
                  ext := C.BookBrowser_setFocus
                    (C.BookBrowser_Refresh
                      (C.TabManager_ReloadTabDataForResources w3.ext (changedBy scans))) }
                .FlowTab_setFocus) with
              ext := C.FlowTab_setFocus (C.BookBrowser_setFocus
                (C.BookBrowser_Refresh
                  (C.TabManager_ReloadTabDataForResources w3.ext (changedBy scans)))) }
        else
          some (ShowMessageOnStatusBar
            { (WindowState.record
                { (w3.record (.TabManager_ReloadTabDataForResources (changedBy scans))) with
                  ext := C.TabManager_ReloadTabDataForResources w3.ext (changedBy scans) }
                .BookBrowser_Refresh) with
              ext := C.BookBrowser_Refresh
                (C.TabManager_ReloadTabDataForResources w3.ext (changedBy scans)) }
            "Split completed. You may need to update the Table of Contents."))
      else
        some (ShowMessageOnStatusBar w3
          "No split file markers found. Use Insert->Split Marker.")) := by
    unfold SplitOnSGFSectionMarkers
    simp only [record_ext, hwf, Bool.not_true, Bool.false_eq_true, if_false]
    simp only [record_ext] at hws
    rw [hws, hsplit]
    rfl
  rw [hext3] at hres
  have hw3log : w3.log = w.log ++ ([.IsAllTabDataWellFormed] ++ saved ++
      scans.flatMap splitCalls) := by
    rw [hlog3, hwslog]
    simp
  have hsub : List.Sublist (changedBy scans) (C.AllHTMLResources w.ext) := by
    rw [← hscans]
    exact changedBy_sublist scans
  have hfocus : ∀ c : Prop, [Decidable c] →
      ((if c then [Event.BookBrowser_setFocus, Event.FlowTab_setFocus] else []) = [] ∨
        (if c then [Event.BookBrowser_setFocus, Event.FlowTab_setFocus] else []) =
          [.BookBrowser_setFocus, .FlowTab_setFocus]) := by
    intro c _
    split_ifs
    · exact Or.inr rfl
    · exact Or.inl rfl
  have key : ∃ (w2 : WindowState σ) (rest : List Event),
      SplitOnSGFSectionMarkers C w = some w2 ∧
      w2.log = w3.log ++ rest ∧
      rest = (if changedBy scans = [] then
          [.StatusBar_showMessage "No split file markers found. Use Insert->Split Marker."]
        else
          [.TabManager_ReloadTabDataForResources (changedBy scans), .BookBrowser_Refresh,
            .StatusBar_showMessage
              "Split completed. You may need to update the Table of Contents."] ++
            (if currentTabIsFlowTab C w.ext = true ∧
                C.FlowTab_GetViewState (C.BookBrowser_Refresh
                  (C.TabManager_ReloadTabDataForResources s1 (changedBy scans))) =
                  .ViewState_BookView
              then [.BookBrowser_setFocus, .FlowTab_setFocus] else [])) ∧
      w2.ext = (if changedBy scans = [] then s1
        else if currentTabIsFlowTab C w.ext = true ∧
            C.FlowTab_GetViewState (C.BookBrowser_Refresh
              (C.TabManager_ReloadTabDataForResources s1 (changedBy scans))) =
              .ViewState_BookView
          then C.FlowTab_setFocus (C.BookBrowser_setFocus (C.BookBrowser_Refresh
            (C.TabManager_ReloadTabDataForResources s1 (changedBy scans))))
          else C.BookBrowser_Refresh
            (C.TabManager_ReloadTabDataForResources s1 (changedBy scans))) := by
    by_cases hch : changedBy scans = []
    · have hlen : ¬ ((changedBy scans).length > 0) := by simp [hch]
      rw [if_neg hlen] at hres
      refine ⟨_,
        [.StatusBar_showMessage "No split file markers found. Use Insert->Split Marker."],
        hres, ?_, ?_, ?_⟩
      · exact ShowMessageOnStatusBar_log _ _ (by decide)
      · rw [if_pos hch]
      · rw [if_pos hch]
        unfold ShowMessageOnStatusBar
        rw [if_neg (by decide)]
        exact hext3
    · have hlen : (changedBy scans).length > 0 := List.length_pos.mpr hch
      rw [if_pos hlen] at hres
      by_cases hc : currentTabIsFlowTab C w.ext = true ∧
          C.FlowTab_GetViewState (C.BookBrowser_Refresh
            (C.TabManager_ReloadTabDataForResources s1 (changedBy scans))) =
            .ViewState_BookView
      · rw [if_pos hc] at hres
        refine ⟨_,
          [.TabManager_ReloadTabDataForResources (changedBy scans), .BookBrowser_Refresh,
            .StatusBar_showMessage
              "Split completed. You may need to update the Table of Contents.",
            .BookBrowser_setFocus, .FlowTab_setFocus],
          hres, ?_, ?_, ?_⟩
        · simp only [record_log, ShowMessageOnStatusBar_log _ _ (show
            "Split completed. You may need to update the Table of Contents." ≠ "" by decide)]
          simp
        · rw [if_neg hch, if_pos hc]
          rfl
        · rw [if_neg hch, if_pos hc]
      · rw [if_neg hc] at hres
        refine ⟨_,
          [.TabManager_ReloadTabDataForResources (changedBy scans), .BookBrowser_Refresh,
            .StatusBar_showMessage
              "Split completed. You may need to update the Table of Contents."],
          hres, ?_, ?_, ?_⟩
        · rw [ShowMessageOnStatusBar_log _ _ (by decide)]
          simp only [record_log]
          simp
        · rw [if_neg hch, if_neg hc]
          rfl
        · rw [if_neg hch, if_neg hc]
          unfold ShowMessageOnStatusBar
          rw [if_neg (by decide)]
          rfl
  obtain ⟨w2, rest, hw2, hlog, hrest, hext⟩ := key
  have hfocus : (if currentTabIsFlowTab C w.ext = true ∧
        C.FlowTab_GetViewState (C.BookBrowser_Refresh
          (C.TabManager_ReloadTabDataForResources s1 (changedBy scans))) =
          .ViewState_BookView
      then [Event.BookBrowser_setFocus, Event.FlowTab_setFocus] else []) = [] ∨
      (if currentTabIsFlowTab C w.ext = true ∧
        C.FlowTab_GetViewState (C.BookBrowser_Refresh
          (C.TabManager_ReloadTabDataForResources s1 (changedBy scans))) =
          .ViewState_BookView
      then [Event.BookBrowser_setFocus, Event.FlowTab_setFocus] else []) =
        [.BookBrowser_setFocus, .FlowTab_setFocus] := by
    split_ifs
    · exact Or.inr rfl
    · exact Or.inl rfl
  have hcalls : callsSince w w2 = [.IsAllTabDataWellFormed] ++ saved ++
      scans.flatMap splitCalls ++ rest := by
    apply callsSince_of_log
    rw [hlog, hw3log]
    simp
  rw [hrest] at hcalls
  refine ⟨w2, scans, s1, saved, _, hw2, rfl, rfl, rfl, hscans, hsub, hsaved, hfocus,
    hcalls, hext, ?_, ?_⟩
  · intro secs r
    rw [hcalls, ← mem_flatMap_splitCalls_create]
    simp only [List.mem_append, List.mem_singleton]
    constructor
    · rintro (((h | h) | h) | h)
      · simp at h
      · rcases hsaved with hs | hs
        · rw [hs] at h; simp at h
        · rw [hs] at h; simp at h
      · exact h
      · split_ifs at h <;> simp at h
    · intro h
      exact Or.inl (Or.inr h)
  · intro hnil
    rw [hcalls, if_pos hnil]
    have hno : ∀ e : Event, (∀ r s, e ≠ .HTMLResource_SplitOnSGFSectionMarkers r s) →
        (∀ s r, e ≠ .Book_CreateNewSections s r) → e ≠ .IsAllTabDataWellFormed →
        e ≠ .FlowTab_SaveTabContent →
        e ≠ .StatusBar_showMessage "No split file markers found. Use Insert->Split Marker." →
        e ∉ [Event.IsAllTabDataWellFormed] ++ saved ++ scans.flatMap splitCalls ++
          [.StatusBar_showMessage
            "No split file markers found. Use Insert->Split Marker."] := by
      intro e h1 h2 h3 h4 h5
      simp only [List.mem_append, List.mem_singleton, not_or]
      refine ⟨⟨⟨h3, ?_⟩, not_mem_flatMap_splitCalls scans e h1 h2⟩, h5⟩
      rcases hsaved with hs | hs
      · rw [hs]; simp
      · rw [hs]; simpa using h4
    constructor
    · intro l
      exact hno _ (by simp) (by simp) (by simp) (by simp) (by simp)
    · exact hno _ (by simp) (by simp) (by simp) (by simp) (by simp)

theorem SplitOnSGFSectionMarkers_changed_witness :
    ∃ w2 : WindowState SampleBook,
      SplitOnSGFSectionMarkers sampleEditCollaborators
        (sampleWindow (sampleBook [htmlResource "Chapter1.xhtml" [],
          htmlResource "Chapter2.xhtml" [], htmlResource "Chapter3.xhtml" []] true)) =
        some w2 ∧
      callsSince (sampleWindow (sampleBook [htmlResource "Chapter1.xhtml" [],
          htmlResource "Chapter2.xhtml" [], htmlResource "Chapter3.xhtml" []] true)) w2 =
        [.IsAllTabDataWellFormed,
          .HTMLResource_SplitOnSGFSectionMarkers (htmlResource "Chapter1.xhtml" []) [],
          .HTMLResource_SplitOnSGFSectionMarkers (htmlResource "Chapter2.xhtml" [])
            ["<p>first</p>", "<p>second</p>"],
          .Book_CreateNewSections ["<p>first</p>", "<p>second</p>"]
            (htmlResource "Chapter2.xhtml" []),
          .HTMLResource_SplitOnSGFSectionMarkers (htmlResource "Chapter3.xhtml" []) [],
          .TabManager_ReloadTabDataForResources [htmlResource "Chapter2.xhtml" []],
          .BookBrowser_Refresh,
          .StatusBar_showMessage
            "Split completed. You may need to update the Table of Contents."] := by
  obtain ⟨w2, scans, s1, saved, focus, h, hsc, hsaved, hfocus, _, _, _, _, hcalls, _⟩ :=
    SplitOnSGFSectionMarkers_changed sampleEditCollaborators
      (sampleWindow (sampleBook [htmlResource "Chapter1.xhtml" [],
        htmlResource "Chapter2.xhtml" [], htmlResource "Chapter3.xhtml" []] true))
      rfl (by decide)
  have hscans : scans = _ := (congrArg Prod.fst hsc).symm
  have hs1 : s1 = _ := (congrArg Prod.snd hsc).symm
  subst hscans hs1 hsaved hfocus
  refine ⟨w2, h, ?_⟩
  rw [hcalls]
  decide

/-! ## Index and contents generation -/

theorem indexSearch_foldl {σ : Type} (C : EditCollaborators σ) (s : σ) (L : List Resource) :
    L.foldl (indexSearchStep C s) ([], none) =
      (L.filterMap qobject_cast_HTMLResource,
        (L.filterMap qobject_cast_HTMLResource).reverse.find?
          (fun h => decide (C.GetGuideSemanticTypeForResource s h = .Index))) := by
  induction L using List.reverseRecOn with
  | nil => rfl
  | append_singleton l r ih =>
    rw [List.foldl_append, ih]
    simp only [List.foldl_cons, List.foldl_nil, List.filterMap_append, List.filterMap_cons,
      List.filterMap_nil]
    unfold indexSearchStep
    cases hc : qobject_cast_HTMLResource r with
    | none => simp
    | some h =>
      simp only [List.reverse_append, List.reverse_cons, List.reverse_nil, List.nil_append,
        List.singleton_append, List.find?_cons]
      by_cases hg : C.GetGuideSemanticTypeForResource s h = .Index
      · simp [hg]
      · simp [hg]

theorem tocSearch_foldl {σ : Type} (C : EditCollaborators σ) (s : σ) (L : List Resource) :
    L.foldl (tocSearchStep C s) ([], none) =
      (L.filterMap qobject_cast_HTMLResource,
        match (L.filterMap qobject_cast_HTMLResource).reverse.find?
          (fun h => decide (C.GetGuideSemanticTypeForResource s h = .TableOfContents)) with
        | some h => some h
        | none => (L.filterMap qobject_cast_HTMLResource).find?
            (fun h => decide (h.Filename = HTML_TOC_FILE))) := by
  induction L using List.reverseRecOn with
  | nil => rfl
  | append_singleton l r ih =>
    rw [List.foldl_append, ih]
    simp only [List.foldl_cons, List.foldl_nil, List.filterMap_append, List.filterMap_cons,
      List.filterMap_nil]
    unfold tocSearchStep
    cases hc : qobject_cast_HTMLResource r with
    | none => simp
    | some h =>
      have hname : h.Filename = r.Filename := by
        unfold qobject_cast_HTMLResource at hc
        split_ifs at hc
        simp only [Option.some.injEq] at hc
        rw [hc]
      simp only [List.reverse_append, List.reverse_cons, List.reverse_nil, List.nil_append,
        List.singleton_append, List.find?_cons, List.find?_append, ← hname]
      by_cases hg : C.GetGuideSemanticTypeForResource s h = .TableOfContents
      · simp [hg]
      · simp only [hg, decide_False, if_false]
        cases hrole : (l.filterMap qobject_cast_HTMLResource).reverse.find?
            (fun h => decide (C.GetGuideSemanticTypeForResource s h = .TableOfContents)) with
        | some x => simp
        | none =>
          simp only
          cases hfile : (l.filterMap qobject_cast_HTMLResource).find?
              (fun h => decide (h.Filename = HTML_TOC_FILE)) with
          | some y => simp
          | none =>
            by_cases hn : h.Filename = HTML_TOC_FILE
            · simp [hn]
            · simp [hn]

theorem indexSearch_eq {σ : Type} (C : EditCollaborators σ) (s : σ) :
    indexSearch C s =
      ((C.AllHTMLResources s).filterMap qobject_cast_HTMLResource,
        ((C.AllHTMLResources s).filterMap qobject_cast_HTMLResource).reverse.find?
          (fun h => decide (C.GetGuideSemanticTypeForResource s h = .Index))) :=
  indexSearch_foldl C s _

theorem tocSearch_eq {σ : Type} (C : EditCollaborators σ) (s : σ) :
    tocSearch C s =
      ((C.AllHTMLResources s).filterMap qobject_cast_HTMLResource,
        match ((C.AllHTMLResources s).filterMap qobject_cast_HTMLResource).reverse.find?
          (fun h => decide (C.GetGuideSemanticTypeForResource s h = .TableOfContents)) with
        | some h => some h
        | none => ((C.AllHTMLResources s).filterMap qobject_cast_HTMLResource).find?
            (fun h => decide (h.Filename = HTML_TOC_FILE))) :=
  tocSearch_foldl C s _


theorem writeDerivedResource_log {σ : Type} (C : EditCollaborators σ) (w : WindowState σ)
    (r : Resource) (text : String) (t : GuideSemanticType) :
    (writeDerivedResource C w r text t).log = w.log ++ writeCalls C w r text t := by
  unfold writeDerivedResource writeCalls
  by_cases h : C.GetGuideSemanticTypeForResource (C.Resource_SetText w.ext r text) r ≠ t
  · simp only [record_ext, if_pos h]
    rw [OpenResourceDefault_log]
    simp [WindowState.record]
  · simp only [record_ext, if_neg h]
    rw [OpenResourceDefault_log]
    simp [WindowState.record]

theorem closeFoundResource_log {σ : Type} (C : EditCollaborators σ) (w : WindowState σ)
    (found : Option Resource) :
    (closeFoundResource C w found).log = w.log ++
      (match found with
        | some resource => [.TabManager_CloseTabForResource resource]
        | none => []) := by
  cases found with
  | none => simp [closeFoundResource]
  | some r => rfl

theorem closeFoundResource_none {σ : Type} (C : EditCollaborators σ) (w : WindowState σ) :
    closeFoundResource C w none = w := rfl

theorem createDerivedResource_log {σ : Type} (C : EditCollaborators σ) (w : WindowState σ)
    (name : String) :
    (createDerivedResource C w name).1.log = w.log ++
      [.Book_CreateEmptyHTMLFile, .Resource_RenameTo (C.Book_CreateEmptyHTMLFile w.ext).1 name] := by
  simp [createDerivedResource, WindowState.record]

theorem createDerivedResource_snd {σ : Type} (C : EditCollaborators σ) (w : WindowState σ)
    (name : String) :
    (createDerivedResource C w name).2 =
      (C.Resource_RenameTo (C.Book_CreateEmptyHTMLFile w.ext).2
        (C.Book_CreateEmptyHTMLFile w.ext).1 name).1 := rfl

theorem UpdateSpineOrder_log {σ : Type} (C : EditCollaborators σ) (w : WindowState σ)
    (l : List Resource) :
    (UpdateSpineOrder C w l).log = w.log ++ [.OPF_UpdateSpineOrder l] := rfl

theorem writeCalls_kinds {σ : Type} (C : EditCollaborators σ) (w : WindowState σ)
    (r : Resource) (text : String) (t : GuideSemanticType) :
    ∀ e ∈ writeCalls C w r text t,
      e = .Resource_SetText r text ∨ e = .OPF_AddGuideSemanticType r t ∨
        e = .Book_SetModified ∨ e = .BookBrowser_Refresh ∨ e.isOpenResource = true := by
  intro e he
  unfold writeCalls at he
  simp only [List.mem_append, List.mem_cons, List.mem_singleton, List.not_mem_nil,
    or_false] at he
  rcases he with (he | he) | he | he | he
  · exact Or.inl he
  · split_ifs at he
    · simp only [List.mem_singleton] at he
      exact Or.inr (Or.inl he)
    · simp at he
  · exact Or.inr (Or.inr (Or.inl he))
  · exact Or.inr (Or.inr (Or.inr (Or.inl he)))
  · subst he
    exact Or.inr (Or.inr (Or.inr (Or.inr rfl)))

/-- The calls of `CreateIndex` with well-formed tab data: the check, the save, the location
step (close the tab of the resource found, or create, rename and append a new resource and
update the spine order), `BuildIndex` without the index resource and, when the index was
built, the closing block. -/
theorem CreateIndex_calls {σ : Type} (C : EditCollaborators σ) (w : WindowState σ)
    (hwf : C.IsAllTabDataWellFormed w.ext = true) :
    ∃ (w7 : WindowState σ) (index_resource : Resource) (rest : List Resource),
      callsSince w (CreateIndex C w) =
        [.IsAllTabDataWellFormed, .TabManager_SaveTabData] ++
        (match (indexSearch C (C.TabManager_SaveTabData w.ext)).2 with
          | some found => [.TabManager_CloseTabForResource found]
          | none =>
            [.Book_CreateEmptyHTMLFile,
             .Resource_RenameTo (C.Book_CreateEmptyHTMLFile (C.TabManager_SaveTabData w.ext)).1
               HTML_INDEX_FILE,
             .OPF_UpdateSpineOrder ((indexSearch C (C.TabManager_SaveTabData w.ext)).1 ++
               [(C.Resource_RenameTo
                  (C.Book_CreateEmptyHTMLFile (C.TabManager_SaveTabData w.ext)).2
                  (C.Book_CreateEmptyHTMLFile (C.TabManager_SaveTabData w.ext)).1
                  HTML_INDEX_FILE).1])]) ++
        [.Index_BuildIndex rest] ++
        (if (C.Index_BuildIndex w7.ext rest).1 then
          writeCalls C
            { (w7.record (.Index_BuildIndex rest)) with
              ext := (C.Index_BuildIndex w7.ext rest).2 } index_resource
            (C.IndexHTMLWriter_WriteXML (C.Index_BuildIndex w7.ext rest).2) .Index
        else []) ∧
      index_resource =
        (match (indexSearch C (C.TabManager_SaveTabData w.ext)).2 with
          | some found => found
          | none => (C.Resource_RenameTo
              (C.Book_CreateEmptyHTMLFile (C.TabManager_SaveTabData w.ext)).2
              (C.Book_CreateEmptyHTMLFile (C.TabManager_SaveTabData w.ext)).1
              HTML_INDEX_FILE).1) ∧
      w7.ext =
        (match (indexSearch C (C.TabManager_SaveTabData w.ext)).2 with
          | some found =>
            (C.TabManager_CloseTabForResource (C.TabManager_SaveTabData w.ext) found).2
          | none => C.UpdateSpineOrder
              (C.Resource_RenameTo
                (C.Book_CreateEmptyHTMLFile (C.TabManager_SaveTabData w.ext)).2
                (C.Book_CreateEmptyHTMLFile (C.TabManager_SaveTabData w.ext)).1
                HTML_INDEX_FILE).2
              ((indexSearch C (C.TabManager_SaveTabData w.ext)).1 ++
                [(C.Resource_RenameTo
                  (C.Book_CreateEmptyHTMLFile (C.TabManager_SaveTabData w.ext)).2
                  (C.Book_CreateEmptyHTMLFile (C.TabManager_SaveTabData w.ext)).1
                  HTML_INDEX_FILE).1])) ∧
      CreateIndex C w =
        (if (C.Index_BuildIndex w7.ext rest).1 then
          writeDerivedResource C
            { (w7.record (.Index_BuildIndex rest)) with
              ext := (C.Index_BuildIndex w7.ext rest).2 } index_resource
            (C.IndexHTMLWriter_WriteXML (C.Index_BuildIndex w7.ext rest).2) .Index
        else
          { (w7.record (.Index_BuildIndex rest)) with
            ext := (C.Index_BuildIndex w7.ext rest).2 }) := by
  unfold CreateIndex
  simp only [record_ext, hwf, Bool.not_true, Bool.false_eq_true, if_false]
  have hs : (SaveTabData C.toCollaborators (w.record .IsAllTabDataWellFormed)).ext =
      C.TabManager_SaveTabData w.ext := rfl
  have hl : (SaveTabData C.toCollaborators (w.record .IsAllTabDataWellFormed)).log =
      w.log ++ [.IsAllTabDataWellFormed, .TabManager_SaveTabData] := by
    simp [SaveTabData, WindowState.record]
  generalize SaveTabData C.toCollaborators (w.record .IsAllTabDataWellFormed) = w2 at hs hl ⊢
  rw [hs]
  cases hfound : (indexSearch C (C.TabManager_SaveTabData w.ext)).2 with
  | some idx =>
    simp only
    refine ⟨closeFoundResource C w2 (some idx), idx,
      (indexSearch C (C.TabManager_SaveTabData w.ext)).1.erase idx, ?_, rfl, ?_, ?_⟩
    · apply callsSince_of_log
      cases hb : (C.Index_BuildIndex (closeFoundResource C w2 (some idx)).ext
          ((indexSearch C (C.TabManager_SaveTabData w.ext)).1.erase idx)).1 with
      | false => simp [record_log, closeFoundResource_log, hl]
      | true => simp [writeDerivedResource_log, record_log, closeFoundResource_log, hl]
    · simp only [closeFoundResource, hs]
    · cases hb : (C.Index_BuildIndex (closeFoundResource C w2 (some idx)).ext
          ((indexSearch C (C.TabManager_SaveTabData w.ext)).1.erase idx)).1 with
      | false => simp
      | true => simp
  | none =>
    simp only [closeFoundResource_none]
    refine ⟨UpdateSpineOrder C (createDerivedResource C w2 HTML_INDEX_FILE).1
        ((indexSearch C (C.TabManager_SaveTabData w.ext)).1 ++
          [(createDerivedResource C w2 HTML_INDEX_FILE).2]),
      (createDerivedResource C w2 HTML_INDEX_FILE).2,
      ((indexSearch C (C.TabManager_SaveTabData w.ext)).1 ++
          [(createDerivedResource C w2 HTML_INDEX_FILE).2]).erase
        (createDerivedResource C w2 HTML_INDEX_FILE).2, ?_, ?_, ?_, ?_⟩
    · apply callsSince_of_log
      cases hb : (C.Index_BuildIndex
          (UpdateSpineOrder C (createDerivedResource C w2 HTML_INDEX_FILE).1
            ((indexSearch C (C.TabManager_SaveTabData w.ext)).1 ++
              [(createDerivedResource C w2 HTML_INDEX_FILE).2])).ext
          (((indexSearch C (C.TabManager_SaveTabData w.ext)).1 ++
            [(createDerivedResource C w2 HTML_INDEX_FILE).2]).erase
              (createDerivedResource C w2 HTML_INDEX_FILE).2)).1 with
      | false =>
        simp [record_log, UpdateSpineOrder_log, createDerivedResource_log, hl, hs,
          createDerivedResource_snd]
      | true =>
        simp [writeDerivedResource_log, record_log, UpdateSpineOrder_log,
          createDerivedResource_log, hl, hs, createDerivedResource_snd]
    · rw [createDerivedResource_snd, hs]
    · simp only [UpdateSpineOrder, createDerivedResource, record_ext, hs]
    · cases hb : (C.Index_BuildIndex
          (UpdateSpineOrder C (createDerivedResource C w2 HTML_INDEX_FILE).1
            ((indexSearch C (C.TabManager_SaveTabData w.ext)).1 ++
              [(createDerivedResource C w2 HTML_INDEX_FILE).2])).ext
          (((indexSearch C (C.TabManager_SaveTabData w.ext)).1 ++
            [(createDerivedResource C w2 HTML_INDEX_FILE).2]).erase
              (createDerivedResource C w2 HTML_INDEX_FILE).2)).1 with
      | false => simp
      | true => simp

/-- The calls of `CreateHTMLTOC` with well-formed tab data: the check, the save, the
location step (close the tab of the resource found, or create, rename and prepend a new
resource and update the spine order) and the closing block. -/
theorem CreateHTMLTOC_calls {σ : Type} (C : EditCollaborators σ) (w : WindowState σ)
    (hwf : C.IsAllTabDataWellFormed w.ext = true) :
    ∃ (w6 : WindowState σ) (tocResource : Resource),
      callsSince w (CreateHTMLTOC C w) =
        [.IsAllTabDataWellFormed, .TabManager_SaveTabData] ++
        (match (tocSearch C (C.TabManager_SaveTabData w.ext)).2 with
          | some found => [.TabManager_CloseTabForResource found]
          | none =>
            [.Book_CreateEmptyHTMLFile,
             .Resource_RenameTo (C.Book_CreateEmptyHTMLFile (C.TabManager_SaveTabData w.ext)).1
               HTML_TOC_FILE,
             .OPF_UpdateSpineOrder
               ((C.Resource_RenameTo
                  (C.Book_CreateEmptyHTMLFile (C.TabManager_SaveTabData w.ext)).2
                  (C.Book_CreateEmptyHTMLFile (C.TabManager_SaveTabData w.ext)).1
                  HTML_TOC_FILE).1 :: (tocSearch C (C.TabManager_SaveTabData w.ext)).1)]) ++
        writeCalls C w6 tocResource (C.TOCHTMLWriter_WriteXML w6.ext) .TableOfContents ∧
      tocResource =
        (match (tocSearch C (C.TabManager_SaveTabData w.ext)).2 with
          | some found => found
          | none => (C.Resource_RenameTo
              (C.Book_CreateEmptyHTMLFile (C.TabManager_SaveTabData w.ext)).2
              (C.Book_CreateEmptyHTMLFile (C.TabManager_SaveTabData w.ext)).1
              HTML_TOC_FILE).1) ∧
      w6.ext =
        (match (tocSearch C (C.TabManager_SaveTabData w.ext)).2 with
          | some found =>
            (C.TabManager_CloseTabForResource (C.TabManager_SaveTabData w.ext) found).2
          | none => C.UpdateSpineOrder
              (C.Resource_RenameTo
                (C.Book_CreateEmptyHTMLFile (C.TabManager_SaveTabData w.ext)).2
                (C.Book_CreateEmptyHTMLFile (C.TabManager_SaveTabData w.ext)).1
                HTML_TOC_FILE).2
              ((C.Resource_RenameTo
                  (C.Book_CreateEmptyHTMLFile (C.TabManager_SaveTabData w.ext)).2
                  (C.Book_CreateEmptyHTMLFile (C.TabManager_SaveTabData w.ext)).1
                  HTML_TOC_FILE).1 :: (tocSearch C (C.TabManager_SaveTabData w.ext)).1)) ∧
      CreateHTMLTOC C w =
        writeDerivedResource C w6 tocResource (C.TOCHTMLWriter_WriteXML w6.ext)
          .TableOfContents := by
  unfold CreateHTMLTOC
  simp only [record_ext, hwf, Bool.not_true, Bool.false_eq_true, if_false]
  have hs : (SaveTabData C.toCollaborators (w.record .IsAllTabDataWellFormed)).ext =
      C.TabManager_SaveTabData w.ext := rfl
  have hl : (SaveTabData C.toCollaborators (w.record .IsAllTabDataWellFormed)).log =
      w.log ++ [.IsAllTabDataWellFormed, .TabManager_SaveTabData] := by
    simp [SaveTabData, WindowState.record]
  generalize SaveTabData C.toCollaborators (w.record .IsAllTabDataWellFormed) = w2 at hs hl ⊢
  rw [hs]
  cases hfound : (tocSearch C (C.TabManager_SaveTabData w.ext)).2 with
  | some toc =>
    simp only
    refine ⟨closeFoundResource C w2 (some toc), toc, ?_, rfl, ?_, rfl⟩
    · apply callsSince_of_log
      simp [writeDerivedResource_log, closeFoundResource_log, hl]
    · simp only [closeFoundResource, hs]
  | none =>
    simp only [closeFoundResource_none]
    refine ⟨UpdateSpineOrder C (createDerivedResource C w2 HTML_TOC_FILE).1
        ((createDerivedResource C w2 HTML_TOC_FILE).2 ::
          (tocSearch C (C.TabManager_SaveTabData w.ext)).1),
      (createDerivedResource C w2 HTML_TOC_FILE).2, ?_, ?_, ?_, rfl⟩
    · apply callsSince_of_log
      simp [writeDerivedResource_log, UpdateSpineOrder_log, createDerivedResource_log, hl, hs,
        createDerivedResource_snd]
    · rw [createDerivedResource_snd, hs]
    · simp only [UpdateSpineOrder, createDerivedResource, record_ext, hs]

theorem not_mem_writeCalls {σ : Type} (C : EditCollaborators σ) (w : WindowState σ)
    (r : Resource) (text : String) (t : GuideSemanticType) (e : Event)
    (h1 : ∀ r t, e ≠ .Resource_SetText r t) (h2 : ∀ r t, e ≠ .OPF_AddGuideSemanticType r t)
    (h3 : e ≠ .Book_SetModified) (h4 : e ≠ .BookBrowser_Refresh)
    (h5 : e.isOpenResource = false) : e ∉ writeCalls C w r text t := by
  intro he
  rcases writeCalls_kinds C w r text t e he with h | h | h | h | h
  · exact h1 _ _ h
  · exact h2 _ _ h
  · exact h3 h
  · exact h4 h
  · rw [h5] at h
    exact Bool.false_ne_true h

/-- C24: with well-formed tab data, when the search loop of `CreateIndex` finds no index
resource, the only `UpdateSpineOrder` call of `CreateIndex` passes the existing HTML
resources in their order followed by the new (renamed) resource as last element; when the
search loop of `CreateHTMLTOC` finds no contents resource, the only `UpdateSpineOrder` call
of `CreateHTMLTOC` passes the new resource as first element followed by the existing HTML
resources in their order; when the search finds a resource, neither function calls
`UpdateSpineOrder` or creates a file. -/
theorem generation_spine_order {σ : Type} (C : EditCollaborators σ) (w : WindowState σ)
    (hwf : C.IsAllTabDataWellFormed w.ext = true) :
    ((indexSearch C (C.TabManager_SaveTabData w.ext)).2 = none →
      ∀ l, Event.OPF_UpdateSpineOrder l ∈ callsSince w (CreateIndex C w) ↔
        l = (C.AllHTMLResources (C.TabManager_SaveTabData w.ext)).filterMap
              qobject_cast_HTMLResource ++
            [(C.Resource_RenameTo
              (C.Book_CreateEmptyHTMLFile (C.TabManager_SaveTabData w.ext)).2
              (C.Book_CreateEmptyHTMLFile (C.TabManager_SaveTabData w.ext)).1
              HTML_INDEX_FILE).1]) ∧
    ((tocSearch C (C.TabManager_SaveTabData w.ext)).2 = none →
      ∀ l, Event.OPF_UpdateSpineOrder l ∈ callsSince w (CreateHTMLTOC C w) ↔
        l = (C.Resource_RenameTo
              (C.Book_CreateEmptyHTMLFile (C.TabManager_SaveTabData w.ext)).2
              (C.Book_CreateEmptyHTMLFile (C.TabManager_SaveTabData w.ext)).1
              HTML_TOC_FILE).1 ::
            (C.AllHTMLResources (C.TabManager_SaveTabData w.ext)).filterMap
              qobject_cast_HTMLResource) ∧
    ((indexSearch C (C.TabManager_SaveTabData w.ext)).2 ≠ none →
      (∀ l, Event.OPF_UpdateSpineOrder l ∉ callsSince w (CreateIndex C w)) ∧
      Event.Book_CreateEmptyHTMLFile ∉ callsSince w (CreateIndex C w)) ∧
    ((tocSearch C (C.TabManager_SaveTabData w.ext)).2 ≠ none →
      (∀ l, Event.OPF_UpdateSpineOrder l ∉ callsSince w (CreateHTMLTOC C w)) ∧
      Event.Book_CreateEmptyHTMLFile ∉ callsSince w (CreateHTMLTOC C w)) := by
  obtain ⟨w7, idx, rest, hI, _, _, _⟩ := CreateIndex_calls C w hwf
  obtain ⟨w6, toc, hT, _, _, _⟩ := CreateHTMLTOC_calls C w hwf
  have hfst : (indexSearch C (C.TabManager_SaveTabData w.ext)).1 =
      (C.AllHTMLResources (C.TabManager_SaveTabData w.ext)).filterMap
        qobject_cast_HTMLResource := by
    rw [indexSearch_eq]
  have hfstT : (tocSearch C (C.TabManager_SaveTabData w.ext)).1 =
      (C.AllHTMLResources (C.TabManager_SaveTabData w.ext)).filterMap
        qobject_cast_HTMLResource := by
    rw [tocSearch_eq]
  have hw : ∀ (l : List Resource) (w0 : WindowState σ) (r : Resource) (text : String)
      (t : GuideSemanticType), Event.OPF_UpdateSpineOrder l ∉ writeCalls C w0 r text t :=
    fun l w0 r text t => not_mem_writeCalls C w0 r text t _ (by simp) (by simp) (by simp)
      (by simp) rfl
  have hw2 : ∀ (w0 : WindowState σ) (r : Resource) (text : String)
      (t : GuideSemanticType), Event.Book_CreateEmptyHTMLFile ∉ writeCalls C w0 r text t :=
    fun w0 r text t => not_mem_writeCalls C w0 r text t _ (by simp) (by simp) (by simp)
      (by simp) rfl
  refine ⟨?_, ?_, ?_, ?_⟩
  · intro hnone l
    rw [hI, hnone, ← hfst]
    by_cases hb : (C.Index_BuildIndex w7.ext rest).1 = true
    · simp [hb, hw]
    · simp [hb]
  · intro hnone l
    rw [hT, hnone, ← hfstT]
    simp [hw]
  · intro hsome
    obtain ⟨found, hf⟩ := Option.ne_none_iff_exists'.mp hsome
    rw [hI, hf]
    by_cases hb : (C.Index_BuildIndex w7.ext rest).1 = true
    · simp [hb, hw, hw2]
    · simp [hb]
  · intro hsome
    obtain ⟨found, hf⟩ := Option.ne_none_iff_exists'.mp hsome
    rw [hT, hf]
    simp [hw, hw2]

theorem generation_spine_order_witness :
    Event.OPF_UpdateSpineOrder
        [htmlResource "Chapter1.xhtml" [], htmlResource "Index.html" []] ∈
      callsSince (sampleWindow (sampleBook [htmlResource "Chapter1.xhtml" []] true))
        (CreateIndex sampleEditCollaborators
          (sampleWindow (sampleBook [htmlResource "Chapter1.xhtml" []] true))) :=
  ((generation_spine_order sampleEditCollaborators
    (sampleWindow (sampleBook [htmlResource "Chapter1.xhtml" []] true)) rfl).1
    (by decide) _).mpr (by decide)

theorem indexSearch_none_iff {σ : Type} (C : EditCollaborators σ) (s : σ) :
    (indexSearch C s).2 = none ↔
      ∀ h ∈ (C.AllHTMLResources s).filterMap qobject_cast_HTMLResource,
        C.GetGuideSemanticTypeForResource s h ≠ .Index := by
  rw [indexSearch_eq]
  simp only [List.find?_eq_none, List.mem_reverse, decide_eq_true_eq]

theorem tocSearch_none_iff {σ : Type} (C : EditCollaborators σ) (s : σ) :
    (tocSearch C s).2 = none ↔
      ∀ h ∈ (C.AllHTMLResources s).filterMap qobject_cast_HTMLResource,
        C.GetGuideSemanticTypeForResource s h ≠ .TableOfContents ∧
          h.Filename ≠ HTML_TOC_FILE := by
  rw [tocSearch_eq]
  simp only
  cases hrole : ((C.AllHTMLResources s).filterMap qobject_cast_HTMLResource).reverse.find?
      (fun h => decide (C.GetGuideSemanticTypeForResource s h = .TableOfContents)) with
  | some x =>
    have h1 := List.find?_some hrole
    have h2 := List.mem_of_find?_eq_some hrole
    simp only [decide_eq_true_eq] at h1
    simp only [List.mem_reverse] at h2
    constructor
    · intro h
      simp at h
    · intro h
      exact absurd h1 (h x h2).1
  | none =>
    simp only [List.find?_eq_none, List.mem_reverse, decide_eq_true_eq] at hrole ⊢
    constructor
    · intro h x hx
      exact ⟨hrole x hx, h x hx⟩
    · intro h x hx
      exact (h x hx).2

/-- C27 at its failing input: in a book whose HTML resources are `Section0001.xhtml` and
`Index.html`, none of them holding a guide role, the search loop of `CreateIndex` finds
nothing, and `CreateIndex` creates a new file and updates the spine order with the new
resource appended instead of reusing `Index.html`; on the corresponding book with
`TOC.html`, the search loop of `CreateHTMLTOC` finds `TOC.html`, and `CreateHTMLTOC`
creates no file and leaves the spine order alone. -/
theorem CreateIndex_ignores_Index_html :
    (indexSearch sampleEditCollaborators
      (sampleBook [htmlResource "Chapter1.xhtml" [], htmlResource "Index.html" []] true)).2 =
      none ∧
    (CreateIndex sampleEditCollaborators
      (sampleWindow (sampleBook [htmlResource "Chapter1.xhtml" [],
        htmlResource "Index.html" []] true))).log =
      [.IsAllTabDataWellFormed, .TabManager_SaveTabData, .Book_CreateEmptyHTMLFile,
       .Resource_RenameTo (htmlResource "Section0001.xhtml" []) "Index.html",
       .OPF_UpdateSpineOrder [htmlResource "Chapter1.xhtml" [], htmlResource "Index.html" [],
         htmlResource "Section0001.xhtml" []],
       .Index_BuildIndex [htmlResource "Chapter1.xhtml" [], htmlResource "Index.html" []],
       .Resource_SetText (htmlResource "Section0001.xhtml" [])
         "<html><body><h1>Index</h1></body></html>",
       .OPF_AddGuideSemanticType (htmlResource "Section0001.xhtml" []) .Index,
       .Book_SetModified, .BookBrowser_Refresh,
       .TabManager_OpenResource (htmlResource "Section0001.xhtml" []) false ""
         .ViewState_BookView (-1) (-1) "" true] ∧
    (tocSearch sampleEditCollaborators
      (sampleBook [htmlResource "Chapter1.xhtml" [], htmlResource "TOC.html" []] true)).2 =
      some (htmlResource "TOC.html" []) ∧
    Event.Book_CreateEmptyHTMLFile ∉
      (CreateHTMLTOC sampleEditCollaborators
        (sampleWindow (sampleBook [htmlResource "Chapter1.xhtml" [],
          htmlResource "TOC.html" []] true))).log := by
  decide

/-! ## The well-formedness gate of the structural edits -/

/-- C28: when `IsAllTabDataWellFormed()` is false, each structural edit only queries the
check, shows its status message and returns: `MergeResources` (for a selection that reaches
the check) has made, besides the `PreviousResource` query or the confirmation box, exactly
these two calls and leaves the collaborators and the window untouched;
`SplitOnSGFSectionMarkers`, `CreateIndex`, `CreateHTMLTOC` and `LinkStylesheetsToResources`
(for a non-empty selection) return the window state they started in with exactly these two
calls added.  So no tab data is saved, no tab is closed, no resource is created or written,
and neither spine order nor guide semantics change. -/
theorem structural_edits_gated {σ : Type} (C : EditCollaborators σ) (w : WindowState σ)
    (hwf : C.IsAllTabDataWellFormed w.ext = false) :
    (∀ resources button_pressed_Ok L,
      mergeList C.toCollaborators w.ext resources button_pressed_Ok = some L →
      ∃ pre : List Event,
        (∀ e ∈ pre, (∃ r, e = .Book_PreviousResource r) ∨ ∃ t, e = .QMessageBox_warning t) ∧
        callsSince w (MergeResources C.toCollaborators w resources button_pressed_Ok) =
          pre ++ [.IsAllTabDataWellFormed,
            .StatusBar_showMessage "Merge cancelled due to XML not well formed."] ∧
        (MergeResources C.toCollaborators w resources button_pressed_Ok).ext = w.ext ∧
        (MergeResources C.toCollaborators w resources button_pressed_Ok).mw = w.mw) ∧
    SplitOnSGFSectionMarkers C w =
      some { w with log := w.log ++ [.IsAllTabDataWellFormed,
        .StatusBar_showMessage "Split cancelled due to XML not well formed."] } ∧
    CreateIndex C w =
      { w with log := w.log ++ [.IsAllTabDataWellFormed,
        .StatusBar_showMessage "Create Index cancelled due to XML not well formed."] } ∧
    CreateHTMLTOC C w =
      { w with log := w.log ++ [.IsAllTabDataWellFormed,
        .StatusBar_showMessage "Create HTML TOC cancelled due to XML not well formed."] } ∧
    (∀ resources dialog_Accepted dialog_stylesheets, resources ≠ [] →
      LinkStylesheetsToResources C w resources dialog_Accepted dialog_stylesheets =
        some { w with log := w.log ++ [.IsAllTabDataWellFormed,
          .StatusBar_showMessage
            "Link Stylesheets cancelled due to XML not well formed."] }) := by
  refine ⟨?_, ?_, ?_, ?_, ?_⟩
  · intro resources ok L hL
    exact MergeResources_not_wellFormed_calls C.toCollaborators w resources ok L hL hwf
  · unfold SplitOnSGFSectionMarkers
    simp [record_ext, hwf, ShowMessageOnStatusBar, WindowState.record]
  · unfold CreateIndex
    simp [record_ext, hwf, ShowMessageOnStatusBar, WindowState.record]
  · unfold CreateHTMLTOC
    simp [record_ext, hwf, ShowMessageOnStatusBar, WindowState.record]
  · intro resources acc sheets hne
    unfold LinkStylesheetsToResources
    have he : resources.isEmpty = false := by
      cases resources with
      | nil => exact absurd rfl hne
      | cons a l => rfl
    simp [he, record_ext, hwf, ShowMessageOnStatusBar, WindowState.record]

theorem structural_edits_gated_witness :
    CreateIndex sampleEditCollaborators
        (sampleWindow (sampleBook [htmlResource "Chapter1.xhtml" []] false)) =
      { sampleWindow (sampleBook [htmlResource "Chapter1.xhtml" []] false) with
        log := (sampleWindow (sampleBook [htmlResource "Chapter1.xhtml" []] false)).log ++
          [.IsAllTabDataWellFormed,
           .StatusBar_showMessage "Create Index cancelled due to XML not well formed."] } :=
  (structural_edits_gated sampleEditCollaborators
    (sampleWindow (sampleBook [htmlResource "Chapter1.xhtml" []] false)) rfl).2.2.1

/-! ## Guide roles under index and contents generation -/

theorem OpenResource_ext_cases {σ : Type} (C : Collaborators σ) (w : WindowState σ)
    (r : Resource) (p : Bool) (f : String) (v : ViewState) (l q : ℤ) (c : String) (g : Bool) :
    ∃ vs, (OpenResource C w r p f v l q c g).ext = C.TabManager_OpenResource w.ext r p f vs l q c g ∨
      (OpenResource C w r p f v l q c g).ext =
        C.afterSetViewState (C.TabManager_OpenResource w.ext r p f vs l q c g) vs := by
  unfold OpenResource
  simp only
  split_ifs
  · exact ⟨_, Or.inr rfl⟩
  · exact ⟨_, Or.inl rfl⟩
  · exact ⟨_, Or.inr rfl⟩
  · exact ⟨_, Or.inl rfl⟩

theorem OpenResourceDefault_guide {σ : Type} (C : EditCollaborators σ) (laws : GuideLaws C)
    (w : WindowState σ) (r x : Resource) :
    C.GetGuideSemanticTypeForResource (OpenResourceDefault C.toCollaborators w r).ext x =
      C.GetGuideSemanticTypeForResource w.ext x := by
  unfold OpenResourceDefault
  obtain ⟨vs, h | h⟩ := OpenResource_ext_cases C.toCollaborators w r
    C.OpenResource_defaults.precede_current_tab C.OpenResource_defaults.fragment
    C.OpenResource_defaults.view_state C.OpenResource_defaults.line_to_scroll_to
    C.OpenResource_defaults.position_to_scroll_to
    C.OpenResource_defaults.caret_location_to_scroll_to C.OpenResource_defaults.grab_focus
  · rw [h, laws.OpenResource_guide]
  · rw [h, laws.afterSetViewState_guide, laws.OpenResource_guide]

theorem writeDerivedResource_guide {σ : Type} (C : EditCollaborators σ) (laws : GuideLaws C)
    (w : WindowState σ) (r : Resource) (text : String) (t : GuideSemanticType) (x : Resource) :
    C.GetGuideSemanticTypeForResource (writeDerivedResource C w r text t).ext x =
      if x = r then t else C.GetGuideSemanticTypeForResource w.ext x := by
  unfold writeDerivedResource
  simp only [OpenResourceDefault_guide C laws, laws.Refresh_guide, laws.SetModified_guide,
    record_ext]
  by_cases hg : C.GetGuideSemanticTypeForResource (C.Resource_SetText w.ext r text) r ≠ t
  · rw [if_pos hg]
    by_cases hx : x = r
    · subst hx
      simp only [laws.AddGuideSemanticType_self, if_neg hg, if_true]
    · simp only [laws.AddGuideSemanticType_other _ _ _ _ hx, laws.SetText_guide, if_neg hx]
  · rw [if_neg hg]
    simp only [not_not] at hg
    by_cases hx : x = r
    · subst hx
      simp only [hg, if_true]
    · simp only [laws.SetText_guide, if_neg hx]

theorem role_after_write {σ : Type} (C : EditCollaborators σ) (laws : GuideLaws C)
    (w : WindowState σ) (d : Resource) (text : String) (t : GuideSemanticType)
    (hno : ∀ x, x ≠ d → C.GetGuideSemanticTypeForResource w.ext x ≠ t) (x : Resource) :
    C.GetGuideSemanticTypeForResource (writeDerivedResource C w d text t).ext x = t ↔
      x = d := by
  rw [writeDerivedResource_guide C laws]
  by_cases hx : x = d
  · simp [hx]
  · simp only [if_neg hx, hx, iff_false]
    exact hno x hx

theorem mem_cast_of_html {σ : Type} (C : EditCollaborators σ) (s : σ) (x : Resource)
    (h : x ∈ C.AllHTMLResources s ∧ x.type = .HTMLResourceType) :
    x ∈ (C.AllHTMLResources s).filterMap qobject_cast_HTMLResource := by
  rw [List.mem_filterMap]
  exact ⟨x, h.1, qobject_cast_of_html x h.2⟩

theorem indexSearch_some_unique {σ : Type} (C : EditCollaborators σ) (s : σ) (f : Resource)
    (hf : (indexSearch C s).2 = some f)
    (hone : ∀ x y, C.GetGuideSemanticTypeForResource s x = .Index →
      C.GetGuideSemanticTypeForResource s y = .Index → x = y) :
    ∀ x, x ≠ f → C.GetGuideSemanticTypeForResource s x ≠ .Index := by
  rw [indexSearch_eq] at hf
  have h1 := List.find?_some hf
  simp only [decide_eq_true_eq] at h1
  intro x hx hg
  exact hx (hone x f hg h1)

theorem tocSearch_some_unique {σ : Type} (C : EditCollaborators σ) (s : σ) (f : Resource)
    (hf : (tocSearch C s).2 = some f)
    (hone : ∀ x y, C.GetGuideSemanticTypeForResource s x = .TableOfContents →
      C.GetGuideSemanticTypeForResource s y = .TableOfContents → x = y)
    (hheld : ∀ x, C.GetGuideSemanticTypeForResource s x = .TableOfContents →
      x ∈ C.AllHTMLResources s ∧ x.type = .HTMLResourceType) :
    ∀ x, x ≠ f → C.GetGuideSemanticTypeForResource s x ≠ .TableOfContents := by
  rw [tocSearch_eq] at hf
  simp only at hf
  intro x hx hg
  cases hrole : ((C.AllHTMLResources s).filterMap qobject_cast_HTMLResource).reverse.find?
      (fun h => decide (C.GetGuideSemanticTypeForResource s h = .TableOfContents)) with
  | some h =>
    rw [hrole] at hf
    simp only [Option.some.injEq] at hf
    have h1 := List.find?_some hrole
    simp only [decide_eq_true_eq] at h1
    rw [hf] at h1
    exact hx (hone x f hg h1)
  | none =>
    simp only [List.find?_eq_none, List.mem_reverse, decide_eq_true_eq] at hrole
    exact hrole x (mem_cast_of_html C s x (hheld x hg)) hg

theorem created_not_role {σ : Type} (C : EditCollaborators σ) (laws : GuideLaws C) (s : σ)
    (name : String) (l : List Resource) (t : GuideSemanticType) (ht : t ≠ .NoType)
    (hno : ∀ x, C.GetGuideSemanticTypeForResource s x ≠ t) :
    ∀ x, x ≠ (C.Resource_RenameTo (C.Book_CreateEmptyHTMLFile s).2
        (C.Book_CreateEmptyHTMLFile s).1 name).1 →
      C.GetGuideSemanticTypeForResource
        (C.UpdateSpineOrder (C.Resource_RenameTo (C.Book_CreateEmptyHTMLFile s).2
          (C.Book_CreateEmptyHTMLFile s).1 name).2 l) x ≠ t := by
  intro x hx
  rw [laws.UpdateSpineOrder_guide, laws.RenameTo_other _ _ _ _ hx]
  by_cases hc : x = (C.Book_CreateEmptyHTMLFile s).1
  · rw [hc, laws.CreateEmptyHTMLFile_new]
    exact fun h => ht h.symm
  · rw [laws.CreateEmptyHTMLFile_other _ _ hc]
    exact hno x

theorem CreateIndex_single_role {σ : Type} (C : EditCollaborators σ) (laws : GuideLaws C)
    (w : WindowState σ) (hwf : C.IsAllTabDataWellFormed w.ext = true)
    (hone : ∀ x y, C.GetGuideSemanticTypeForResource w.ext x = .Index →
      C.GetGuideSemanticTypeForResource w.ext y = .Index → x = y)
    (hheld : ∀ x, C.GetGuideSemanticTypeForResource w.ext x = .Index →
      x ∈ C.AllHTMLResources w.ext ∧ x.type = .HTMLResourceType)
    (hdone : Event.Book_SetModified ∈ callsSince w (CreateIndex C w)) :
    ∃ d text, Event.Resource_SetText d text ∈ callsSince w (CreateIndex C w) ∧
      ∀ x, C.GetGuideSemanticTypeForResource (CreateIndex C w).ext x = .Index ↔ x = d := by
  obtain ⟨w7, idx, rest, hcalls, hidx, hext, hrun⟩ := CreateIndex_calls C w hwf
  have hb : (C.Index_BuildIndex w7.ext rest).1 = true := by
    by_contra hb
    rw [hcalls, if_neg hb] at hdone
    cases hfound : (indexSearch C (C.TabManager_SaveTabData w.ext)).2 with
    | none => rw [hfound] at hdone; simp at hdone
    | some f => rw [hfound] at hdone; simp at hdone
  rw [if_pos hb] at hcalls hrun
  have hone1 : ∀ x y, C.GetGuideSemanticTypeForResource (C.TabManager_SaveTabData w.ext) x =
      .Index → C.GetGuideSemanticTypeForResource (C.TabManager_SaveTabData w.ext) y = .Index →
      x = y := by
    intro x y hx hy
    rw [laws.SaveTabData_guide] at hx hy
    exact hone x y hx hy
  have hno7 : ∀ x, x ≠ idx → C.GetGuideSemanticTypeForResource w7.ext x ≠ .Index := by
    rw [hext, hidx]
    cases hfound : (indexSearch C (C.TabManager_SaveTabData w.ext)).2 with
    | some f =>
      simp only
      intro x hx
      rw [laws.CloseTabForResource_guide]
      exact indexSearch_some_unique C _ f hfound hone1 x hx
    | none =>
      simp only
      refine created_not_role C laws _ _ _ _ (by simp) ?_
      intro x hx
      have hx0 := hx
      rw [laws.SaveTabData_guide] at hx0
      have hm := mem_cast_of_html C w.ext x (hheld x hx0)
      rw [← laws.SaveTabData_html] at hm
      exact (indexSearch_none_iff C _).mp hfound x hm hx
  refine ⟨idx, C.IndexHTMLWriter_WriteXML (C.Index_BuildIndex w7.ext rest).2, ?_, ?_⟩
  · rw [hcalls]
    simp [writeCalls]
  · intro x
    rw [hrun]
    apply role_after_write C laws
    intro y hy
    simp only [laws.BuildIndex_guide]
    exact hno7 y hy

theorem CreateHTMLTOC_single_role {σ : Type} (C : EditCollaborators σ) (laws : GuideLaws C)
    (w : WindowState σ) (hwf : C.IsAllTabDataWellFormed w.ext = true)
    (hone : ∀ x y, C.GetGuideSemanticTypeForResource w.ext x = .TableOfContents →
      C.GetGuideSemanticTypeForResource w.ext y = .TableOfContents → x = y)
    (hheld : ∀ x, C.GetGuideSemanticTypeForResource w.ext x = .TableOfContents →
      x ∈ C.AllHTMLResources w.ext ∧ x.type = .HTMLResourceType) :
    ∃ d text, Event.Resource_SetText d text ∈ callsSince w (CreateHTMLTOC C w) ∧
      ∀ x, C.GetGuideSemanticTypeForResource (CreateHTMLTOC C w).ext x = .TableOfContents ↔
        x = d := by
  obtain ⟨w6, toc, hcalls, htoc, hext, hrun⟩ := CreateHTMLTOC_calls C w hwf
  have hone1 : ∀ x y, C.GetGuideSemanticTypeForResource (C.TabManager_SaveTabData w.ext) x =
      .TableOfContents →
      C.GetGuideSemanticTypeForResource (C.TabManager_SaveTabData w.ext) y =
        .TableOfContents → x = y := by
    intro x y hx hy
    rw [laws.SaveTabData_guide] at hx hy
    exact hone x y hx hy
  have hheld1 : ∀ x, C.GetGuideSemanticTypeForResource (C.TabManager_SaveTabData w.ext) x =
      .TableOfContents → x ∈ C.AllHTMLResources (C.TabManager_SaveTabData w.ext) ∧
        x.type = .HTMLResourceType := by
    intro x hx
    rw [laws.SaveTabData_guide] at hx
    rw [laws.SaveTabData_html]
    exact hheld x hx
  have hno6 : ∀ x, x ≠ toc → C.GetGuideSemanticTypeForResource w6.ext x ≠ .TableOfContents := by
    rw [hext, htoc]
    cases hfound : (tocSearch C (C.TabManager_SaveTabData w.ext)).2 with
    | some f =>
      simp only
      intro x hx
      rw [laws.CloseTabForResource_guide]
      exact tocSearch_some_unique C _ f hfound hone1 hheld1 x hx
    | none =>
      simp only
      refine created_not_role C laws _ _ _ _ (by simp) ?_
      intro x hx
      exact ((tocSearch_none_iff C _).mp hfound x (mem_cast_of_html C _ x (hheld1 x hx))).1 hx
  refine ⟨toc, C.TOCHTMLWriter_WriteXML w6.ext, ?_, ?_⟩
  · rw [hcalls]
    simp [writeCalls]
  · intro x
    rw [hrun]
    exact role_after_write C laws _ _ _ _ hno6 x

theorem sample_GuideLaws : GuideLaws sampleEditCollaborators where
  AddGuideSemanticType_self := by
    intro s r t
    simp [sampleEditCollaborators]
  AddGuideSemanticType_other := by
    intro s r t x hx
    simp [sampleEditCollaborators, hx]
  CreateEmptyHTMLFile_new := by
    intro s
    simp [sampleEditCollaborators]
  CreateEmptyHTMLFile_other := by
    intro s x hx
    simp only [sampleEditCollaborators] at hx ⊢
    simp [hx]
  RenameTo_self := by
    intro s r name
    simp only [sampleEditCollaborators]
    split_ifs <;> simp
  RenameTo_other := by
    intro s r name x hx
    simp only [sampleEditCollaborators] at hx ⊢
    split_ifs at hx ⊢
    · rfl
    · simp only at hx
      simp [hx]
  SaveTabData_guide := fun _ _ => rfl
  SaveTabData_html := fun _ => rfl
  CloseTabForResource_guide := fun _ _ _ => rfl
  UpdateSpineOrder_guide := fun _ _ _ => rfl
  BuildIndex_guide := fun _ _ _ => rfl
  SetText_guide := fun _ _ _ _ => rfl
  SetModified_guide := fun _ _ => rfl
  Refresh_guide := fun _ _ => rfl
  OpenResource_guide := fun _ _ _ _ _ _ _ _ _ _ => rfl
  afterSetViewState_guide := fun _ _ _ => rfl

/-- C25: let the OPF guide behave as in `GuideLaws` (`AddGuideSemanticType` a toggle), let
tab data be well formed, and let at most one resource hold the Index (resp.
TableOfContents) role, that resource being an HTML resource of the book.  Then after
`CreateIndex` has run to completion (it reached `SetModified`), resp. after
`CreateHTMLTOC`, exactly one resource holds that role, and it is the resource whose text
the run has written. -/
theorem generation_single_role {σ : Type} (C : EditCollaborators σ) (laws : GuideLaws C)
    (w : WindowState σ) (hwf : C.IsAllTabDataWellFormed w.ext = true) :
    ((∀ x y, C.GetGuideSemanticTypeForResource w.ext x = .Index →
        C.GetGuideSemanticTypeForResource w.ext y = .Index → x = y) →
      (∀ x, C.GetGuideSemanticTypeForResource w.ext x = .Index →
        x ∈ C.AllHTMLResources w.ext ∧ x.type = .HTMLResourceType) →
      Event.Book_SetModified ∈ callsSince w (CreateIndex C w) →
      ∃ d text, Event.Resource_SetText d text ∈ callsSince w (CreateIndex C w) ∧
        ∀ x, C.GetGuideSemanticTypeForResource (CreateIndex C w).ext x = .Index ↔ x = d) ∧
    ((∀ x y, C.GetGuideSemanticTypeForResource w.ext x = .TableOfContents →
        C.GetGuideSemanticTypeForResource w.ext y = .TableOfContents → x = y) →
      (∀ x, C.GetGuideSemanticTypeForResource w.ext x = .TableOfContents →
        x ∈ C.AllHTMLResources w.ext ∧ x.type = .HTMLResourceType) →
      ∃ d text, Event.Resource_SetText d text ∈ callsSince w (CreateHTMLTOC C w) ∧
        ∀ x, C.GetGuideSemanticTypeForResource (CreateHTMLTOC C w).ext x =
          .TableOfContents ↔ x = d) :=
  ⟨fun hone hheld hdone => CreateIndex_single_role C laws w hwf hone hheld hdone,
   fun hone hheld => CreateHTMLTOC_single_role C laws w hwf hone hheld⟩

theorem generation_single_role_witness :
    ∃ d text, Event.Resource_SetText d text ∈
        callsSince (sampleWindow (sampleBook [htmlResource "Chapter1.xhtml" []] true))
          (CreateIndex sampleEditCollaborators
            (sampleWindow (sampleBook [htmlResource "Chapter1.xhtml" []] true))) ∧
      ∀ x, sampleEditCollaborators.GetGuideSemanticTypeForResource
        (CreateIndex sampleEditCollaborators
          (sampleWindow (sampleBook [htmlResource "Chapter1.xhtml" []] true))).ext x =
          .Index ↔ x = d :=
  (generation_single_role sampleEditCollaborators sample_GuideLaws
    (sampleWindow (sampleBook [htmlResource "Chapter1.xhtml" []] true)) rfl).1
    (fun x _ h => absurd h (by simp [sampleEditCollaborators, sampleWindow, sampleBook]))
    (fun x h => absurd h (by simp [sampleEditCollaborators, sampleWindow, sampleBook]))
    (by decide)

/-- C26 (as stated) fails: in the sample book, a first `CreateIndex` creates `Index.html`
and gives it the Index role; after a second `CreateIndex` the resource still holds the
role. -/
theorem CreateIndex_again_keeps_role_counterexample :
    sampleEditCollaborators.GetGuideSemanticTypeForResource
      (CreateIndex sampleEditCollaborators
        (sampleWindow (sampleBook [htmlResource "Chapter1.xhtml" []] true))).ext
      (htmlResource "Index.html" []) = .Index ∧
    sampleEditCollaborators.GetGuideSemanticTypeForResource
      (CreateIndex sampleEditCollaborators
        (CreateIndex sampleEditCollaborators
          (sampleWindow (sampleBook [htmlResource "Chapter1.xhtml" []] true)))).ext
      (htmlResource "Index.html" []) = .Index := by
  decide

theorem indexSearch_of_holder {σ : Type} (C : EditCollaborators σ) (s : σ) (d : Resource)
    (hd : C.GetGuideSemanticTypeForResource s d = .Index)
    (hmem : d ∈ C.AllHTMLResources s ∧ d.type = .HTMLResourceType)
    (hone : ∀ x y, C.GetGuideSemanticTypeForResource s x = .Index →
      C.GetGuideSemanticTypeForResource s y = .Index → x = y) :
    (indexSearch C s).2 = some d := by
  cases hfound : (indexSearch C s).2 with
  | none =>
    exact absurd hd ((indexSearch_none_iff C s).mp hfound d (mem_cast_of_html C s d hmem))
  | some f =>
    rw [indexSearch_eq] at hfound
    have h1 := List.find?_some hfound
    simp only [decide_eq_true_eq] at h1
    rw [hone f d h1 hd]

theorem tocSearch_of_holder {σ : Type} (C : EditCollaborators σ) (s : σ) (d : Resource)
    (hd : C.GetGuideSemanticTypeForResource s d = .TableOfContents)
    (hmem : d ∈ C.AllHTMLResources s ∧ d.type = .HTMLResourceType)
    (hone : ∀ x y, C.GetGuideSemanticTypeForResource s x = .TableOfContents →
      C.GetGuideSemanticTypeForResource s y = .TableOfContents → x = y) :
    (tocSearch C s).2 = some d := by
  rw [tocSearch_eq]
  simp only
  cases hrole : ((C.AllHTMLResources s).filterMap qobject_cast_HTMLResource).reverse.find?
      (fun h => decide (C.GetGuideSemanticTypeForResource s h = .TableOfContents)) with
  | none =>
    simp only [List.find?_eq_none, List.mem_reverse, decide_eq_true_eq] at hrole
    exact absurd hd (hrole d (mem_cast_of_html C s d hmem))
  | some f =>
    have h1 := List.find?_some hrole
    simp only [decide_eq_true_eq] at h1
    rw [hone f d h1 hd]

theorem writeCalls_of_role {σ : Type} (C : EditCollaborators σ) (laws : GuideLaws C)
    (w : WindowState σ) (d : Resource) (text : String) (t : GuideSemanticType)
    (hd : C.GetGuideSemanticTypeForResource w.ext d = t) :
    ∀ r t2, Event.OPF_AddGuideSemanticType r t2 ∉ writeCalls C w d text t := by
  intro r t2
  unfold writeCalls
  rw [laws.SetText_guide, if_neg (by simpa using hd)]
  simp

/-- C26 (amended): let the OPF guide behave as in `GuideLaws`, let tab data be well formed,
and let `d`, an HTML resource of the book, be the only resource holding the Index (resp.
TableOfContents) role.  Then `CreateIndex` (resp. `CreateHTMLTOC`) does not call
`AddGuideSemanticType` at all, and when it has run to completion `d` still holds the role
and is the only resource that does. -/
theorem generation_again_keeps_role {σ : Type} (C : EditCollaborators σ) (laws : GuideLaws C)
    (w : WindowState σ) (d : Resource) (hwf : C.IsAllTabDataWellFormed w.ext = true)
    (hmem : d ∈ C.AllHTMLResources w.ext ∧ d.type = .HTMLResourceType) :
    ((∀ x, C.GetGuideSemanticTypeForResource w.ext x = .Index ↔ x = d) →
      (∀ r t, Event.OPF_AddGuideSemanticType r t ∉ callsSince w (CreateIndex C w)) ∧
      (Event.Book_SetModified ∈ callsSince w (CreateIndex C w) →
        ∀ x, C.GetGuideSemanticTypeForResource (CreateIndex C w).ext x = .Index ↔ x = d)) ∧
    ((∀ x, C.GetGuideSemanticTypeForResource w.ext x = .TableOfContents ↔ x = d) →
      (∀ r t, Event.OPF_AddGuideSemanticType r t ∉ callsSince w (CreateHTMLTOC C w)) ∧
      ∀ x, C.GetGuideSemanticTypeForResource (CreateHTMLTOC C w).ext x =
        .TableOfContents ↔ x = d) := by
  have hmem1 : d ∈ C.AllHTMLResources (C.TabManager_SaveTabData w.ext) ∧
      d.type = .HTMLResourceType := by
    rw [laws.SaveTabData_html]
    exact hmem
  constructor
  · intro hrole
    have hd : C.GetGuideSemanticTypeForResource (C.TabManager_SaveTabData w.ext) d =
        .Index := by
      rw [laws.SaveTabData_guide]
      exact (hrole d).mpr rfl
    have hone1 : ∀ x y, C.GetGuideSemanticTypeForResource (C.TabManager_SaveTabData w.ext) x =
        .Index → C.GetGuideSemanticTypeForResource (C.TabManager_SaveTabData w.ext) y =
        .Index → x = y := by
      intro x y hx hy
      rw [laws.SaveTabData_guide] at hx hy
      rw [(hrole x).mp hx, (hrole y).mp hy]
    have hfound := indexSearch_of_holder C _ d hd hmem1 hone1
    obtain ⟨w7, idx, rest, hcalls, hidx, hext, hrun⟩ := CreateIndex_calls C w hwf
    rw [hfound] at hcalls hidx hext
    simp only at hcalls hidx hext
    subst hidx
    have h7 : C.GetGuideSemanticTypeForResource w7.ext idx = .Index := by
      rw [hext, laws.CloseTabForResource_guide]
      exact hd
    constructor
    · intro r t
      rw [hcalls]
      by_cases hb : (C.Index_BuildIndex w7.ext rest).1 = true
      · have hw := writeCalls_of_role C laws
          { (w7.record (.Index_BuildIndex rest)) with
            ext := (C.Index_BuildIndex w7.ext rest).2 } idx
          (C.IndexHTMLWriter_WriteXML (C.Index_BuildIndex w7.ext rest).2) .Index
          (by simp only [laws.BuildIndex_guide]; exact h7) r t
        simp [hb, hw]
      · simp [hb]
    · intro hdone
      obtain ⟨d2, text, _, h2⟩ := CreateIndex_single_role C laws w hwf
        (fun x y hx hy => by rw [(hrole x).mp hx, (hrole y).mp hy])
        (fun x hx => by rw [(hrole x).mp hx]; exact hmem) hdone
      have hb : (C.Index_BuildIndex w7.ext rest).1 = true := by
        by_contra hb
        rw [hcalls, if_neg hb] at hdone
        simp at hdone
      have hidx2 : C.GetGuideSemanticTypeForResource (CreateIndex C w).ext idx = .Index := by
        rw [hrun, if_pos hb, writeDerivedResource_guide C laws, if_pos rfl]
      have : idx = d2 := (h2 idx).mp hidx2
      rw [this]
      exact h2
  · intro hrole
    have hd : C.GetGuideSemanticTypeForResource (C.TabManager_SaveTabData w.ext) d =
        .TableOfContents := by
      rw [laws.SaveTabData_guide]
      exact (hrole d).mpr rfl
    have hone1 : ∀ x y, C.GetGuideSemanticTypeForResource (C.TabManager_SaveTabData w.ext) x =
        .TableOfContents →
        C.GetGuideSemanticTypeForResource (C.TabManager_SaveTabData w.ext) y =
        .TableOfContents → x = y := by
      intro x y hx hy
      rw [laws.SaveTabData_guide] at hx hy
      rw [(hrole x).mp hx, (hrole y).mp hy]
    have hfound := tocSearch_of_holder C _ d hd hmem1 hone1
    obtain ⟨w6, toc, hcalls, htoc, hext, hrun⟩ := CreateHTMLTOC_calls C w hwf
    rw [hfound] at hcalls htoc hext
    simp only at hcalls htoc hext
    subst htoc
    have h6 : C.GetGuideSemanticTypeForResource w6.ext toc = .TableOfContents := by
      rw [hext, laws.CloseTabForResource_guide]
      exact hd
    constructor
    · intro r t
      rw [hcalls]
      have hw := writeCalls_of_role C laws w6 toc (C.TOCHTMLWriter_WriteXML w6.ext)
        .TableOfContents h6 r t
      simp [hw]
    · obtain ⟨d2, text, _, h2⟩ := CreateHTMLTOC_single_role C laws w hwf
        (fun x y hx hy => by rw [(hrole x).mp hx, (hrole y).mp hy])
        (fun x hx => by rw [(hrole x).mp hx]; exact hmem)
      have htoc2 : C.GetGuideSemanticTypeForResource (CreateHTMLTOC C w).ext toc =
          .TableOfContents := by
        rw [hrun, writeDerivedResource_guide C laws, if_pos rfl]
      have : toc = d2 := (h2 toc).mp htoc2
      rw [this]
      exact h2

theorem generation_again_keeps_role_witness :
    Event.OPF_AddGuideSemanticType (htmlResource "Index.html" []) .Index ∉
      callsSince
        (sampleWindow (sampleBookWithRole
          [htmlResource "Chapter1.xhtml" [], htmlResource "Index.html" []]
          (htmlResource "Index.html" []) .Index))
        (CreateIndex sampleEditCollaborators
          (sampleWindow (sampleBookWithRole
            [htmlResource "Chapter1.xhtml" [], htmlResource "Index.html" []]
            (htmlResource "Index.html" []) .Index))) :=
  ((generation_again_keeps_role sampleEditCollaborators sample_GuideLaws
    (sampleWindow (sampleBookWithRole
      [htmlResource "Chapter1.xhtml" [], htmlResource "Index.html" []]
      (htmlResource "Index.html" []) .Index))
    (htmlResource "Index.html" []) rfl (by decide)).1
    (fun x => by
      simp only [sampleEditCollaborators, sampleWindow, sampleBookWithRole]
      split_ifs with h <;> simp [h])).1 (htmlResource "Index.html" []) .Index

/-! ## The view state is never unknown -/

theorem UpdateViewState_m_ViewState (env : Env) (mw : MainWindow) (b : Bool) :
    (UpdateViewState env mw b).2.m_ViewState = mw.m_ViewState ∨
      (UpdateViewState env mw b).2.m_ViewState = .ViewState_BookView := by
  unfold UpdateViewState
  cases env.tab with
  | none => exact Or.inl rfl
  | some t =>
    simp only
    split_ifs
    all_goals first | exact Or.inl rfl | exact Or.inr rfl

theorem SetViewState_of_success (env : Env) (mw : MainWindow) (vs : ViewState)
    (h : (UpdateViewState env { mw with m_ViewState := requestedViewState vs }
      (decide (mw.m_ViewState ≠ requestedViewState vs))).1 = true) :
    SetViewState env mw vs =
      (UpdateViewState env { mw with m_ViewState := requestedViewState vs }
        (decide (mw.m_ViewState ≠ requestedViewState vs))).2 := by
  unfold requestedViewState at h ⊢
  unfold SetViewState
  simp only [h, Bool.not_true, Bool.false_eq_true, if_false]

theorem SetViewState_m_ViewState (env : Env) (mw : MainWindow) (vs : ViewState) :
    (SetViewState env mw vs).m_ViewState = mw.m_ViewState ∨
      (SetViewState env mw vs).m_ViewState = requestedViewState vs ∨
      (SetViewState env mw vs).m_ViewState = .ViewState_BookView := by
  cases h : (UpdateViewState env { mw with m_ViewState := requestedViewState vs }
      (decide (mw.m_ViewState ≠ requestedViewState vs))).1 with
  | false => exact Or.inl (SetViewState_of_failure env mw vs h).1
  | true =>
    rw [SetViewState_of_success env mw vs h]
    rcases UpdateViewState_m_ViewState env { mw with m_ViewState := requestedViewState vs }
      (decide (mw.m_ViewState ≠ requestedViewState vs)) with h2 | h2
    · exact Or.inr (Or.inl h2)
    · exact Or.inr (Or.inr h2)

theorem requestedViewState_ne_Unknown (vs : ViewState) :
    requestedViewState vs ≠ .ViewState_Unknown := by
  unfold requestedViewState
  split_ifs with h
  · decide
  · exact h

theorem SetViewState_html_success (env : Env) (mw : MainWindow) (vs : ViewState)
    (t : ContentTab) (ht : env.tab = some t) (hh : t.resourceType = .HTMLResourceType)
    (hs : (UpdateViewState env { mw with m_ViewState := requestedViewState vs }
      (decide (mw.m_ViewState ≠ requestedViewState vs))).1 = true) :
    (SetViewState env mw vs).m_ViewState =
      if vs = .ViewState_CodeView then .ViewState_CodeView
      else if vs = .ViewState_PreviewView then .ViewState_PreviewView
      else .ViewState_BookView := by
  rw [SetViewState_of_success env mw vs hs]
  unfold UpdateViewState at hs ⊢
  simp only [ht, hh, if_true] at hs ⊢
  unfold requestedViewState at hs ⊢
  cases vs <;> simp only [if_true, if_false, reduceCtorEq] at hs ⊢ <;>
    split_ifs at hs ⊢ <;> rfl

theorem UpdateViewState_keeps (env : Env) (mw : MainWindow) (b : Bool)
    (h : mw.m_ViewState = .ViewState_PreviewView ∨ mw.m_ViewState = .ViewState_CodeView ∨
      mw.m_ViewState = .ViewState_BookView) :
    (UpdateViewState env mw b).2.m_ViewState = mw.m_ViewState := by
  unfold UpdateViewState
  cases env.tab with
  | none => rfl
  | some t =>
    simp only
    split_ifs with h1 h2 h3 h4
    all_goals first | rfl | skip
    rcases h with h | h | h
    · exact absurd h h4
    · exact absurd h h3
    · exact h.symm

theorem SetViewState_same (env : Env) (mw : MainWindow) (vs : ViewState)
    (hm : mw.m_ViewState = vs)
    (h : vs = .ViewState_PreviewView ∨ vs = .ViewState_CodeView ∨ vs = .ViewState_BookView) :
    (SetViewState env mw vs).m_ViewState = vs := by
  have hreq : requestedViewState vs = vs := by
    rcases h with h | h | h <;> rw [h] <;> rfl
  cases hu : (UpdateViewState env { mw with m_ViewState := requestedViewState vs }
      (decide (mw.m_ViewState ≠ requestedViewState vs))).1 with
  | false => rw [(SetViewState_of_failure env mw vs hu).1, hm]
  | true =>
    rw [SetViewState_of_success env mw vs hu, UpdateViewState_keeps]
    · exact hreq
    · show requestedViewState vs = _ ∨ requestedViewState vs = _ ∨ requestedViewState vs = _
      rw [hreq]
      exact h

theorem SetDefaultViewState_m_ViewState (code : ViewState → ℤ) (env : Env) (mw : MainWindow)
    (v : ℤ) :
    (SetDefaultViewState code env mw v).m_ViewState =
      if v = code .ViewState_PreviewView then .ViewState_PreviewView
      else if v = code .ViewState_CodeView then .ViewState_CodeView
      else .ViewState_BookView := by
  unfold SetDefaultViewState
  apply SetViewState_same
  · rfl
  · split_ifs
    · exact Or.inl rfl
    · exact Or.inr (Or.inl rfl)
    · exact Or.inr (Or.inr rfl)

theorem runViewStateCommands_ne_Unknown (code : ViewState → ℤ)
    (commands : List ViewStateCommand) :
    ∀ mw : MainWindow, mw.m_ViewState ≠ .ViewState_Unknown →
      (runViewStateCommands code mw commands).m_ViewState ≠ .ViewState_Unknown := by
  induction commands with
  | nil => intro mw h; exact h
  | cons c rest ih =>
    intro mw h
    unfold runViewStateCommands
    rw [List.foldl_cons]
    apply ih
    cases c with
    | SetViewState env vs =>
      show (SetViewState env mw vs).m_ViewState ≠ .ViewState_Unknown
      rcases SetViewState_m_ViewState env mw vs with h2 | h2 | h2
      · rw [h2]; exact h
      · rw [h2]; exact requestedViewState_ne_Unknown vs
      · rw [h2]; decide
    | SetDefaultViewState env v =>
      show (SetDefaultViewState code env mw v).m_ViewState ≠ .ViewState_Unknown
      rw [SetDefaultViewState_m_ViewState]
      split_ifs <;> decide
    | UpdateViewState env b =>
      show (UpdateViewState env mw b).2.m_ViewState ≠ .ViewState_Unknown
      rcases UpdateViewState_m_ViewState env mw b with h2 | h2
      · rw [h2]; exact h
      · rw [h2]; decide

/-- C30: `m_ViewState` is never `ViewState_Unknown`.  It is `BookView` on construction and
stays different from `Unknown` under every sequence of `SetViewState`,
`SetDefaultViewState` and `UpdateViewState` calls, whatever tabs they meet;
`SetViewState(Unknown)` is `SetViewState(BookView)`; `SetDefaultViewState` leaves
`m_ViewState` at `PreviewView` or `CodeView` when the stored setting has that value and at
`BookView` otherwise; a `SetViewState` whose `UpdateViewState` fails leaves `m_ViewState` as
it was; and a `SetViewState` that succeeds with an HTML tab active leaves `m_ViewState` at
the requested `CodeView` or `PreviewView`, and at `BookView` for every other request. -/
theorem m_ViewState_never_Unknown (code : ViewState → ℤ) (ui : Ui)
    (commands : List ViewStateCommand) :
    (MainWindow.initial ui).m_ViewState = .ViewState_BookView ∧
    (runViewStateCommands code (MainWindow.initial ui) commands).m_ViewState ≠
      .ViewState_Unknown ∧
    (∀ env mw, SetViewState env mw .ViewState_Unknown =
      SetViewState env mw .ViewState_BookView) ∧
    (∀ env mw v, (SetDefaultViewState code env mw v).m_ViewState =
      if v = code .ViewState_PreviewView then .ViewState_PreviewView
      else if v = code .ViewState_CodeView then .ViewState_CodeView
      else .ViewState_BookView) ∧
    (∀ env mw vs,
      (UpdateViewState env { mw with m_ViewState := requestedViewState vs }
        (decide (mw.m_ViewState ≠ requestedViewState vs))).1 = false →
      (SetViewState env mw vs).m_ViewState = mw.m_ViewState) ∧
    (∀ env mw vs t, env.tab = some t → t.resourceType = .HTMLResourceType →
      (UpdateViewState env { mw with m_ViewState := requestedViewState vs }
        (decide (mw.m_ViewState ≠ requestedViewState vs))).1 = true →
      (SetViewState env mw vs).m_ViewState =
        if vs = .ViewState_CodeView then .ViewState_CodeView
        else if vs = .ViewState_PreviewView then .ViewState_PreviewView
        else .ViewState_BookView) :=
  ⟨rfl, runViewStateCommands_ne_Unknown code commands _ (fun h => ViewState.noConfusion h),
    fun _ _ => rfl,
    SetDefaultViewState_m_ViewState code,
    fun env mw vs h => (SetViewState_of_failure env mw vs h).1,
    SetViewState_html_success⟩

theorem m_ViewState_never_Unknown_witness :
    (SetViewState ⟨some (plainTab .HTMLResourceType), true⟩ bookViewWindow
      .ViewState_RawView).m_ViewState = .ViewState_BookView :=
  (m_ViewState_never_Unknown sampleViewStateCode bookViewWindow.ui []).2.2.2.2.2
    ⟨some (plainTab .HTMLResourceType), true⟩ bookViewWindow .ViewState_RawView
    (plainTab .HTMLResourceType) rfl rfl (by decide)

/-! ## Zoom steps never stall inside the zoom range -/

theorem ZoomByStep_eq_target (R : ℚ → ℚ) (t : ContentTab) (zoom_in : Bool) :
    ZoomByStep R (some t) zoom_in =
      ZoomByFactor (some t) (ZoomByStep_target R t.zoomFactor zoom_in) := by
  unfold ZoomByStep ZoomByStep_target
  simp only
  split_ifs <;> rfl

theorem roundNE_intCast (m : ℤ) : roundNE (m : ℚ) = m := by
  unfold roundNE
  simp

theorem f32_grid {x : ℚ} (hx : 1 / 16 ≤ |x|) : ∃ n : ℤ, f32 x = (n : ℚ) / 2 ^ 27 := by
  have hx0 : x ≠ 0 := by
    intro h
    rw [h] at hx
    norm_num at hx
  obtain ⟨_, hu⟩ := ilog2_spec x hx0
  have hlog : -4 ≤ ilog2 x := by
    by_contra hc
    push_neg at hc
    have h1 : ilog2 x + 1 ≤ -4 := by omega
    have h2 := pow2_le h1
    have h3 : pow2 (-4) = 1 / 16 := by
      rw [pow2_eq]; norm_num
    linarith
  unfold f32 rnd
  rw [if_neg hx0]
  simp only
  set e := max (ilog2 x + 1 - 24) (-149) with he
  have hge : -27 ≤ e := le_max_of_le_left (by omega)
  have hp : pow2 e = ((2 ^ (e + 27).toNat : ℕ) : ℚ) / 2 ^ 27 := by
    have h1 : e = (((e + 27).toNat : ℕ) : ℤ) + (-(27 : ℕ) : ℤ) := by
      rw [Int.toNat_of_nonneg (by omega)]
      push_cast
      ring
    rw [h1, pow2_add, pow2_nat, pow2_neg_nat]
    rw [← h1]
    push_cast
    ring
  refine ⟨roundNE (x / pow2 e) * (2 ^ (e + 27).toNat : ℕ), ?_⟩
  rw [hp]
  push_cast
  ring

theorem f32_exact {x : ℚ} (n : ℤ) (hx : x = (n : ℚ) / 2 ^ 27) (hn : |x| < 1 / 8) :
    f32 x = x := by
  unfold f32 rnd
  split_ifs with h0
  · exact h0.symm
  · simp only
    obtain ⟨hl, _⟩ := ilog2_spec x h0
    have hlog : ilog2 x ≤ -4 := by
      by_contra hc
      push_neg at hc
      have h1 : -3 ≤ ilog2 x := by omega
      have h2 := pow2_le h1
      have h3 : pow2 (-3) = 1 / 8 := by
        rw [pow2_eq]; norm_num
      linarith
    set e := max (ilog2 x + 1 - 24) (-149) with he
    have hle : e ≤ -27 := max_le (by omega) (by omega)
    have hpe := pow2_pos e
    have hq : x / pow2 e = ((n * (2 ^ (-27 - e).toNat : ℕ) : ℤ) : ℚ) := by
      have h1 : pow2 e * pow2 (((-27 - e).toNat : ℕ) : ℤ) = pow2 (-(27 : ℕ)) := by
        rw [← pow2_add]
        congr 1
        rw [Int.toNat_of_nonneg (by omega)]
        push_cast
        ring
      rw [pow2_nat, pow2_neg_nat] at h1
      rw [div_eq_iff hpe.ne', hx]
      push_cast
      have h2 : (n : ℚ) * 2 ^ (-27 - e).toNat * pow2 e =
          (n : ℚ) * (pow2 e * 2 ^ (-27 - e).toNat) := by ring
      rw [h2, h1]
      ring
    rw [hq, roundNE_intCast, ← hq]
    field_simp

theorem f32_zero : f32 0 = 0 := by
  unfold f32 rnd
  simp

theorem grid_sub_exact {c r : ℚ} (hc : ∃ m : ℤ, c = (m : ℚ) / 2 ^ 27)
    (hr : ∃ n : ℤ, r = (n : ℚ) / 2 ^ 27) (hd : |c - r| < 1 / 8) : f32 (c - r) = c - r := by
  obtain ⟨m, hm⟩ := hc
  obtain ⟨n, hn⟩ := hr
  apply f32_exact (m - n)
  · rw [hm, hn]
    push_cast
    ring
  · exact hd

theorem grid_step_ge {c r : ℚ} (hc : ∃ m : ℤ, c = (m : ℚ) / 2 ^ 27)
    (hr : ∃ n : ℤ, r = (n : ℚ) / 2 ^ 27) (h : 5368709 / 536870912 ≤ c - r) :
    1342178 / 134217728 ≤ c - r := by
  obtain ⟨m, hm⟩ := hc
  obtain ⟨n, hn⟩ := hr
  have hd : c - r = ((m - n : ℤ) : ℚ) / 2 ^ 27 := by
    rw [hm, hn]
    push_cast
    ring
  rw [hd] at h ⊢
  have h1 : (5368709 : ℚ) ≤ 4 * ((m - n : ℤ) : ℚ) := by
    have : (0 : ℚ) < 2 ^ 27 := by positivity
    rw [le_div_iff₀ this] at h
    norm_num at h
    linarith
  have h2 : (5368709 : ℤ) ≤ 4 * (m - n) := by exact_mod_cast h1
  have h3 : (1342178 : ℤ) ≤ m - n := by omega
  have h4 : (1342178 : ℚ) ≤ ((m - n : ℤ) : ℚ) := by exact_mod_cast h3
  rw [le_div_iff₀ (by positivity)]
  norm_num
  linarith

theorem float_grid {c : ℚ} (hf : IsFloat c) (h0 : 9 / 100 ≤ c) :
    ∃ m : ℤ, c = (m : ℚ) / 2 ^ 27 := by
  have h := f32_grid (x := c) (by rw [abs_of_nonneg (by linarith)]; linarith)
  unfold IsFloat at hf
  rw [hf] at h
  exact h

theorem tenth_grid (k : ℤ) (hk : 0 ≤ k) : ∃ n : ℤ, f32 ((k : ℚ) / 10) = (n : ℚ) / 2 ^ 27 := by
  rcases eq_or_lt_of_le hk with h | h
  · refine ⟨0, ?_⟩
    rw [← h]
    simp [f32_zero]
  · have h1 : (1 : ℚ) ≤ (k : ℚ) := by exact_mod_cast (show 1 ≤ k by omega)
    apply f32_grid
    rw [abs_of_nonneg (by positivity)]
    linarith

theorem zoomIn_step {R : ℚ → ℚ} (hR : IsRoundToOneDecimal R) (c : ℚ) (hf : IsFloat c)
    (h0 : 9 / 100 ≤ c) (h1 : c ≤ 5) :
    (∃ K : ℤ, ZoomByStep_target R c true = f32 ((K : ℚ) / 10)) ∧
      c + 1 / 100 ≤ ZoomByStep_target R c true := by
  unfold ZoomByStep_target
  simp only [if_true]
  rw [half_step_eq, ZOOM_STEP_eq, hundredth_eq, qAbs_eq]
  obtain ⟨k, hk1, hk2⟩ := hR (f32 (c + 13421773 / 268435456))
  have e1 := f32_err_le_eight (x := c + 13421773 / 268435456)
    (by rw [abs_le]; constructor <;> linarith)
  rw [abs_le] at e1 hk2
  rw [hk1]
  generalize f32 (c + 13421773 / 268435456) = x1 at e1 hk2
  have e2 := f32_err_le_eight (x := (k : ℚ) / 10)
    (by rw [abs_le]; constructor <;> linarith [e1.1, e1.2, hk2.1, hk2.2])
  rw [abs_le] at e2
  norm_num at e1 e2
  have hkpos : 0 ≤ k := by
    have : (-1 : ℚ) < (k : ℚ) := by linarith [e1.1, e1.2, hk2.1, hk2.2]
    have : (-1 : ℤ) < k := by exact_mod_cast this
    omega
  have hrgrid := tenth_grid k hkpos
  have hcgrid := float_grid hf h0
  generalize hr : f32 ((k : ℚ) / 10) = r at e2 hrgrid ⊢
  have hd : |c - r| < 1 / 8 := by
    rw [abs_lt]
    constructor <;> linarith [e1.1, e1.2, hk2.1, hk2.2, e2.1, e2.2]
  rw [grid_sub_exact hcgrid hrgrid hd]
  by_cases htest : |c - r| < 5368709 / 536870912
  · rw [if_pos htest]
    rw [abs_lt] at htest
    obtain ⟨k2, hk21, hk22⟩ := hR (f32 (c + 13421773 / 134217728))
    have e4 := f32_err_le_eight (x := c + 13421773 / 134217728)
      (by rw [abs_le]; constructor <;> linarith)
    rw [abs_le] at e4 hk22
    rw [hk21]
    generalize f32 (c + 13421773 / 134217728) = x2 at e4 hk22
    have e5 := f32_err_le_eight (x := (k2 : ℚ) / 10)
      (by rw [abs_le]; constructor <;> linarith [e4.1, e4.2, hk22.1, hk22.2])
    rw [abs_le] at e5
    norm_num at e4 e5
    refine ⟨⟨k2, rfl⟩, ?_⟩
    linarith [e4.1, e4.2, hk22.1, hk22.2, e5.1, e5.2]
  · rw [if_neg htest]
    refine ⟨⟨k, hr.symm⟩, ?_⟩
    rw [not_lt, le_abs] at htest
    rcases htest with hh | hh
    · exfalso
      linarith [e1.1, e1.2, hk2.1, hk2.2, e2.1, e2.2]
    · have hh2 : (5368709 : ℚ) / 536870912 ≤ r - c := by linarith
      have := grid_step_ge hrgrid hcgrid hh2
      linarith

theorem zoomOut_step {R : ℚ → ℚ} (hR : IsRoundToOneDecimal R) (c : ℚ) (hf : IsFloat c)
    (h0 : 9 / 100 ≤ c) (h1 : c ≤ 5) :
    (∃ K : ℤ, ZoomByStep_target R c false = f32 ((K : ℚ) / 10)) ∧
      ZoomByStep_target R c false + 1 / 100 ≤ c := by
  unfold ZoomByStep_target
  simp only [Bool.false_eq_true, if_false]
  rw [half_step_eq, ZOOM_STEP_eq, hundredth_eq, qAbs_eq]
  obtain ⟨k, hk1, hk2⟩ := hR (f32 (c + -(13421773 / 268435456)))
  have e1 := f32_err_le_eight (x := c + -(13421773 / 268435456))
    (by rw [abs_le]; constructor <;> linarith)
  rw [abs_le] at e1 hk2
  rw [hk1]
  generalize f32 (c + -(13421773 / 268435456)) = x1 at e1 hk2
  have e2 := f32_err_le_eight (x := (k : ℚ) / 10)
    (by rw [abs_le]; constructor <;> linarith [e1.1, e1.2, hk2.1, hk2.2])
  rw [abs_le] at e2
  norm_num at e1 e2
  have hkpos : 0 ≤ k := by
    have : (-1 : ℚ) < (k : ℚ) := by linarith [e1.1, e1.2, hk2.1, hk2.2]
    have : (-1 : ℤ) < k := by exact_mod_cast this
    omega
  have hrgrid := tenth_grid k hkpos
  have hcgrid := float_grid hf h0
  generalize hr : f32 ((k : ℚ) / 10) = r at e2 hrgrid ⊢
  have hd : |c - r| < 1 / 8 := by
    rw [abs_lt]
    constructor <;> linarith [e1.1, e1.2, hk2.1, hk2.2, e2.1, e2.2]
  rw [grid_sub_exact hcgrid hrgrid hd]
  by_cases htest : |c - r| < 5368709 / 536870912
  · rw [if_pos htest]
    rw [abs_lt] at htest
    obtain ⟨k2, hk21, hk22⟩ := hR (f32 (c + -(13421773 / 134217728)))
    have e4 := f32_err_le_eight (x := c + -(13421773 / 134217728))
      (by rw [abs_le]; constructor <;> linarith)
    rw [abs_le] at e4 hk22
    rw [hk21]
    generalize f32 (c + -(13421773 / 134217728)) = x2 at e4 hk22
    have e5 := f32_err_le_eight (x := (k2 : ℚ) / 10)
      (by rw [abs_le]; constructor <;> linarith [e4.1, e4.2, hk22.1, hk22.2])
    rw [abs_le] at e5
    norm_num at e4 e5
    refine ⟨⟨k2, rfl⟩, ?_⟩
    linarith [e4.1, e4.2, hk22.1, hk22.2, e5.1, e5.2]
  · rw [if_neg htest]
    refine ⟨⟨k, hr.symm⟩, ?_⟩
    rw [not_lt, le_abs] at htest
    rcases htest with hh | hh
    · have := grid_step_ge hcgrid hrgrid hh
      linarith
    · exfalso
      linarith [e1.1, e1.2, hk2.1, hk2.2, e2.1, e2.2]

/-- C29 (as stated) fails outside the zoom range: for the `float` `2097152` (2 ^ 21), whose
neighbours are 0.25 apart, adding `0.05f` or `0.1f` changes nothing, and with
`RoundToOneDecimal` rounding to the nearest tenth `ZoomByStep(true)` passes `2097152`
itself to `ZoomByFactor`, a value that is not greater than the current factor. -/
theorem ZoomByStep_target_stalls_counterexample :
    IsFloat 2097152 ∧ ZoomByStep_target RoundToOneDecimal 2097152 true = 2097152 := by
  decide!

/-- C29 (amended): for every `float` zoom factor `f` within the zoom range `[0.09, 5.0]`
and every rounding helper that rounds to the nearest tenth, the value that
`ZoomByStep(true)` passes to `ZoomByFactor` is the `float` of a tenth `K / 10`, strictly
greater than `f` and at least `0.01` above it, and the value that `ZoomByStep(false)`
passes is the `float` of a tenth, strictly smaller than `f` and at least `0.01` below
it. -/
theorem ZoomByStep_never_stalls (R : ℚ → ℚ) (hR : IsRoundToOneDecimal R) (t : ContentTab)
    (hf : IsFloat t.zoomFactor) (h0 : 9 / 100 ≤ t.zoomFactor) (h1 : t.zoomFactor ≤ 5) :
    (ZoomByStep R (some t) true =
        ZoomByFactor (some t) (ZoomByStep_target R t.zoomFactor true) ∧
      (∃ K : ℤ, ZoomByStep_target R t.zoomFactor true = f32 ((K : ℚ) / 10)) ∧
      t.zoomFactor < ZoomByStep_target R t.zoomFactor true ∧
      1 / 100 ≤ ZoomByStep_target R t.zoomFactor true - t.zoomFactor) ∧
    (ZoomByStep R (some t) false =
        ZoomByFactor (some t) (ZoomByStep_target R t.zoomFactor false) ∧
      (∃ K : ℤ, ZoomByStep_target R t.zoomFactor false = f32 ((K : ℚ) / 10)) ∧
      ZoomByStep_target R t.zoomFactor false < t.zoomFactor ∧
      1 / 100 ≤ t.zoomFactor - ZoomByStep_target R t.zoomFactor false) := by
  obtain ⟨hi1, hi2⟩ := zoomIn_step hR t.zoomFactor hf h0 h1
  obtain ⟨ho1, ho2⟩ := zoomOut_step hR t.zoomFactor hf h0 h1
  exact ⟨⟨ZoomByStep_eq_target R t true, hi1, by linarith, by linarith⟩,
    ⟨ZoomByStep_eq_target R t false, ho1, by linarith, by linarith⟩⟩

theorem ZoomByStep_never_stalls_witness :
    (plainTab .HTMLResourceType).zoomFactor <
        ZoomByStep_target RoundToOneDecimal (plainTab .HTMLResourceType).zoomFactor true ∧
      ZoomByStep_target RoundToOneDecimal (plainTab .HTMLResourceType).zoomFactor false <
        (plainTab .HTMLResourceType).zoomFactor :=
  ⟨(ZoomByStep_never_stalls RoundToOneDecimal RoundToOneDecimal_spec
      (plainTab .HTMLResourceType) (by decide!) (by norm_num [plainTab])
      (by norm_num [plainTab])).1.2.2.1,
   (ZoomByStep_never_stalls RoundToOneDecimal RoundToOneDecimal_spec
      (plainTab .HTMLResourceType) (by decide!) (by norm_num [plainTab])
      (by norm_num [plainTab])).2.2.2.1⟩

/-! ## Zoom bounds on the full value set of `float` -/

theorem roundToFloat_ne_NaN (x : ℚ) : IEEE.roundToFloat x ≠ .NaN := by
  unfold IEEE.roundToFloat
  split_ifs <;> exact fun h => FloatValue.noConfusion h

theorem IEEE_add_finite_ne_NaN (a b : ℚ) : IEEE.add (.finite a) (.finite b) ≠ .NaN :=
  roundToFloat_ne_NaN (a + b)

theorem IEEE_extend_ne_NaN (R : ℚ → ℚ) (x : FloatValue) (h : x ≠ .NaN) :
    IEEE.extend R x ≠ .NaN := by
  cases x with
  | finite q => exact fun h => FloatValue.noConfusion h
  | posInf => exact fun h => FloatValue.noConfusion h
  | negInf => exact fun h => FloatValue.noConfusion h
  | NaN => exact absurd rfl h

theorem IEEE_ZoomByFactor_inRange (t : IEEE.ContentTab) (x : FloatValue) (hx : x ≠ .NaN)
    (h : ∃ q, t.zoomFactor = .finite q ∧ ZOOM_MIN ≤ q ∧ q ≤ ZOOM_MAX) :
    ∃ t1 q1, IEEE.ZoomByFactor (some t) x = some t1 ∧ t1.zoomFactor = .finite q1 ∧
      ZOOM_MIN ≤ q1 ∧ q1 ≤ ZOOM_MAX := by
  obtain ⟨q, hq, h0, h1⟩ := h
  unfold IEEE.ZoomByFactor
  cases x with
  | NaN => exact absurd rfl hx
  | posInf => exact ⟨t, q, rfl, hq, h0, h1⟩
  | negInf => exact ⟨t, q, rfl, hq, h0, h1⟩
  | finite v =>
    simp only [IEEE.gt, IEEE.lt, Bool.or_eq_true, decide_eq_true_eq]
    split_ifs with hc
    · exact ⟨t, q, rfl, hq, h0, h1⟩
    · push_neg at hc
      exact ⟨_, v, rfl, rfl, hc.2, hc.1⟩

theorem IEEE_ZoomByStep_inRange (R : FloatValue → FloatValue)
    (hR : ∀ x, x ≠ .NaN → R x ≠ .NaN) (t : IEEE.ContentTab) (zoom_in : Bool)
    (h : ∃ q, t.zoomFactor = .finite q ∧ ZOOM_MIN ≤ q ∧ q ≤ ZOOM_MAX) :
    ∃ t1 q1, IEEE.ZoomByStep R (some t) zoom_in = some t1 ∧ t1.zoomFactor = .finite q1 ∧
      ZOOM_MIN ≤ q1 ∧ q1 ≤ ZOOM_MAX := by
  obtain ⟨q, hq, h0, h1⟩ := h
  unfold IEEE.ZoomByStep
  cases zoom_in <;> simp only [hq, if_true, Bool.false_eq_true, if_false] <;> split_ifs <;>
    exact IEEE_ZoomByFactor_inRange t _ (hR _ (IEEE_add_finite_ne_NaN _ _)) ⟨q, hq, h0, h1⟩

theorem IEEE_SliderZoom_inRange (t : IEEE.ContentTab) (v : ℤ)
    (h : ∃ q, t.zoomFactor = .finite q ∧ ZOOM_MIN ≤ q ∧ q ≤ ZOOM_MAX) :
    ∃ t1 q1, IEEE.SliderZoom (some t) v = some t1 ∧ t1.zoomFactor = .finite q1 ∧
      ZOOM_MIN ≤ q1 ∧ q1 ≤ ZOOM_MAX := by
  unfold IEEE.SliderZoom
  simp only
  split_ifs
  · exact IEEE_ZoomByFactor_inRange t _ (fun h => FloatValue.noConfusion h) h
  · obtain ⟨q, hq, h0, h1⟩ := h
    exact ⟨t, q, rfl, hq, h0, h1⟩

theorem IEEE_runZoomCommand_inRange (R : FloatValue → FloatValue)
    (hR : ∀ x, x ≠ .NaN → R x ≠ .NaN) (t : IEEE.ContentTab) (c : ZoomCommand)
    (h : ∃ q, t.zoomFactor = .finite q ∧ ZOOM_MIN ≤ q ∧ q ≤ ZOOM_MAX) :
    ∃ t1 q1, IEEE.runZoomCommand R (some t) c = some t1 ∧ t1.zoomFactor = .finite q1 ∧
      ZOOM_MIN ≤ q1 ∧ q1 ≤ ZOOM_MAX := by
  cases c with
  | zoomIn => exact IEEE_ZoomByStep_inRange R hR t true h
  | zoomOut => exact IEEE_ZoomByStep_inRange R hR t false h
  | zoomReset => exact IEEE_ZoomByFactor_inRange t _ (fun h => FloatValue.noConfusion h) h
  | zoomByStep b => exact IEEE_ZoomByStep_inRange R hR t b h
  | sliderZoom v => exact IEEE_SliderZoom_inRange t v h

theorem IEEE_runZoomCommands_inRange (R : FloatValue → FloatValue)
    (hR : ∀ x, x ≠ .NaN → R x ≠ .NaN) (cmds : List ZoomCommand) :
    ∀ t : IEEE.ContentTab, (∃ q, t.zoomFactor = .finite q ∧ ZOOM_MIN ≤ q ∧ q ≤ ZOOM_MAX) →
    ∃ t1 q1, IEEE.runZoomCommands R (some t) cmds = some t1 ∧ t1.zoomFactor = .finite q1 ∧
      ZOOM_MIN ≤ q1 ∧ q1 ≤ ZOOM_MAX := by
  induction cmds with
  | nil =>
    intro t h
    obtain ⟨q, hq, h0, h1⟩ := h
    exact ⟨t, q, rfl, hq, h0, h1⟩
  | cons c cs ih =>
    intro t h
    obtain ⟨t1, q1, e1, hq1, h1⟩ := IEEE_runZoomCommand_inRange R hR t c h
    obtain ⟨t2, q2, e2, h2⟩ := ih t1 ⟨q1, hq1, h1⟩
    refine ⟨t2, q2, ?_, h2⟩
    unfold IEEE.runZoomCommands at e2 ⊢
    rw [List.foldl_cons, e1]
    exact e2

theorem IEEE_ZoomByFactor_finite (t : ContentTab) (x : ℚ) :
    (IEEE.ZoomByFactor (some ⟨.finite t.zoomFactor⟩) (.finite x)).map
        (fun t1 => t1.zoomFactor)
      = (ZoomByFactor (some t) x).map (fun t1 => FloatValue.finite t1.zoomFactor) := by
  unfold IEEE.ZoomByFactor ZoomByFactor
  simp only [IEEE.gt, IEEE.lt, Bool.or_eq_true, decide_eq_true_eq, gt_iff_lt]
  split_ifs <;> rfl

/-- C5 (as stated) fails: with a rounding helper that returns NaN, one `ZoomIn`
from the factor 1.0, which lies in `[0.09, 5.0]`, stores NaN as the zoom factor of the tab:
both comparisons of the guard of `ZoomByFactor` are false for NaN. -/
theorem ZoomIn_stores_NaN_counterexample :
    IsFloat 1 ∧ (9 / 100 : ℚ) ≤ 1 ∧ (1 : ℚ) ≤ 5 ∧
    IEEE.runZoomCommands (fun _ => FloatValue.NaN) (some ⟨.finite 1⟩) [.zoomIn]
      = some ⟨.NaN⟩ ∧
    ∀ q : ℚ, FloatValue.NaN ≠ .finite q :=
  ⟨by decide!, by norm_num, by norm_num, by decide, fun _ h => FloatValue.noConfusion h⟩

/-- C5: `ZoomByFactor(x)` leaves the zoom factor of the current tab unchanged when the float
`x` is above 5.0 or below 0.09, an infinity included, and otherwise sets it to exactly `x`,
a NaN included; hence, starting from a float factor in `[0.09, 5.0]`, every sequence of
`ZoomIn`, `ZoomOut`, `ZoomReset`, `ZoomByStep` and `SliderZoom` calls leaves the tab with a
float factor in `[0.09, 5.0]`, for every rounding helper that returns NaN only for a NaN
argument. -/
theorem ZoomByFactor_keeps_bounds_unless_NaN :
    (∀ (t : IEEE.ContentTab) (x : ℚ), IsFloat x → (x > 5 ∨ x < 9 / 100) →
      IEEE.ZoomByFactor (some t) (.finite x) = some t) ∧
    (∀ t : IEEE.ContentTab, IEEE.ZoomByFactor (some t) .posInf = some t ∧
      IEEE.ZoomByFactor (some t) .negInf = some t) ∧
    (∀ (t : IEEE.ContentTab) (x : ℚ), IsFloat x → ¬ (x > 5 ∨ x < 9 / 100) →
      IEEE.ZoomByFactor (some t) (.finite x) = some { t with zoomFactor := .finite x }) ∧
    (∀ t : IEEE.ContentTab,
      IEEE.ZoomByFactor (some t) .NaN = some { t with zoomFactor := .NaN }) ∧
    (∀ (RoundToOneDecimal : FloatValue → FloatValue) (t : IEEE.ContentTab)
      (cmds : List ZoomCommand) (f : ℚ),
      (∀ x, x ≠ .NaN → RoundToOneDecimal x ≠ .NaN) →
      t.zoomFactor = .finite f → IsFloat f → 9 / 100 ≤ f → f ≤ 5 →
      ∃ t1 f1, IEEE.runZoomCommands RoundToOneDecimal (some t) cmds = some t1 ∧
        t1.zoomFactor = .finite f1 ∧ 9 / 100 ≤ f1 ∧ f1 ≤ 5) := by
  refine ⟨?_, ?_, ?_, ?_, ?_⟩
  · intro t x hx h
    unfold IEEE.ZoomByFactor
    simp only [IEEE.gt, IEEE.lt, Bool.or_eq_true, decide_eq_true_eq]
    rw [if_pos]
    rw [ZOOM_MAX_eq, float_lt_ZOOM_MIN_iff hx]
    exact h
  · intro t
    exact ⟨rfl, rfl⟩
  · intro t x hx h
    unfold IEEE.ZoomByFactor
    simp only [IEEE.gt, IEEE.lt, Bool.or_eq_true, decide_eq_true_eq]
    rw [if_neg]
    rw [ZOOM_MAX_eq, float_lt_ZOOM_MIN_iff hx]
    exact h
  · intro t
    rfl
  · intro R t cmds f hR hf hfl h0 h1
    obtain ⟨t1, f1, e1, hf1, h2, h3⟩ := IEEE_runZoomCommands_inRange R hR cmds t
      ⟨f, hf, float_ge_ZOOM_MIN hfl h0, by rw [ZOOM_MAX_eq]; exact h1⟩
    rw [ZOOM_MIN_eq] at h2
    rw [ZOOM_MAX_eq] at h3
    exact ⟨t1, f1, e1, hf1, by linarith, h3⟩

theorem ZoomByFactor_keeps_bounds_unless_NaN_witness :
    IEEE.ZoomByFactor (some ⟨.finite 1⟩) (.finite 6) = some ⟨.finite 1⟩ ∧
    IEEE.ZoomByFactor (some ⟨.finite 1⟩) .posInf = some ⟨.finite 1⟩ ∧
    IEEE.ZoomByFactor (some ⟨.finite 1⟩) (.finite 2) = some ⟨.finite 2⟩ ∧
    IEEE.ZoomByFactor (some ⟨.finite 1⟩) .NaN = some ⟨.NaN⟩ ∧
    ∃ t1 f1, IEEE.runZoomCommands (IEEE.extend RoundToOneDecimal) (some ⟨.finite 1⟩)
        [.zoomIn, .sliderZoom 2000, .zoomOut, .zoomReset] = some t1 ∧
      t1.zoomFactor = .finite f1 ∧ 9 / 100 ≤ f1 ∧ f1 ≤ 5 :=
  ⟨ZoomByFactor_keeps_bounds_unless_NaN.1 ⟨.finite 1⟩ 6 (by decide!) (Or.inl (by norm_num)),
   (ZoomByFactor_keeps_bounds_unless_NaN.2.1 ⟨.finite 1⟩).1,
   ZoomByFactor_keeps_bounds_unless_NaN.2.2.1 ⟨.finite 1⟩ 2 (by decide!) (by norm_num),
   ZoomByFactor_keeps_bounds_unless_NaN.2.2.2.1 ⟨.finite 1⟩,
   ZoomByFactor_keeps_bounds_unless_NaN.2.2.2.2 (IEEE.extend RoundToOneDecimal) ⟨.finite 1⟩
      [.zoomIn, .sliderZoom 2000, .zoomOut, .zoomReset] 1 (IEEE_extend_ne_NaN _) rfl
      (by decide!) (by norm_num) (by norm_num)⟩

end Sigil
